/-
A verification development for the AudioSRC polyphase sample-rate converter
(src/libraries/audio/src/AudioSRC.cpp).  The source is shallowly embedded:
32/64-bit integer arithmetic is modelled over ZZ with explicit use of the
high and low 32-bit words of the Q32.32 phase accumulator, float samples and
coefficients are modelled as exact rationals, the unbounded while loops of
the filters take an explicit fuel argument together with a proof that the
loop guard, not the fuel, ended the run, and the prototype filter table is
the exact list of rationals denoted by the decimal literals of the source.
-/
import Mathlib

set_option maxRecDepth 4000

/-- Numerators of the prototype filter coefficients over the common denominator
10 ^ 15: entry n denotes the exact rational n / 10 ^ 15 written as a decimal
literal in the source table.  Split into blocks to keep elaboration cheap. -/
def protoBlock0 : List Int := [
    0, 15502170300, 14605486500, 20705716000, 29133551900, 40009107800, 53354445000, 70361846800,
    91082163900, 116484613000, 147165999000, 184168304000, 228429617000, 280913884000, 342940399000, 415773039000,
    501023255000, 600234953000, 715133271000, 847838855000, 1000325160000, 1175088810000, 1374525500000, 1601476140000,
    1858864580000, 2149850240000, 2477830710000, 2846667640000, 3260168780000, 3722527970000, 4238259000000, 4812078740000,
    5449041430000, 6154472080000, 6933999290000, 7793370590000, 8739033920000, 9777291170000, 10914956100000, 12159131600000,
    13517116400000, 14996543900000, 16605313600000, 18351538400000, 20243536200000, 22289914100000, 24499534000000, 26881336200000,
    29444325400000, 32197992800000, 35151469000000, 38314371900000, 41696056000000, 45306050400000, 49153811500000, 53248619700000,
    57599865000000, 62216425300000, 67107281100000, 72280978900000, 77745755200000, 83509523300000, 89579694400000, 95963176800000,
    102666457000000, 109695215000000, 117054591000000, 124748885000000, 132781656000000, 141155521000000, 149872243000000, 158932534000000,
    168335961000000, 178081143000000, 188165339000000, 198584621000000, 209333789000000, 220406193000000, 231793899000000, 243487398000000,
    255475740000000, 267746404000000, 280285305000000, 293076743000000, 306103423000000, 319346351000000, 332784916000000, 346396772000000,
    360158039000000, 374043042000000, 388024564000000, 402073759000000, 416160177000000, 430251886000000, 444315429000000, 458315954000000,
    472217175000000, 485981675000000, 499570709000000, 512944586000000, 526062401000000, 538882630000000, 551362766000000, 563459860000000,
    575130384000000, 586330458000000, 597016050000000, 607143161000000, 616667840000000, 625546499000000, 633735979000000, 641193959000000,
    647878856000000, 653750084000000, 658768549000000, 662896349000000, 666097381000000, 668337353000000, 669583869000000, 669807061000000,
    668979117000000, 667075139000000, 664072812000000, 659952827000000, 654699116000000, 648298688000000, 640742160000000, 632023668000000,
    622141039000000, 611095903000000, 598893921000000, 585544600000000, 571061707000000, 555463040000000, 538770639000000, 521010762000000,
    502213839000000, 482414572000000, 461651859000000, 439968628000000, 417412000000000, 394032951000000, 369886464000000, 345031084000000,
    319529091000000, 293446187000000, 266851164000000, 239815999000000, 212415399000000, 184726660000000, 156829293000000, 128804933000000,
    100736965000000, 72710035500000, 44810081000000, 17123741500000, -10262022800000, -37259959100000, -63783287100000, -89745773300000,
    -115062201000000, -139648782000000, -163423488000000, -186306368000000, -208220103000000, -229090072000000, -248845046000000, -267417270000000,
    -284742946000000, -300762597000000, -315421127000000, -328668542000000, -340459849000000, -350755400000000, -359521402000000, -366729768000000,
    -372358475000000, -376391839000000, -378820421000000, -379641287000000, -378858203000000, -376481336000000, -372527677000000, -367020780000000,
    -359990760000000, -351474372000000, -341514630000000, -330160971000000, -317468898000000, -303499788000000, -288320749000000, -272004315000000]

def protoBlock1 : List Int := [
    -254628056000000, -236274454000000, -217030464000000, -196986952000000, -176238733000000, -154883647000000, -133022496000000, -110758449000000,
    -88196446600000, -65443050400000, -42605547500000, -19791641500000, 2891081840000, 25335586800000, 47436220100000, 69088751800000,
    90191430800000, 110644978000000, 130353494000000, 149224772000000, 167170735000000, 184107975000000, 199958067000000, 214648181000000,
    228111323000000, 240286622000000, 251119890000000, 260563701000000, 268577740000000, 275129027000000, 280192144000000, 283749177000000,
    285790223000000, 286312986000000, 285323221000000, 282834421000000, 278867915000000, 273452721000000, 266625431000000, 258429983000000,
    248917457000000, 238145826000000, 226179680000000, 213089734000000, 198952740000000, 183850758000000, 167870897000000, 151104879000000,
    133648388000000, 115600665000000, 97063976300000, 78142911900000, 58943988900000, 39574974600000, 20144235300000, 760241152000,
    -18469099000000, -37437039700000, -56038597000000, -74171103900000, -91734868600000, -108633632000000, -124775254000000, -140071993000000,
    -154441372000000, -167806284000000, -180095654000000, -191244732000000, -201195605000000, -209897310000000, -217306320000000, -223386736000000,
    -228110407000000, -231457193000000, -233415044000000, -233980051000000, -233156463000000, -230956673000000, -227401097000000, -222518148000000,
    -216343899000000, -208921985000000, -200303365000000, -190545790000000, -179713804000000, -167877977000000, -155114789000000, -141505907000000,
    -127137921000000, -112101628000000, -96491564000000, -80405423200000, -63943470700000, -47207881400000, -30302163500000, -13330508200000,
    3602849770000, 20394250700000, 36941301400000, 53143381000000, 68902465600000, 84123467900000, 98715026800000, 112589969000000,
    125665865000000, 137865538000000, 149117506000000, 159356490000000, 168523664000000, 176567229000000, 183442499000000, 189112308000000,
    193547212000000, 196725586000000, 198633878000000, 199266486000000, 198625999000000, 196723008000000, 193576075000000, 189211557000000,
    183663562000000, 176973516000000, 169190033000000, 160368490000000, 150570805000000, 139864815000000, 128324021000000, 116026978000000,
    103056879000000, 89500882900000, 75449679800000, 60996823800000, 46238066400000, 31270890100000, 16193695600000, 1105319880000,
    -13895765300000, -28711978400000, -43247274200000, -57407838500000, -71102631100000, -84243971300000, -96748191700000, -108536049000000,
    -119533350000000, -129671345000000, -138887238000000, -147124498000000, -154333373000000, -160470968000000, -165501755000000, -169397631000000,
    -172138140000000, -173710602000000, -174110159000000, -173339798000000, -171410274000000, -168340111000000, -164155335000000, -158889414000000,
    -152582850000000, -145283122000000, -137044042000000, -127925722000000, -117993860000000, -107319421000000, -95978180800000, -84050077700000,
    -71618804900000, -58771056100000, -45596147500000, -32185191900000, -18630640600000, -5025549420000, 8536983840000, 21964546700000,
    35165946800000, 48051869300000, 60535505600000, 72533070000000, 83964509400000, 94753789800000, 104829753000000, 114126254000000,
    122582788000000, 130144907000000, 136764459000000, 142400029000000, 147017076000000, 150588312000000, 153093700000000, 154520736000000]

def protoBlock2 : List Int := [
    154864367000000, 154127119000000, 152318991000000, 149457408000000, 145567062000000, 140679709000000, 134833933000000, 128074855000000,
    120453893000000, 112028129000000, 102860307000000, 93017876500000, 82573003200000, 71601645000000, 60183313400000, 48400254600000,
    36337072400000, 24080003700000, 11716316800000, -666217400000, -12980112100000, -25138531500000, -37056203000000, -48649774800000,
    -59838492800000, -70544785900000, -80694759200000, -90218744100000, -99051731300000, -107133911000000, -114410951000000, -120834483000000,
    -126362422000000, -130959116000000, -134595787000000, -137250547000000, -138908600000000, -139562374000000, -139211442000000, -137862602000000,
    -135529795000000, -132233909000000, -128002721000000, -122870611000000, -116878278000000, -110072477000000, -102505698000000, -94235612400000,
    -85324875300000, -75840491200000, -65853292400000, -55437636000000, -44670595300000, -33631541400000, -22401597200000, -11062899100000,
    301894735000, 11610191800000, 22780164200000, 33731164200000, 44384543000000, 54664001600000, 64496263700000, 73811540000000,
    82544078400000, 90632557200000, 98020606600000, 104657146000000, 110496723000000, 115499920000000, 119633523000000, 122870824000000,
    125191729000000, 126582959000000, 127038061000000, 126557494000000, 125148528000000, 122825305000000, 119608512000000, 115525479000000,
    110609643000000, 104900592000000, 98443553700000, 91289094800000, 83492773200000, 75114697300000, 66219019400000, 56873554700000,
    47149126200000, 37119185500000, 26859193200000, 16445957300000, 5957318080000, -4528749400000, -14934472300000, -25182913000000,
    -35198637300000, -44908142700000, -54240465400000, -63127696900000, -71505416300000, -79313271300000, -86495332700000, -93000504200000,
    -98782901100000, -103802223000000, -108023943000000, -111419636000000, -113967111000000, -115650603000000, -116460855000000, -116395152000000,
    -115457368000000, -113657871000000, -111013433000000, -107547117000000, -103288073000000, -98271270800000, -92537264600000, -86131865700000,
    -79105748600000, -71514105300000, -63416158800000, -54874779100000, -45955969600000, -36728294100000, -27262487400000, -17630791400000,
    -7906486740000, 1836703400000, 11525142400000, 21085871600000, 30447130400000, 39538894400000, 48293390400000, 56645665500000,
    64534005400000, 71900348700000, 78690869500000, 84856239500000, 90351990800000, 95138950100000, 99183407700000, 102457361000000,
    104938834000000, 106611872000000, 107466724000000, 107499917000000, 106714213000000, 105118588000000, 102728167000000, 99564068000000,
    95653248800000, 91028240600000, 85726930900000, 79792226100000, 73271739500000, 66217424900000, 58685053600000, 50733995900000,
    42426505800000, 33827434500000, 25003650200000, 16023484400000, 6956280260000, -2128206550000, -11160243800000, -20070828100000,
    -28792033700000, -37257632000000, -45403542600000, -53168417300000, -60493893900000, -67325321200000, -73611931000000, -79307298100000,
    -84369755600000, -88762553700000, -92454293900000, -95418998100000, -97636440200000, -99092143500000, -99777600300000, -99690236600000,
    -98833446300000, -97216578000000, -94854766800000, -91768899900000, -87985331200000, -83535768800000, -78456959400000, -72790367700000]

def protoBlock3 : List Int := [
    -66581894000000, -59881493200000, -52742733300000, -45222473300000, -37380245900000, -29278003700000, -20979420900000, -12549549800000,
    -4054259880000, 4440343490000, 12868257100000, 21164336100000, 29264535700000, 37106620000000, 44630520300000, 51778826700000,
    58497238900000, 64734949600000, 70445083600000, 75584992800000, 80116574800000, 84006650600000, 87227084800000, 89755061800000,
    91573217900000, 92669831500000, 93038788100000, 92679672000000, 91597802500000, 89804044300000, 87314848900000, 84152046100000,
    80342609300000, 75918546800000, 70916513600000, 65377625500000, 59347048000000, 52873629300000, 46009565500000, 38809954500000,
    31332330200000, 23636216200000, 15782739800000, 7833950910000, -147413782000, -8098641530000, -15957440600000, -23662359500000,
    -31153471700000, -38372584000000, -45263894700000, -51774341100000, -57853972900000, -63456434800000, -68539209200000, -73064065400000,
    -76997195400000, -80309622000000, -82977297500000, -84981352400000, -86308183600000, -86949574600000, -86902715700000, -86170268700000,
    -84760266800000, -82686056900000, -79966198100000, -76624299700000, -72688778800000, -68192675200000, -63173371200000, -57672227900000,
    -51734306100000, -45408006900000, -38744632100000, -31798003200000, -24623989700000, -17280149700000, -9825181560000, -2318453000000,
    5180375100000, 12611904400000, 19917485700000, 27039592100000, 33922349900000, 40511940400000, 46757046500000, 52609214200000,
    58023269500000, 62957653900000, 67374711300000, 71241032000000, 74527690500000, 77210421800000, 79269839400000, 80691595200000,
    81466400400000, 81590197700000, 81064090700000, 79894331500000, 78092297500000, 75674379200000, 72661786100000, 69080434600000,
    64960643300000, 60337004900000, 55247950300000, 49735566000000, 43845130000000, 37624866200000, 31125426300000, 24399575700000,
    17501710500000, 10487482300000, 3413219480000, -3664333620000, -10688656600000, -17603756600000, -24354742200000, -30888123800000,
    -37152381800000, -43098237700000, -48679152900000, -53851597800000, -58575499100000, -62814413700000, -66535963100000, -69711955900000,
    -72318640900000, -74336989700000, -75752604700000, -76556081200000, -76742856000000, -76313405100000, -75273058300000, -73632124100000,
    -71405592700000, -68613202700000, -65279121300000, -61431800400000, -57103747500000, -52331215800000, -47153930600000, -41614751900000,
    -35759333100000, -29635702300000, -23293947800000, -16785722800000, -10163925100000, -3482131280000, 3205669510000, 9845665490000,
    16384531800000, 22769962700000, 28950993700000, 34878483800000, 40505457100000, 45787519100000, 50683156100000, 55154105500000,
    59165632100000, 62686794800000, 65690721400000, 68154754500000, 70060704500000, 71394875300000, 72148279000000, 72316589400000,
    71900297300000, 70904484600000, 69339033100000, 67218303900000, 64561156800000, 61390653700000, 57734081000000, 53622391700000,
    49090297300000, 44175685300000, 38919502500000, 33365326600000, 27558955300000, 21548218700000, 15382343300000, 9111732060000,
    2787503800000, -3538997360000, -9816488450000, -15994288700000, -22022600200000, -27853067600000, -33438983500000, -38735855800000]

def protoBlock4 : List Int := [
    -43701575200000, -48296864100000, -52485610400000, -56235007900000, -59516031400000, -62303409000000, -64576036900000, -66317024600000,
    -67513826300000, -68158386400000, -68247109300000, -67780981900000, -66765443900000, -65210402700000, -63130140500000, -60543138100000,
    -57471951000000, -53943012100000, -49986415200000, -45635610800000, -40927178500000, -35900535800000, -30597502100000, -25062098200000,
    -19340093100000, -13478610900000, -7525829210000, -1530472960000, 4458463960000, 10392225200000, 16222604300000, 21902411100000,
    27385792700000, 32628645300000, 37588912000000, 42227016200000, 46506067800000, 50392260200000, 53855036000000, 56867391200000,
    59406129900000, 61451895900000, 62989492700000, 64007842200000, 64500208100000, 64464131200000, 63901446300000, 62818354900000,
    61225243400000, 59136622600000, 56571071300000, 53550947800000, 50102321100000, 46254628900000, 42040564400000, 37495632400000,
    32658030900000, 27568192100000, 22268513800000, 16802986900000, 11216847900000, 5556163600000, -132475496000, -5802421450000,
    -11407287000000, -16901363200000, -22239962900000, -27379823100000, -32279355900000, -36899217700000, -41202270000000, -45154230100000,
    -48723713000000, -51882574300000, -54606124200000, -56873321500000, -58666872100000, -59973519800000, -60783895200000, -61092889500000,
    -60899392300000, -60206478100000, -59021329100000, -57355088700000, -55222885300000, -52643581700000, -49639689700000, -46237129400000,
    -42465025600000, -38355462800000, -33943209600000, -29265422500000, -24361323300000, -19271897000000, -14039561600000, -8707717280000,
    -3320567770000, 2077447850000, 7441903910000, 12728722200000, 17894622800000, 22897500200000, 27696584300000, 32253014000000,
    36529953400000, 40493036300000, 44110506900000, 47353615900000, 50196720100000, 52617575000000, 54597472400000, 56121372900000,
    57178084300000, 57760194600000, 57864375900000, 57491091400000, 56644859700000, 55334015800000, 53570733800000, 51370884300000,
    48753868300000, 45742513700000, 42362799900000, 38643707500000, 34616902400000, 30316538700000, 25778889400000, 21042122200000,
    16145925100000, 11131199400000, 6039704660000, 913695817000, -4204334310000, -9272181490000, -14248068200000, -19091187800000,
    -23761864800000, -28222009300000, -32435376600000, -36367833600000, -39987692400000, -43265923700000, -46176420700000, -48696160200000,
    -50805455100000, -52488038600000, -53731218100000, -54526016600000, -54867110400000, -54753053100000, -54186046300000, -53172147500000,
    -51721036300000, -49845986800000, -47563764700000, -44894440600000, -41861274600000, -38490420600000, -34810792500000, -30853779700000,
    -26652968500000, -22243869500000, -17663668200000, -12950756000000, -8144660710000, -3285447760000, 1586430180000, 6430504400000,
    11206740500000, 15875664200000, 20398902000000, 24739334500000, 28861461700000, 32731763400000, 36318799200000, 39593647000000,
    42530038700000, 45104567200000, 47296894000000, 49089970300000, 50470004700000, 51426780900000, 51953564300000, 52047203400000,
    51708228700000, 50940643400000, 49752104800000, 48153718800000, 46159913100000, 43788426200000, 41060070600000, 37998548800000]

def protoBlock5 : List Int := [
    34630262200000, 30984121700000, 27091241200000, 22984719900000, 18699284700000, 14271159900000, 9737526690000, 5136436500000,
    506379454000, -4114081660000, -8686494760000, -13172962100000, -17536380700000, -21740808900000, -25751697900000, -29536214300000,
    -33063509300000, -36304962200000, -39234404800000, -41828329800000, -44066141800000, -45930191300000, -47406050500000, -48482551100000,
    -49151882700000, -49409623500000, -49254857900000, -48690025100000, -47721045800000, -46357174100000, -44610887800000, -42497910700000,
    -40036856400000, -37249298700000, -34159410800000, -30793844800000, -27181455200000, -23353119800000, -19341359800000, -15180206300000,
    -10904801300000, -6551143380000, -2155810140000, 2244435550000, 6612808140000, 10912945300000, 15109198000000, 19166763000000,
    23052216800000, 26733590700000, 30180736500000, 33365557900000, 36262205100000, 38847322600000, 41100220400000, 43003030000000,
    44540879000000, 45701970500000, 46477710900000, 46862713500000, 46854909300000, 46455495800000, 45668937300000, 44502959900000,
    42968391900000, 41079138600000, 38852015900000, 36306647500000, 33465238500000, 30352389200000, 26994968100000, 23421726300000,
    19663202500000, 15751397400000, 11719445900000, 7601456770000, 3432154810000, -753454950000, -4920252290000, -9033459040000,
    -13058750300000, -16962740600000, -20713044100000, -24278747200000, -27630496900000, -30740884200000, -33584531000000, -36138402600000,
    -38381980400000, -40297336400000, -41869391100000, -43085984900000, -43937952500000, -44419220200000, -44526820700000, -44260948900000,
    -43624941700000, -42625169300000, -41271096500000, -39575111900000, -37552403400000, -35220902000000, -32601073200000, -29715682600000,
    -26589730600000, -23250133900000, -19725523000000, -16045990600000, -12242864500000, -8348406130000, -4395557880000, -417641093000,
    3551865290000, 7479695480000, 11333028900000, 15079689500000, 18688606300000, 22129844000000, 25375022700000, 28397477600000,
    31172471300000, 33677456400000, 35892148500000, 37798828100000, 39382384800000, 40630464500000, 41533546000000, 42085089500000,
    42281453000000, 42122065700000, 41609272400000, 40748456800000, 39547825600000, 38018509900000, 36174288200000, 34031622800000,
    31609346700000, 28928685400000, 26012914300000, 22887207200000, 19578516200000, 16115142900000, 12526687200000, 8843672890000,
    5097375410000, 1319465730000, -2458192070000, -6203829070000, -9885995140000, -13473971400000, -16937797500000, -20248722500000,
    -23379314400000, -26303823300000, -28998180200000, -31440421300000, -33610754600000, -35491672300000, -37068242700000, -38328067200000,
    -39261473600000, -39861577600000, -40124324300000, -40048451700000, -39635670800000, -38890373100000, -37819878100000, -36434136500000,
    -34745745700000, -32769839200000, -30523888200000, -28027628200000, -25302821800000, -22373095700000, -19263746700000, -16001502900000,
    -12614288200000, -9131042830000, -5581389810000, -1995424340000, 1596493070000, 5164081740000, 8677371440000, 12106858100000,
    15423920500000, 18600910000000, 21611477200000, 24430699400000, 27035416300000, 29404266500000, 31517998500000, 33359535600000]

def protoBlock6 : List Int := [
    34914159300000, 36169622900000, 37116187100000, 37746851200000, 38057187800000, 38045548500000, 37712990000000, 37063281000000,
    36102850800000, 34840719900000, 33288442800000, 31460005300000, 29371622800000, 27041740800000, 24490727700000, 21740757600000,
    18815673400000, 15740680300000, 12542176100000, 9247546920000, 5884886400000, 2482805870000, -929864758000, -4324263140000,
    -7671791840000, -10944295200000, -14114388600000, -17155597400000, -20042578700000, -22751489100000, -25259905400000, -27547270600000,
    -29594931500000, -31386306200000, -32906983200000, -34145009600000, -35090710100000, -35736999200000, -36079316300000, -36115675100000,
    -35846708000000, -35275574000000, -34408061700000, -33252362800000, -31819131400000, -30121318600000, -28174084600000, -25994639300000,
    -23602112500000, -21017397500000, -18262913200000, -15362470000000, -12341056000000, -9224565990000, -6039677550000, -2813508770000,
    426514319000, 3652926600000, 6838489440000, 9956385080000, 12980423400000, 15885307600000, 18646820300000, 21242027700000,
    23649490900000, 25849379200000, 27823745000000, 29556506000000, 31033805300000, 32243857200000, 33177271600000, 33826962700000,
    34188317600000, 34259161000000, 34039743500000, 33532860600000, 32743635100000, 31679657300000, 30350724600000, 28768968900000,
    26948483900000, 24905482700000, 22657908600000, 20225444200000, 17629261700000, 14891838200000, 12036815900000, 9088724680000,
    6072832730000, 3014898380000, -59021219400, -3122876660000, -6150695320000, -9116950910000, -11996703300000, -14765786800000,
    -17401100400000, -19880721400000, -22184102500000, -24292263200000, -26187936800000, -27855731100000, -29282180100000, -30455956200000,
    -31367890700000, -32011063200000, -32380808700000, -32474919300000, -32293384700000, -31838626900000, -31115336600000, -30130480400000,
    -28893255200000, -27414873400000, -25708667300000, -23789831400000, -21675234300000, -19383501300000, -16934579900000, -14349728400000,
    -11651324300000, -8862590970000, -6007485250000, -3110449030000, -196143386000, 2710566580000, 5585122220000, 8403188330000,
    11141016000000, 13775638200000, 16285033800000, 18648266600000, 20845744500000, 22859343700000, 24672532900000, 26270569400000,
    27640532900000, 28771547000000, 29654709200000, 30283341900000, 30652905900000, 30761044100000, 30607674200000, 30194956700000,
    29527150200000, 28610787600000, 27454388300000, 26068570100000, 24465786300000, 22660365500000, 20668255700000, 18507003300000,
    16195460300000, 13753772000000, 11203058800000, 8565370640000, 5863362150000, 3120217520000, 359345288000, -2395713570000,
    -5121582520000, -7795185270000, -10393953600000, -12896102600000, -15280583800000, -17527576100000, -19618393500000, -21535771200000,
    -23263954200000, -24788854500000, -26098189900000, -27181456700000, -28030237000000, -28638008800000, -29000399600000, -29115117200000,
    -28981954400000, -28602869700000, -27981831700000, -27124929700000, -26040195700000, -24737575100000, -23228841400000, -21527509100000,
    -19648644300000, -17608796400000, -15425842600000, -13118799400000, -10707693700000, -8213352820000, -5657305820000, -3061434050000]

def protoBlock7 : List Int := [
    -447990175000, 2160745480000, 4742607370000, 7275691240000, 9738647330000, 12110682400000, 14371984100000, 16503600100000,
    18487847100000, 20308328600000, 21950053100000, 23399649300000, 24645386100000, 25677351200000, 26487434500000, 27069446300000,
    27419227900000, 27534495100000, 27415066700000, 27062708900000, 26481191300000, 25676195000000, 24655311200000, 23427932600000,
    22005182300000, 20399804100000, 18626073000000, 16699648300000, 14637388800000, 12457362800000, 10178469900000, 7820460990000,
    5403663560000, 2948865370000, 477074685000, -1990560080000, -4433099570000, -6829753660000, -9160327800000, -11405139200000,
    -13545357100000, -15563118600000, -17441622100000, -19165320300000, -20720052100000, -22093129000000, -23273438900000, -24251577000000,
    -25019879000000, -25572474000000, -25905397700000, -26016507300000, -25905612100000, -25574410000000, -25026386100000, -24267013900000,
    -23303417200000, -22144475200000, -20800770400000, -19284301600000, -17608614300000, -15788506600000, -13839963200000, -11780046800000,
    -9626655050000, -7398461800000, -5114739790000, -2795095200000, -459475153000, 1872194110000, 4180048860000, 6444460280000,
    8646300360000, 10767005000000, 12788726300000, 14694618300000, 16468769600000, 18096507400000, 19564465700000, 20860640900000,
    21974556900000, 22897340000000, 23621767800000, 24142303200000, 24455232900000, 24558555900000, 24452126800000, 24137524700000,
    23618184300000, 22899188300000, 21987359600000, 20891137200000, 19620485400000, 18186842300000, 16602968600000, 14882926000000,
    13041819600000, 11095782300000, 9061765690000, 6957423710000, 4800957970000, 2610945720000, 406163422000, -1794481200000,
    -3972275070000, -6108670890000, -8185591330000, -10185544700000, -12091677500000, -13888073600000, -15559794700000, -17092942400000,
    -18474979200000, -19694576800000, -20741900800000, -21608601100000, -22287906000000, -22774649600000, -23065352700000, -23158212200000,
    -23053085300000, -22751600200000, -22256951800000, -21574085100000, -20709445900000, -19671050400000, -18468360700000, -17112225800000,
    -15614753000000, -13989196000000, -12249926000000, -10412122600000, -8491870690000, -6505838120000, -4471215740000, -2405530610000,
    -326560349000, 1747928490000, 3800209860000, 5812848120000, 7768784360000, 9651521890000, 11445232100000, 13134890300000,
    14706460200000, 16146901500000, 17444388000000, 18588332900000, 19569496000000, 20380074700000, 21013741600000, 21465702800000,
    21732747000000, 21813218900000, 21707109600000, 21415968800000, 20942939600000, 20292705600000, 19471459100000, 18486780600000,
    17347699600000, 16064488800000, 14648602100000, 13112630500000, 11470091800000, 9735431860000, 7923792510000, 6050904620000,
    4133016080000, 2186690550000, 228581333000, -1724410720000, -3655722000000, -5548879900000, -7387820610000, -9157067820000,
    -10841708200000, -12427665700000, -13901731100000, -15251697000000, -16466494900000, -17536181700000, -18452182300000, -19207159900000,
    -19795305600000, -20212124300000, -20454714700000, -20521609800000, -20412853400000, -20130043900000, -19676199000000, -19055812300000]

def protoBlock8 : List Int := [
    -18274805600000, -17340427600000, -16261206700000, -15046909800000, -13708411500000, -12257576900000, -10707243200000, -9071029300000,
    -7363208260000, -5598691470000, -3792708060000, -1960920130000, -119027325000, 1717131520000, 3531917470000, 5309863430000,
    7035903310000, 8695475600000, 10274600600000, 11760112200000, 13139600900000, 14401665300000, 15535997300000, 16533248300000,
    17385503300000, 18085943400000, 18629130500000, 19011027700000, 19228938400000, 19281588000000, 19169168800000, 18893213500000,
    18456718300000, 17863979000000, 17120637700000, 16233647300000, 15211092000000, 14062227400000, 12797351000000, 11427716300000,
    9965418430000, 8423331120000, 6814919910000, 5154209440000, 3455591380000, 1733744620000, 3491549580, -1720331820000,
    -3423009080000, -5090028770000, -6707289830000, -8261105920000, -9738431010000, -11126917700000, -12414997200000, -13592041100000,
    -14648367500000, -15575416200000, -16365709700000, -17013015800000, -17512325400000, -17859915600000, -18053364200000, -18091647100000,
    -17974959600000, -17704919900000, -17284405900000, -16717573400000, -16009834800000, -15167784600000, -14199136900000, -13112630800000,
    -11918061400000, -10626015800000, -9247958200000, -7795996910000, -6282826890000, -4721660170000, -3126021300000, -1509711880000,
    113358008000, 1729246400000, 3324198690000, 4884574830000, 6397193320000, 7849285070000, 9228603740000, 10523673700000,
    11723702700000, 12818763100000, 13799921900000, 14659162700000, 15389644800000, 15985577100000, 16442374800000, 16756670500000,
    16926315100000, 16950408800000, 16829319200000, 16564604800000, 16159129200000, 15616883000000, 14943046600000, 14143887000000,
    13226734300000, 12199919400000, 11072615000000, 9854911620000, 8557554800000, 7191986260000, 5770137140000, 4304438410000,
    2807588570000, 1292528090000, -227683018000, -1740002130000, -3231531730000, -4689562470000, -6101715630000, -7456125060000,
    -8741364260000, -9946720230000, -11062190900000, -12078540600000, -12987479500000, -13781645600000, -14454647900000, -15001246800000,
    -15417210600000, -15699515500000, -15846277900000, -15856743700000, -15731382500000, -15471796700000, -15080718400000, -14562070500000,
    -13920729700000, -13162725300000, -12295011100000, -11325402700000, -10262683400000, -9116279320000, -7896344150000, -6613647650000,
    -5279399520000, -3905257080000, -2503143170000, -1085175760000, 336418391000, 1749451900000, 3141860330000, 4501782610000,
    5817694480000, 7078519390000, 8273653860000, 9393103260000, 10427632000000, 11368652700000, 12208537900000, 12940445000000,
    13558567800000, 14058044600000, 14435093900000, 14686956800000, 14812009800000, 14809634800000, 14680429500000, 14425978100000,
    14048966800000, 13553132500000, 12943201400000, 12224856300000, 11404695900000, 10490168700000, 9489481070000, 8411566320000,
    7265963470000, 6062804470000, 4812574440000, 3526226270000, 2214925060000, 889983592000, -437153812000, -1755131670000,
    -3052654940000, -4318728340000, -5542618740000, -6713962640000, -7823022440000, -8860452500000, -9817732780000, -10686935100000]

def protoBlock9 : List Int := [
    -11461002300000, -12133675400000, -12699595300000, -13154390800000, -13494571800000, -13717726600000, -13822411000000, -13808228600000,
    -13675773900000, -13426688700000, -13063588600000, -12590036900000, -12010570900000, -11330597800000, -10556353800000, -9694859260000,
    -8753890810000, -7741811640000, -6667616790000, -5540761870000, -4371118300000, -3168930520000, -1944571150000, -708705149000,
    528079290000, 1755158700000, 2962043040000, 4138485850000, 5274515570000, 6360600390000, 7387558630000, 8346925300000,
    9230708020000, 10031653400000, 10743252800000, 11359768000000, 11876335000000, 12288928300000, 12594463100000, 12790751500000,
    12876599400000, 12851710200000, 12716796600000, 12473448000000, 12124237100000, 11672583900000, 11122828100000, 10480059200000,
    9750225750000, 8939904240000, 8056449900000, 7107686010000, 6102056250000, 5048438780000, 3956054580000, 2834414180000,
    1693312770000, 542568186000, -607877124000, -1748185750000, -2868604050000, -3959626850000, -5012016570000, -6016900580000,
    -6965897160000, -7851104240000, -8665182310000, -9401456190000, -10054009500000, -10617512300000, -11087602400000, -11460606200000,
    -11733751900000, -11905141500000, -11973731100000, -11939390900000, -11802875100000, -11565738700000, -11230535700000, -10800504900000,
    -10279751900000, -9673187290000, -8986328380000, -8225438770000, -7397372150000, -6509507850000, -5569753950000, -4586328750000,
    -3567926740000, -2523408230000, -1461835970000, -392391156000, 675701684000, 1733317090000, 2771415300000, 3781183530000,
    4754076720000, 5681930050000, 6556989940000, 7371956740000, 8120133450000, 8795395090000, 9392250300000, 9905971900000,
    10332481900000, 10668524200000, 10911617700000, 11060097300000, 11113093600000, 11070598300000, 10933378800000, 10703044500000,
    10381994900000, 9973353320000, 9481074640000, 8909684340000, 8264497560000, 7551329720000, 6776644580000, 5947310790000,
    5070739390000, 4154625200000, 3207003060000, 2236162220000, 1250503400000, 258592562000, -731105992000, -1710038480000,
    -2669911040000, -3602548050000, -4500096260000, -5355001520000, -6160133720000, -6908803020000, -7594848870000, -8212677590000,
    -8757302970000, -9224370620000, -9610228180000, -9911962660000, -10127333400000, -10254914600000, -10293994900000, -10244648700000,
    -10107710200000, -9884739300000, -9578045060000, -9190652190000, -8726239970000, -8189149670000, -7584317110000, -6917256240000,
    -6193931690000, -5420856780000, -4604860900000, -3753144790000, -2873184000000, -1972636690000, -1059364200000, -141184633000,
    773935206000, 1678180330000, 2563871210000, 3423482450000, 4249729680000, 5035758530000, 5774935940000, 6461178000000,
    7088852630000, 7652824230000, 8148569110000, 8572147160000, 8920270190000, 9190291940000, 9380274700000, 9488950250000,
    9515783990000, 9460914290000, 9325182840000, 9110161800000, 8818061730000, 8451714400000, 8014664070000, 7510945720000,
    6945218260000, 6322616910000, 5648752550000, 4929636710000, 4171655480000, 3381495730000, 2566100690000, 1732531540000]

def protoBlock10 : List Int := [
    888083719000, 40014099700, -804377007000, -1637864960000, -2453363480000, -3243941200000, -4002971490000, -4724060120000,
    -5401228250000, -6028863530000, -6601845640000, -7115470430000, -7565672040000, -7948868790000, -8262079480000, -8502981330000,
    -8669847450000, -8761581740000, -8777786000000, -8718669030000, -8585102550000, -8378589530000, -8101253320000, -7755806330000,
    -7345555680000, -6874311350000, -6346423600000, -5766697680000, -5140317670000, -4472948970000, -3770432910000, -3039032720000,
    -2285114560000, -1515270240000, -736178447000, 45422556200, 822859022000, 1589431090000, 2338662780000, 3064203340000,
    3759906800000, 4420025380000, 5039017500000, 5611801110000, 6133662200000, 6600432720000, 7008319310000, 7354145000000,
    7635243920000, 7849535570000, 7995476450000, 8072189550000, 8079330950000, 8017219060000, 7886668640000, 7689193430000,
    7426797200000, 7102027880000, 6718025230000, 6278329340000, 5787022530000, 5248533390000, 4667760480000, 4049850330000,
    3400320550000, 2724861140000, 2029433820000, 1320055550000, 602922229000, -115810889000, -829962401000, -1533446950000,
    -2220249370000, -2884608280000, -3520909150000, -4123861030000, -4688447820000, -5210008540000, -5684336410000, -6107538900000,
    -6476293570000, -6787704300000, -7039368070000, -7229447900000, -7356624410000, -7420120690000, -7419711640000, -7355737570000,
    -7229057240000, -7041074290000, -6793701220000, -6489400380000, -6131023140000, -5721928730000, -5265905210000, -4767074640000,
    -4229932140000, -3659308250000, -3060223450000, -2437977930000, -1798033100000, -1145949880000, -487389180000, 171985886000,
    826505744000, 1470572920000, 2098755640000, 2705728270000, 3286387880000, 3835923500000, 4349755060000, 4823687590000,
    5253831320000, 5636773590000, 5969425350000, 6249240920000, 6474056500000, 6642267210000, 6752692530000, 6804694300000,
    6798157170000, 6733406310000, 6611304550000, 6433228630000, 6200945260000, 5916777100000, 5583401690000, 5203931960000,
    4781876140000, 4321063200000, 3825657110000, 3300056130000, 2748953620000, 2177193030000, 1589780150000, 991844057000,
    388540330000, -214916878000, -813361192000, -1401682570000, -1974897400000, -2528180590000, -3056885390000, -3556626560000,
    -4023265740000, -4452969580000, -4842286520000, -5188034380000, -5487553150000, -5738486110000, -5938919910000, -6087456260000,
    -6183054710000, -6225208400000, -6213824720000, -6149284190000, -6032446330000, -5864558790000, -5647361800000, -5382965370000,
    -5073893630000, -4723019160000, -4333613210000, -3909157610000, -3453531730000, -2970773470000, -2465166890000, -1941195840000,
    -1403405950000, -856512644000, -305232133000, 245691031000, 791538060000, 1327637240000, 1849493450000, 2352675470000,
    2832991130000, 3286450350000, 3709316980000, 4098126650000, 4449735110000, 4761353410000, 5030503540000, 5255131550000,
    5433533230000, 5564478210000, 5647055440000, 5680836010000, 5665834370000, 5602384310000, 5491353750000, 5333917230000]

def protoBlock11 : List Int := [
    5131692070000, 4886646710000, 4601132020000, 4277808600000, 3919648750000, 3529898660000, 3112120900000, 2669990530000,
    2207443440000, 1728591100000, 1237563510000, 738678150000, 236236760000, -265462378000, -762072815000, -1249433950000,
    -1723379560000, -2179937540000, -2615309350000, -3025884210000, -3408251960000, -3759353600000, -4076306520000, -4356607600000,
    -4598083980000, -4798837180000, -4957438430000, -5072712800000, -5143938330000, -5170776080000, -5153187630000, -5091644800000,
    -4986868070000, -4840022850000, -4652601030000, -4426429770000, -4163664460000, -3866783000000, -3538477510000, -3181772920000,
    -2799868470000, -2396184010000, -1974290170000, -1537887820000, -1090836640000, -636973406000, -180264329000, 275399352000,
    726104424000, 1168025980000, 1597440460000, 2010731280000, 2404468190000, 2775385620000, 3120446150000, 3436832030000,
    3722023930000, 3973748500000, 4190028540000, 4369254180000, 4510060700000, 4611522190000, 4672930530000, 4694049750000,
    4674903660000, 4615893070000, 4517752520000, 4381549910000, 4208685320000, 4000823770000, 3759972740000, 3488364150000,
    3188515040000, 2863143430000, 2515195360000, 2147767430000, 1764117500000, 1367630700000, 961751835000, 550052405000,
    136015058000, -276720943000, -684698152000, -1084423870000, -1472536910000, -1845788530000, -2201058180000, -2535441880000,
    -2846169980000, -3130760580000, -3386897330000, -3612602970000, -3806065180000, -3965892670000, -4090872320000, -4180131730000,
    -4233159650000, -4249709530000, -4229815600000, -4173924940000, -4082678080000, -3957095770000, -3798451530000, -3608296700000,
    -3388443380000, -3140946690000, -2868097420000, -2572374420000, -2256438310000, -1923121650000, -1575358410000, -1216241290000,
    -848868370000, -476457354000, -102227062000, 270659894000, 638948957000, 999596773000, 1349508840000, 1685794120000,
    2005651120000, 2306441760000, 2585709700000, 2841219890000, 3070876700000, 3272967710000, 3445846950000, 3588256270000,
    3699154390000, 3777795350000, 3823691440000, 3836663120000, 3816785070000, 3764444860000, 3680277550000, 3565198830000,
    3420386940000, 3247259920000, 3047451810000, 2822876350000, 2575556100000, 2307783420000, 2021939380000, 1720606840000,
    1406422260000, 1082185400000, 750708128000, 414852040000, 77546840000, -258336678000, -589954675000, -914464553000,
    -1229174090000, -1531420960000, -1818749420000, -2088757650000, -2339252040000, -2568240460000, -2773874640000, -2954571510000,
    -3108912860000, -3235769570000, -3334223090000, -3403617300000, -3443524320000, -3453809450000, -3434549260000, -3386123590000,
    -3309102380000, -3204344130000, -3072897820000, -2916054480000, -2735347980000, -2532424390000, -2309184270000, -2067667440000,
    -1810025320000, -1538574610000, -1255722130000, -963956082000, -665804929000, -363875198000, -60762251900, 240955893000,
    538685581000, 829936911000, 1112249770000, 1383282300000, 1640800280000, 1882655740000, 2106946700000, 2311813340000]

def protoBlock12 : List Int := [
    2495679380000, 2657077990000, 2794773290000, 2907789290000, 2995268040000, 3056667920000, 3091599890000, 3099960740000,
    3081834860000, 3037573140000, 2967689970000, 2872963910000, 2754382710000, 2613059790000, 2450412250000, 2267923710000,
    2067281150000, 1850343980000, 1619017280000, 1375439700000, 1121682350000, 860048928000, 592781787000, 322217129000,
    50643795100, -219547817000, -486132510000, -746817210000, -999443627000, -1241882330000, -1472172450000, -1688396480000,
    -1888831050000, -2071847850000, -2236017450000, -2380060480000, -2502881180000, -2603582920000, -2681441740000, -2735953070000,
    -2766795950000, -2773886240000, -2757297940000, -2717351880000, -2654519850000, -2569521300000, -2463192040000, -2336609560000,
    -2190964930000, -2027652680000, -1848159390000, -1654129320000, -1447314830000, -1229564260000, -1002800750000, -769022668000,
    -530268510000, -288586883000, -46095625300, 195186584000, 433161045000, 665873263000, 891328897000, 1107706200000,
    1313162960000, 1506100670000, 1684897950000, 1848149230000, 1994585120000, 2123042500000, 2232583840000, 2322379530000,
    2391819620000, 2440430320000, 2467969380000, 2474309680000, 2459578310000, 2424012830000, 2368088840000, 2292384710000,
    2197733780000, 2085016660000, 1955345280000, 1809938010000, 1650140530000, 1477398540000, 1293292210000, 1099445930000,
    897596290000, 689486470000, 476967544000, 261847472000, 45997903000, -168770369000, -380612759000, -587744421000,
    -788452414000, -981081718000, -1164022190000, -1335808110000, -1495048590000, -1640471310000, -1770955870000, -1885483400000,
    -1983182540000, -2063356670000, -2125443330000, -2169030960000, -2193897310000, -2199946740000, -2187267000000, -2156091700000,
    -2106834570000, -2040022900000, -1956338000000, -1856652580000, -1741890230000, -1613131650000, -1471599210000, -1318562170000,
    -1155413740000, -983590913000, -804645529000, -620138811000, -431664744000, -240859759000, -49371886100, 141183920000,
    329184443000, 513049545000, 691252710000, 862329668000, 1024860890000, 1177533060000, 1319125300000, 1448515840000,
    1564681900000, 1666752700000, 1753932260000, 1825625450000, 1881299350000, 1920629350000, 1943363600000, 1949463810000,
    1938984690000, 1912110600000, 1869252650000, 1810811280000, 1737458000000, 1649899790000, 1548960850000, 1435651480000,
    1310959060000, 1176070310000, 1032190540000, 880596006000, 722634695000, 559715925000, 393223384000, 224602808000,
    55322337200, -113204206000, -279527886000, -442273875000, -600090187000, -751646708000, -895738714000, -1031177710000,
    -1156877700000, -1271875870000, -1375236880000, -1466185760000, -1544039890000, -1608259310000, -1658363990000, -1694052400000,
    -1715141830000, -1721540280000, -1713313270000, -1690632720000, -1653810370000, -1603261680000, -1539488630000, -1463187790000,
    -1375032170000, -1275919690000, -1166723080000, -1048468830000, -922232848000, -789108246000, -650329911000, -507057241000]

def protoBlock13 : List Int := [
    -360579584000, -212138548000, -63016606000, 85510733300, 232212191000, 375851456000, 515213418000, 649182851000,
    776642588000, 896585347000, 1008031980000, 1110109870000, 1202034750000, 1283084390000, 1352687830000, 1410306870000,
    1455586640000, 1488191240000, 1507987170000, 1514865020000, 1508884670000, 1490222090000, 1459060120000, 1415835810000,
    1360957220000, 1294997490000, 1218591380000, 1132494190000, 1037453440000, 934384957000, 824209226000, 707921644000,
    586535461000, 461118668000, 332797940000, 202615430000, 71756031900, -58721513900, -187700771000, -314093799000,
    -436855019000, -554982470000, -667514567000, -773539543000, -872216549000, -962754726000, -1044468360000, -1116738230000,
    -1179010200000, -1230848350000, -1271912630000, -1301898310000, -1320669410000, -1328166130000, -1324377150000, -1309447140000,
    -1283606680000, -1247104920000, -1200383130000, -1143911160000, -1078222500000, -1003948230000, -921799577000, -832520513000,
    -736916195000, -635853312000, -530218398000, -420950684000, -308981087000, -195310152000, -80872164900, 33348178500,
    146369769000, 257271691000, 365123878000, 469053422000, 568205019000, 661777482000, 749035427000, 829295760000,
    901919035000, 966370937000, 1022181130000, 1068928770000, 1106305520000, 1134063700000, 1152044510000, 1160190520000,
    1158488060000, 1147066300000, 1126064490000, 1095745890000, 1056453620000, 1008592660000, 952601766000, 889057609000,
    818535938000, 741697389000, 659241262000, 571884368000, 480414698000, 385677252000, 288406796000, 189536836000,
    89849183700, -9798887460, -108531507000, -205575498000, -300092231000, -391327952000, -478537671000, -561003964000,
    -638090388000, -709209697000, -773747838000, -831297964000, -881364804000, -923641236000, -957793553000, -983624619000,
    -1000984240000, -1009794040000, -1010039770000, -1001807720000, -985219816000, -960506778000, -927905874000, -887790902000,
    -840553609000, -786632276000, -726559669000, -660872173000, -590177860000, -515099219000, -436341554000, -354526447000,
    -270436804000, -184757234000, -98240610800, -11622842900, 74411622500, 159099493000, 241739119000, 321707034000,
    398276352000, 470887555000, 538973046000, 601940918000, 659368174000, 710783030000, 755802336000, 794127086000,
    825478803000, 849639386000, 866487952000, 875935969000, 877948893000, 872611584000, 859994515000, 840271458000,
    813696181000, 780491851000, 741053306000, 695727202000, 644936090000, 589181503000, 528946796000, 464790448000,
    397272420000, 327000597000, 254559578000, 180597276000, 105760446000, 30620904700, -44117200300, -117884760000,
    -190032814000, -260000039000, -327213235000, -391110007000, -451226928000, -507042112000, -558194586000, -604189222000,
    -644816381000, -679653847000, -708557315000, -731282579000, -747702169000, -757731688000, -761359812000, -758589885000]

def protoBlock14 : List Int := [
    -749503361000, -734226582000, -712935677000, -685882645000, -653307567000, -615569562000, -572978650000, -525977418000,
    -474963705000, -420426590000, -362819514000, -302647353000, -240497241000, -176810216000, -112210871000, -47197669000,
    17662464100, 81844059300, 144804207000, 206021410000, 265025446000, 321327783000, 374487008000, 424062432000,
    469715655000, 511042943000, 547794530000, 579655168000, 606446384000, 627934546000, 644010762000, 654614698000,
    659636425000, 659157826000, 653158826000, 641794049000, 625154916000, 603470855000, 576917242000, 545789736000,
    510368292000, 470998661000, 428021656000, 381834126000, 332863326000, 281489629000, 228231239000, 173484261000,
    117756607000, 61488135100, 5177782690, -50735237400, -105745987000, -159454662000, -211394268000, -261151905000,
    -308351703000, -352598590000, -393545002000, -430916147000, -464387406000, -493756593000, -518755281000, -539265493000,
    -555137934000, -566259303000, -572606783000, -574140344000, -570903292000, -562934741000, -550388898000, -533351962000,
    -512028510000, -486612455000, -457392981000, -424578939000, -388503808000, -349487518000, -307895836000, -264036522000,
    -218356445000, -171198300000, -122998901000, -74139208000, -25028039300, 23885204700, 72266333200, 119659647000,
    165718806000, 210055385000, 252324173000, 292190427000, 329337577000, 363510150000, 394385715000, 421803288000,
    445519433000, 465391876000, 481270460000, 493057625000, 500688030000, 504121708000, 503379627000, 498485604000,
    489499566000, 476539317000, 459760023000, 439274612000, 415334876000, 388103885000, 357902146000, 324908089000,
    289490480000, 251922687000, 212512220000, 171637404000, 129609890000, 86786618300, 43531227600, 198808307,
    -42858907000, -85286539400, -126765698000, -166922292000, -205456466000, -242095652000, -276487494000, -308425602000,
    -337638832000, -363923042000, -387022898000, -406875144000, -423245129000, -436071615000, -445236993000, -450724682000,
    -452491230000, -450548104000, -444936790000, -435725612000, -422987381000, -406882738000, -387548587000, -365123104000,
    -339860288000, -311947486000, -281618569000, -249166817000, -214824344000, -178876370000, -141684861000, -103466427000,
    -64599608800, -25373805000, 13903572100, 52897757800, 91301077300, 128809554000, 165139924000, 200005346000,
    233095696000, 264232233000, 293070034000, 319508024000, 343252648000, 364165224000, 382074036000, 396868082000,
    408408250000, 416671952000, 421556517000, 423035822000, 421172111000, 415928838000, 407377025000, 395568598000,
    380628038000, 362729177000, 341921136000, 318489958000, 292497406000, 264266550000, 233955571000, 201809261000,
    168092145000, 133141461000, 97104346000, 60345288000, 23126405500, -14310508900, -51560708300, -88483336400]

def protoBlock15 : List Int := [
    -124679461000, -159910519000, -193952723000, -226496145000, -257307566000, -286175538000, -312853472000, -337140613000,
    -358914997000, -377932329000, -394117065000, -407317063000, -417422308000, -424419479000, -428161231000, -428700484000,
    -426016659000, -420088126000, -411009185000, -398835037000, -383585114000, -365493072000, -344616197000, -321064387000,
    -295119418000, -266863117000, -236549174000, -204391686000, -170585806000, -135432614000, -99100698400, -61915282800,
    -24101231100, 14062114400, 52286749700, 90319984300, 127917614000, 164740292000, 200634478000, 235261402000,
    268377430000, 299818019000, 329273634000, 356562766000, 381532332000, 403948113000, 423655375000, 440488930000,
    454376777000, 465137195000, 472679704000, 477014073000, 477982201000, 475625277000, 469878507000, 460802987000,
    448367418000, 432641679000, 413709630000, 391634147000, 366512902000, 338481392000, 307634938000, 274189182000,
    238229594000, 199985879000, 159632210000, 117351364000, 73340472800, 27884483100, -18909946100, -66734363800,
    -115367449000, -164649983000, -214224348000, -264019844000, -313654244000, -362990333000, -411800705000, -459821928000,
    -506946486000, -552847863000, -597397068000, -640454770000, -681765968000, -721210131000, -758634477000, -793939572000,
    -826964876000, -857585335000, -885733438000, -911351007000, -934300512000, -954617442000, -972159416000, -987012089000,
    -999095133000, -1008462420000, -1015060220000, -1018971050000, -1020214270000, -1018872590000, -1014975570000, -1008613580000,
    -999877741000, -988823136000, -975617693000, -960303769000, -943035535000, -923922797000, -903105429000, -880708716000,
    -856853281000, -831685264000, -805348207000, -777961627000, -749713086000, -720674604000, -691032783000, -660888020000,
    -630372917000, -599673349000, -568830563000, -538013304000, -507353303000, -476915043000, -446832926000, -417179291000,
    -388083307000, -359575024000, -331820735000, -304804303000, -278616041000, -253335964000, -228986996000, -205619529000,
    -183318449000, -161979425000, -141791423000, -122648816000, -104625498000, -87712291000, -71865345700, -57178710600,
    -43480763900, -30961885700, -19407440100, -8880179710, 609625220, 9140203340, 16780555800, 23536996500,
    29427819400, 34504975100, 38837382800, 42429196600, 45344566500, 47696583400, 49339556700, 50539211100,
    51225706500, 51457934000, 51265175000, 50731255100, 49848676500, 48708257300, 47343963100, 45674081700,
    43865361800, 41939907500, 39912566800, 37761602100, 35613599700, 33355481500, 31165689900, 28903815000,
    26728163400, 24619276200, 22489920500, 20469870000, 18492765500, 16676288600, 14939377100, 13225808100,
    11698558600, 10187439100, 8998821000, 7612670730, 6577029070, 5598292100, 4276985460, 10324867400]

/-- The prototype lowpass filter (96 taps, 32 phases), each decimal literal of the
source modelled as the exact rational it denotes. -/
def prototypeFilter : List ℚ :=
  (protoBlock0 ++ (protoBlock1 ++ (protoBlock2 ++ (protoBlock3 ++ (protoBlock4 ++ (protoBlock5 ++ (protoBlock6 ++ (protoBlock7 ++ (protoBlock8 ++ (protoBlock9 ++ (protoBlock10 ++ (protoBlock11 ++ (protoBlock12 ++ (protoBlock13 ++ (protoBlock14 ++ (protoBlock15)))))))))))))))).map (fun n : ℤ => (n : ℚ) / 10 ^ 15)

namespace AudioSRC

/-- Low 32 bits of a signed 64-bit word: the value of the unsigned low word,
always in [0, 2^32). -/
def lo32 (x : ℤ) : ℤ := x % (2 ^ 32 : ℤ)

/-- High 32 bits of a signed 64-bit word (arithmetic shift right by 32,
i.e. floor division by 2^32). -/
def hi32 (x : ℤ) : ℤ := x / (2 ^ 32 : ℤ)

/-- Read a sample buffer at a possibly negative index; reads outside the list
give 0 (the source never performs such reads on the paths we verify). -/
def readL (l : List ℚ) (z : ℤ) : ℚ := if z < 0 then 0 else l.getD z.toNat 0

/-- Third-order Lagrange interpolation of the prototype filter
(cubicInterpolation in the source), value of output sample j.  The Q32.32
accumulator offset + j*step of the source loop is written in closed form. -/
def cubicInterp (input : List ℚ) (inputSize outputSize : ℕ) (gain : ℚ) (j : ℕ) : ℚ :=
  let step : ℤ := ((inputSize : ℤ) * 2 ^ 32) / outputSize
  let offset : ℤ := (if outputSize < inputSize then step / 2 else 0) + j * step
  let i : ℤ := hi32 offset
  let f : ℤ := lo32 offset
  let x0 : ℚ := if i - 1 < 0 then 0 else input.getD (i - 1).toNat 0
  let x1 : ℚ := if i < 0 then 0 else input.getD i.toNat 0
  let x2 : ℚ := if i + 1 < (inputSize : ℤ) then input.getD (i + 1).toNat 0 else 0
  let x3 : ℚ := if i + 2 < (inputSize : ℤ) then input.getD (i + 2).toNat 0 else 0
  let c0 := (1 / 6 : ℚ) * (x3 - x0) + (1 / 2 : ℚ) * (x1 - x2)
  let c1 := (1 / 2 : ℚ) * (x0 + x2) - x1
  let c2 := x2 - (1 / 3 : ℚ) * x0 - (1 / 2 : ℚ) * x1 - (1 / 6 : ℚ) * x3
  let c3 := x1
  let frac : ℚ := (f : ℚ) / (2 ^ 32 : ℚ)
  (((c0 * frac + c1) * frac + c2) * frac + c3) * gain

/-- Contents of the tempFilter buffer in both filter builders: zero initialised
(memset), then the first numCoefs entries are produced by the interpolator. -/
def tempFilter (numCoefs : ℕ) (gain : ℚ) (j : ℕ) : ℚ :=
  if j < numCoefs then cubicInterp prototypeFilter 3072 numCoefs gain j else 0

/-- Result of the shared widening preamble of createRationalFilter and
createIrrationalFilter: the tap count, coefficient count and adjusted gain. -/
structure WidenResult where
  numTaps : ℕ
  numCoefs : ℕ
  gain : ℚ

/-- The common first block of createRationalFilter and createIrrationalFilter:
start from PROTOTYPE_TAPS = 96 taps and numTaps*upFactor coefficients; when
downsampling (downFactor > upFactor) widen the filter and compensate the gain. -/
def widenParams (upFactor downFactor : ℕ) (gain : ℚ) : WidenResult :=
  let numTaps := 96
  let numCoefs := numTaps * upFactor
  let oldCoefs := numCoefs
  if downFactor > upFactor then
    let numCoefs2 := (oldCoefs * downFactor) / upFactor
    let numTaps2 := (numCoefs2 + upFactor - 1) / upFactor
    ⟨numTaps2, numCoefs2, gain * ((oldCoefs : ℚ) / (numCoefs2 : ℚ))⟩
  else
    ⟨numTaps, numCoefs, gain⟩

/-- The polyphase coefficient bank laid out by createRationalFilter, as a
function of the flat index: row i of length numTaps holds phase (i*downFactor)
mod upFactor of the expanded filter with taps reversed. -/
def rationalBank (upFactor downFactor numTaps numCoefs : ℕ) (gain : ℚ) : ℕ → ℚ :=
  fun m =>
    let i := m / numTaps
    let j := m % numTaps
    tempFilter numCoefs gain ((numTaps - 1 - j) * upFactor + (i * downFactor) % upFactor)

/-- The polyphase coefficient bank laid out by createIrrationalFilter: rows in
natural phase order, plus the sentinel row p = upFactor which is phase 0
shifted by one tap with a leading zero. -/
def irrationalBank (upFactor numTaps numCoefs : ℕ) (gain : ℚ) : ℕ → ℚ :=
  fun m =>
    let p := m / numTaps
    let j := m % numTaps
    if p = upFactor then
      if j = 0 then 0
      else tempFilter numCoefs gain ((numTaps - 1 - (j - 1)) * upFactor + 0)
    else
      tempFilter numCoefs gain ((numTaps - 1 - j) * upFactor + p)

/-- The precomputed input-step table of createRationalFilter. -/
def stepTableOf (upFactor downFactor : ℕ) : List ℤ :=
  (List.range upFactor).map fun i : ℕ =>
    ((i : ℤ) + 1) * downFactor / upFactor - (i : ℤ) * downFactor / upFactor

/-- createRationalFilter: returns the tap count together with the coefficient
bank and the step table it stores into the object. -/
def createRationalFilter (upFactor downFactor : ℕ) (gain : ℚ) :
    ℕ × (ℕ → ℚ) × List ℤ :=
  let w := widenParams upFactor downFactor gain
  (w.numTaps,
   rationalBank upFactor downFactor w.numTaps w.numCoefs w.gain,
   stepTableOf upFactor downFactor)

/-- createIrrationalFilter: returns the tap count together with the coefficient
bank (with its extra sentinel phase) it stores into the object. -/
def createIrrationalFilter (upFactor downFactor : ℕ) (gain : ℚ) : ℕ × (ℕ → ℚ) :=
  let w := widenParams upFactor downFactor gain
  (w.numTaps, irrationalBank upFactor w.numTaps w.numCoefs w.gain)

/-- One inner dot product of the rational-mode loop: numTaps coefficients from
the bank row starting at base against the input window starting at i. -/
def dotRow (bank : ℕ → ℚ) (numTaps base : ℕ) (input : List ℚ) (i : ℤ) : ℚ :=
  ∑ j in Finset.range numTaps, readL input (i + j) * bank (base + j)

/-- One inner dot product of the irrational-mode loop: coefficients linearly
interpolated between bank rows phase and phase+1 with weight frac. -/
def dotIrr (bank : ℕ → ℚ) (numTaps phase : ℕ) (frac : ℚ) (input : List ℚ) (i : ℤ) : ℚ :=
  ∑ j in Finset.range numTaps,
    readL input (i + j) *
      (bank (numTaps * phase + j) +
        frac * (bank (numTaps * (phase + 1) + j) - bank (numTaps * phase + j)))

/-- Exit record of the rational-mode inner loop: emitted samples, the raw input
index and phase at exit, and whether the loop guard (rather than the fuel
bound, which the source does not have) ended the loop. -/
structure RatExit where
  outs : List ℚ
  i : ℤ
  phase : ℕ
  finished : Bool

/-- The rational-mode loop of multirateFilter1: while i < inputFrames, emit a
dot product, step i by stepTable[phase] and advance the phase cyclically. -/
def ratLoop (bank : ℕ → ℚ) (numTaps : ℕ) (table : List ℤ) (upFactor : ℕ)
    (input : List ℚ) (n : ℤ) : ℕ → ℤ → ℕ → RatExit
  | 0, i, phase => ⟨[], i, phase, false⟩
  | fuel + 1, i, phase =>
    if i < n then
      let out := dotRow bank numTaps (numTaps * phase) input i
      let r := ratLoop bank numTaps table upFactor input n fuel
        (i + table.getD phase 0) (if phase + 1 = upFactor then 0 else phase + 1)
      ⟨out :: r.outs, r.i, r.phase, r.finished⟩
    else ⟨[], i, phase, true⟩

/-- An exit record translated back by n1 input frames: used to state that a
loop over a shifted input window is the same run in shifted coordinates. -/
def RatExit.shift (r : RatExit) (n1 : ℕ) : RatExit :=
  ⟨r.outs, r.i + n1, r.phase, r.finished⟩

/-- Combination of the exits of two chained runs of the rational loop, the
second starting where the first (over n1 frames) left off. -/
def RatExit.glue (r1 r2 : RatExit) (n1 : ℕ) : RatExit :=
  ⟨r1.outs ++ r2.outs, r2.i + n1, r2.phase, r2.finished⟩

/-- Exit record of the irrational-mode inner loop. -/
structure IrrExit where
  outs : List ℚ
  offset : ℤ
  finished : Bool

/-- The irrational-mode loop of multirateFilter1: while hi32(offset) <
inputFrames, emit an interpolated dot product and advance offset by step.
SRC_PHASEBITS = 8, so the phase is the top 8 bits of the low word and the
interpolation fraction is the remaining 24 bits. -/
def irrLoop (bank : ℕ → ℚ) (numTaps : ℕ) (step : ℤ) (input : List ℚ) (n : ℤ) :
    ℕ → ℤ → IrrExit
  | 0, offset => ⟨[], offset, false⟩
  | fuel + 1, offset =>
    if hi32 offset < n then
      let i := hi32 offset
      let f := lo32 offset
      let phase := (f / 2 ^ 24).toNat
      let frac : ℚ := ((f % 2 ^ 24 : ℤ) : ℚ) / (2 ^ 24 : ℚ)
      let out := dotIrr bank numTaps phase frac input i
      let r := irrLoop bank numTaps step input n fuel (offset + step)
      ⟨out :: r.outs, r.offset, r.finished⟩
    else ⟨[], offset, true⟩

/-- An irrational-mode exit record translated back by n1 input frames. -/
def IrrExit.shift (r : IrrExit) (n1 : ℕ) : IrrExit :=
  ⟨r.outs, r.offset + (n1 : ℤ) * 2 ^ 32, r.finished⟩

/-- Combination of the exits of two chained runs of the irrational loop. -/
def IrrExit.glue (r1 r2 : IrrExit) (n1 : ℕ) : IrrExit :=
  ⟨r1.outs ++ r2.outs, r2.offset + (n1 : ℤ) * 2 ^ 32, r2.finished⟩

/-- Exit record of the two-channel rational loop. -/
structure RatExit2 where
  outs0 : List ℚ
  outs1 : List ℚ
  i : ℤ
  phase : ℕ
  finished : Bool

/-- The rational-mode loop of multirateFilter2: identical control flow to the
mono loop with a shared coefficient fetch applied to both channels. -/
def ratLoop2 (bank : ℕ → ℚ) (numTaps : ℕ) (table : List ℤ) (upFactor : ℕ)
    (input0 input1 : List ℚ) (n : ℤ) : ℕ → ℤ → ℕ → RatExit2
  | 0, i, phase => ⟨[], [], i, phase, false⟩
  | fuel + 1, i, phase =>
    if i < n then
      let out0 := dotRow bank numTaps (numTaps * phase) input0 i
      let out1 := dotRow bank numTaps (numTaps * phase) input1 i
      let r := ratLoop2 bank numTaps table upFactor input0 input1 n fuel
        (i + table.getD phase 0) (if phase + 1 = upFactor then 0 else phase + 1)
      ⟨out0 :: r.outs0, out1 :: r.outs1, r.i, r.phase, r.finished⟩
    else ⟨[], [], i, phase, true⟩

/-- Exit record of the two-channel irrational loop. -/
structure IrrExit2 where
  outs0 : List ℚ
  outs1 : List ℚ
  offset : ℤ
  finished : Bool

/-- The irrational-mode loop of multirateFilter2. -/
def irrLoop2 (bank : ℕ → ℚ) (numTaps : ℕ) (step : ℤ) (input0 input1 : List ℚ)
    (n : ℤ) : ℕ → ℤ → IrrExit2
  | 0, offset => ⟨[], [], offset, false⟩
  | fuel + 1, offset =>
    if hi32 offset < n then
      let i := hi32 offset
      let f := lo32 offset
      let phase := (f / 2 ^ 24).toNat
      let frac : ℚ := ((f % 2 ^ 24 : ℤ) : ℚ) / (2 ^ 24 : ℚ)
      let out0 := dotIrr bank numTaps phase frac input0 i
      let out1 := dotIrr bank numTaps phase frac input1 i
      let r := irrLoop2 bank numTaps step input0 input1 n fuel (offset + step)
      ⟨out0 :: r.outs0, out1 :: r.outs1, r.offset, r.finished⟩
    else ⟨[], [], offset, true⟩

/-- The mutable and configuration state of an AudioSRC object.  The history
lists model the live first numHistory entries of the 2*numHistory sample
history arrays; the coefficient bank is modelled as a total function of the
flat index. -/
structure AState where
  inputRate : ℕ
  outputRate : ℕ
  numChannels : ℕ
  upFactor : ℕ
  downFactor : ℕ
  step : ℤ
  numTaps : ℕ
  bank : ℕ → ℚ
  stepTable : List ℤ
  numHistory : ℕ
  hist0 : List ℚ
  hist1 : List ℚ
  offset : ℤ
  phase : ℕ

/-- Fuel bound for the rational loop; the source loop has no bound, and on the
states we verify the loop guard always fails before this much fuel is spent. -/
def ratFuel (upFactor n : ℕ) : ℕ := upFactor * (n + 2) + 1

/-- Fuel bound for the irrational loop, sufficient whenever offset is
nonnegative and step is at least 1. -/
def irrFuel (n : ℕ) : ℕ := n * 2 ^ 32 + 1

/-- multirateFilter1: run the mode-appropriate loop over one channel, then
rebase the phase accumulator by the number of consumed input frames. -/
def multirateFilter1 (s : AState) (input : List ℚ) (n : ℕ) : List ℚ × AState :=
  if s.step = 0 then
    let r := ratLoop s.bank s.numTaps s.stepTable s.upFactor input n
      (ratFuel s.upFactor n) (hi32 s.offset) s.phase
    (r.outs, { s with offset := (r.i - n) * 2 ^ 32, phase := r.phase })
  else
    let r := irrLoop s.bank s.numTaps s.step input n (irrFuel n) s.offset
    (r.outs, { s with offset := r.offset - n * 2 ^ 32 })

/-- multirateFilter2: the stereo version of multirateFilter1. -/
def multirateFilter2 (s : AState) (input0 input1 : List ℚ) (n : ℕ) :
    (List ℚ × List ℚ) × AState :=
  if s.step = 0 then
    let r := ratLoop2 s.bank s.numTaps s.stepTable s.upFactor input0 input1 n
      (ratFuel s.upFactor n) (hi32 s.offset) s.phase
    ((r.outs0, r.outs1), { s with offset := (r.i - n) * 2 ^ 32, phase := r.phase })
  else
    let r := irrLoop2 s.bank s.numTaps s.step input0 input1 n (irrFuel n) s.offset
    ((r.outs0, r.outs1), { s with offset := r.offset - n * 2 ^ 32 })

/-- processFloat of the source, with the member float buffers and the pointer
arguments kept distinct: mem0/mem1 model the contents of the member arrays
handed to the convolution and the history refill, while arg0/arg1
model the caller-supplied pointer arguments, which the body reads only in the
stereo history-shift branch.  Returns the per-channel output samples written
to the member output buffers, and the new state. -/
def processFloatM (s : AState) (mem0 mem1 arg0 arg1 : List ℚ) (n : ℕ) :
    (List ℚ × List ℚ) × AState :=
  let nh := min s.numHistory n
  let ni := n - nh
  if s.numChannels = 1 then
    let buf0 := s.hist0 ++ mem0.take nh
    let p1 := multirateFilter1 s buf0 nh
    let p2 := if ni ≠ 0 then multirateFilter1 p1.2 mem0 ni else ([], p1.2)
    let hist0n := if ni ≠ 0 then (mem0.drop ni).take s.numHistory else buf0.drop nh
    ((p1.1 ++ p2.1, []), { p2.2 with hist0 := hist0n })
  else if s.numChannels = 2 then
    let buf0 := s.hist0 ++ mem0.take nh
    let buf1 := s.hist1 ++ mem1.take nh
    let p1 := multirateFilter2 s buf0 buf1 nh
    let p2 := if ni ≠ 0 then multirateFilter2 p1.2 mem0 mem1 ni
      else (([], []), p1.2)
    let hist0n := if ni ≠ 0 then (arg0.drop ni).take s.numHistory else buf0.drop nh
    let hist1n := if ni ≠ 0 then (arg1.drop ni).take s.numHistory else buf1.drop nh
    ((p1.1.1 ++ p2.1.1, p1.1.2 ++ p2.1.2),
     { p2.2 with hist0 := hist0n, hist1 := hist1n })
  else (([], []), s)

/-- processFloat as it is reached through render: the pointer arguments alias
the member input buffers. -/
def processFloat (s : AState) (in0 in1 : List ℚ) (n : ℕ) :
    (List ℚ × List ℚ) × AState :=
  processFloatM s in0 in1 in0 in1 n

/-- The subtraction loop of the static gcd helper, with an explicit fuel bound
(the source loop terminates for positive arguments; gcdSub below supplies
enough fuel for exactly those). -/
def gcdLoop : ℕ → ℕ → ℕ → ℕ
  | 0, a, _ => a
  | fuel + 1, a, b =>
    if a = b then a
    else if a > b then gcdLoop fuel (a - b) b
    else gcdLoop fuel a (b - a)

/-- The static gcd helper of the source. -/
def gcdSub (a b : ℕ) : ℕ := gcdLoop (a + b) a b

/-- The AudioSRC constructor: reduce the rate pair, pick rational or
irrational mode, build the polyphase filter and reset the mutable state. -/
def construct (inputRate outputRate numChannels : ℕ) : AState :=
  let divisor := gcdSub inputRate outputRate
  let up0 := outputRate / divisor
  let down0 := inputRate / divisor
  if up0 > 640 then
    let upF := 256
    let downF := (256 * inputRate) / outputRate
    let step : ℤ := ((inputRate : ℤ) * 2 ^ 32) / outputRate
    let c := createIrrationalFilter upF downF 1
    { inputRate := inputRate, outputRate := outputRate,
      numChannels := numChannels, upFactor := upF, downFactor := downF,
      step := step, numTaps := c.1, bank := c.2, stepTable := [],
      numHistory := c.1 - 1,
      hist0 := List.replicate (c.1 - 1) 0, hist1 := List.replicate (c.1 - 1) 0,
      offset := 0, phase := 0 }
  else
    let c := createRationalFilter up0 down0 1
    { inputRate := inputRate, outputRate := outputRate,
      numChannels := numChannels, upFactor := up0, downFactor := down0,
      step := 0, numTaps := c.1, bank := c.2.1, stepTable := c.2.2,
      numHistory := c.1 - 1,
      hist0 := List.replicate (c.1 - 1) 0, hist1 := List.replicate (c.1 - 1) 0,
      offset := 0, phase := 0 }

/-- The state invariant maintained by the resampler: it holds after
construction and is preserved by every processFloat call.  It records the
shape facts the loops rely on: a positive tap count matching the history
length, a nonnegative integer part of the phase accumulator, and the
mode-specific facts (in rational mode the canonical step table, positive
reduced factors, an in-range phase index and a zero fractional accumulator;
in irrational mode a positive step). -/
def StateOK (s : AState) : Prop :=
  1 ≤ s.numTaps ∧ s.numHistory + 1 = s.numTaps ∧
  s.hist0.length = s.numHistory ∧ s.hist1.length = s.numHistory ∧
  0 ≤ hi32 s.offset ∧
  (s.step = 0 →
    s.stepTable = stepTableOf s.upFactor s.downFactor ∧ 1 ≤ s.upFactor ∧
    1 ≤ s.downFactor ∧ s.phase < s.upFactor ∧ lo32 s.offset = 0) ∧
  (s.step ≠ 0 → 1 ≤ s.step)

/-- getMinOutput: the least number of output frames produced by inputFrames. -/
def getMinOutput (s : AState) (inputFrames : ℕ) : ℤ :=
  if s.step = 0 then (inputFrames : ℤ) * s.upFactor / s.downFactor
  else (inputFrames : ℤ) * 2 ^ 32 / s.step

/-- getMaxOutput: the greatest number of output frames produced by
inputFrames. -/
def getMaxOutput (s : AState) (inputFrames : ℕ) : ℤ :=
  if s.step = 0 then
    ((inputFrames : ℤ) * s.upFactor + s.downFactor - 1) / s.downFactor
  else ((inputFrames : ℤ) * 2 ^ 32 + s.step - 1) / s.step

/-- getMinInput: the least number of input frames producing at least
outputFrames. -/
def getMinInput (s : AState) (outputFrames : ℕ) : ℤ :=
  if s.step = 0 then
    ((outputFrames : ℤ) * s.downFactor + s.upFactor - 1) / s.upFactor
  else ((outputFrames : ℤ) * s.step + 4294967295) / 2 ^ 32

/-- getMaxInput: the greatest number of input frames producing at most
outputFrames. -/
def getMaxInput (s : AState) (outputFrames : ℕ) : ℤ :=
  if s.step = 0 then (outputFrames : ℤ) * s.downFactor / s.upFactor
  else (outputFrames : ℤ) * s.step / 2 ^ 32

/-- The input blocking size computed by the constructor: blocks of at most
this many frames keep both input and output within SRC_BLOCK = 1024 frames. -/
def inputBlock (s : AState) : ℤ := min 1024 (getMaxInput s 1024)

end AudioSRC

namespace AudioSRC

theorem two32_pos : (0 : ℤ) < 2 ^ 32 := by norm_num

theorem hi32_add_lo32 (x : ℤ) : 2 ^ 32 * hi32 x + lo32 x = x :=
  Int.ediv_add_emod x (2 ^ 32)

theorem lo32_nonneg (x : ℤ) : 0 ≤ lo32 x := Int.emod_nonneg x (by norm_num)

theorem lo32_lt (x : ℤ) : lo32 x < 2 ^ 32 := Int.emod_lt_of_pos x two32_pos

theorem hi32_smul (k : ℤ) : hi32 (k * 2 ^ 32) = k := by
  unfold hi32
  exact Int.mul_ediv_cancel k (by norm_num)

theorem lo32_smul (k : ℤ) : lo32 (k * 2 ^ 32) = 0 := by
  unfold lo32
  simp [Int.mul_emod_left]

theorem hi32_sub_smul (x k : ℤ) : hi32 (x - k * 2 ^ 32) = hi32 x - k := by
  unfold hi32
  have h : x - k * 2 ^ 32 = x + (-k) * 2 ^ 32 := by ring
  rw [h, Int.add_mul_ediv_right x (-k) (by norm_num : (2:ℤ)^32 ≠ 0)]
  ring

theorem lo32_sub_smul (x k : ℤ) : lo32 (x - k * 2 ^ 32) = lo32 x := by
  unfold lo32
  have h : x - k * 2 ^ 32 = x + -k * 2 ^ 32 := by ring
  rw [h, Int.add_mul_emod_self]

theorem hi32_add_smul (x k : ℤ) : hi32 (x + k * 2 ^ 32) = hi32 x + k := by
  unfold hi32
  exact Int.add_mul_ediv_right x k (by norm_num : (2:ℤ)^32 ≠ 0)

theorem hi32_lt_iff (x n : ℤ) : hi32 x < n ↔ x < n * 2 ^ 32 :=
  Int.ediv_lt_iff_lt_mul two32_pos

theorem le_hi32_iff (x n : ℤ) : n ≤ hi32 x ↔ n * 2 ^ 32 ≤ x :=
  Int.le_ediv_iff_mul_le two32_pos

theorem hi32_nonneg_iff (x : ℤ) : 0 ≤ hi32 x ↔ 0 ≤ x := by
  have h := le_hi32_iff x 0
  simpa using h

theorem floorDivInt (a b : ℤ) (hb : 0 < b) : ⌊(a : ℚ) / (b : ℚ)⌋ = a / b := by
  have h2 : ((b.toNat : ℕ) : ℤ) = b := Int.toNat_of_nonneg hb.le
  have h := Rat.floor_intCast_div_natCast a b.toNat
  rw [h2] at h
  have h1 : ((b.toNat : ℕ) : ℚ) = (b : ℚ) := by exact_mod_cast congrArg (fun z : ℤ => (z : ℚ)) h2
  rw [← h1]
  exact h

theorem ceilDivInt (a b : ℤ) (hb : 0 < b) : ⌈(a : ℚ) / (b : ℚ)⌉ = (a + b - 1) / b := by
  have h2 := Int.ediv_add_emod (a + b - 1) b
  have h3 := Int.emod_lt_of_pos (a + b - 1) hb
  have h4 := Int.emod_nonneg (a + b - 1) (by omega : b ≠ 0)
  rw [Int.ceil_eq_iff]
  constructor
  · rw [lt_div_iff₀ (by exact_mod_cast hb : (0:ℚ) < (b:ℚ))]
    have h5 : ((a + b - 1) / b - 1) * b < a := by nlinarith
    exact_mod_cast h5
  · rw [div_le_iff₀ (by exact_mod_cast hb : (0:ℚ) < (b:ℚ))]
    have h5 : a ≤ (a + b - 1) / b * b := by nlinarith
    exact_mod_cast h5

theorem getD_append_lt (l l2 : List ℚ) (n : ℕ) (h : n < l.length) :
    (l ++ l2).getD n 0 = l.getD n 0 := by
  simp [List.getD, List.getElem?_append_left h]

theorem getD_append_ge (l l2 : List ℚ) (n : ℕ) (h : l.length ≤ n) :
    (l ++ l2).getD n 0 = l2.getD (n - l.length) 0 := by
  simp [List.getD, List.getElem?_append_right h]

theorem getD_drop (l : List ℚ) (k n : ℕ) : (l.drop k).getD n 0 = l.getD (k + n) 0 := by
  simp [List.getD, List.getElem?_drop]

theorem getD_take_lt (l : List ℚ) (k n : ℕ) (h : n < k) :
    (l.take k).getD n 0 = l.getD n 0 := by
  simp [List.getD, List.getElem?_take, h]

theorem getD_map_range (f : ℕ → ℤ) (U i : ℕ) (h : i < U) :
    ((List.range U).map f).getD i 0 = f i := by
  simp [List.getD, List.getElem?_map, List.getElem?_range, h]

theorem getD_oob (l : List ℚ) (n : ℕ) (h : l.length ≤ n) : l.getD n 0 = 0 := by
  simp [List.getD, List.getElem?_eq_none_iff.mpr h]

theorem readL_eq (l : List ℚ) (z : ℤ) (h : 0 ≤ z) : readL l z = l.getD z.toNat 0 := by
  unfold readL
  simp [not_lt.mpr h]

theorem gcdLoop_eq (fuel a b : ℕ) (ha : 1 ≤ a) (hb : 1 ≤ b) (hfuel : a + b ≤ fuel + 1) :
    gcdLoop fuel a b = Nat.gcd a b := by
  induction fuel generalizing a b with
  | zero => omega
  | succ fuel ih =>
    unfold gcdLoop
    by_cases hab : a = b
    · simp [hab, Nat.gcd_self]
    · simp only [hab, if_false]
      by_cases hgt : a > b
      · simp only [hgt, if_true]
        rw [ih (a - b) b (by omega) hb (by omega)]
        exact Nat.gcd_sub_self_left (by omega)
      · simp only [hgt, if_false]
        rw [ih a (b - a) ha (by omega) (by omega)]
        exact Nat.gcd_sub_self_right (by omega)

theorem gcdSub_eq (a b : ℕ) (ha : 1 ≤ a) (hb : 1 ≤ b) : gcdSub a b = Nat.gcd a b :=
  gcdLoop_eq (a + b) a b ha hb (by omega)

theorem stepTableOf_getD (U D i : ℕ) (h : i < U) :
    (stepTableOf U D).getD i 0 =
      ((((i + 1) * D) / U : ℕ) : ℤ) - (((i * D) / U : ℕ) : ℤ) := by
  unfold stepTableOf
  have hg : ∀ f : ℕ → ℤ, ((List.range U).map f).getD i 0 = f i := by
    intro f
    simp [List.getD, List.getElem?_map, List.getElem?_range, h]
  rw [hg]
  rw [Int.natCast_div, Int.natCast_div]
  push_cast
  ring_nf

theorem stepTableOf_getD_nonneg (U D i : ℕ) : 0 ≤ (stepTableOf U D).getD i 0 := by
  by_cases h : i < U
  · rw [stepTableOf_getD U D i h]
    have hm : (i * D) / U ≤ ((i + 1) * D) / U :=
      Nat.div_le_div_right (Nat.mul_le_mul_right D (by omega))
    omega
  · unfold stepTableOf
    rw [List.getD_eq_default]
    simp [List.length_map, List.length_range]
    omega

end AudioSRC

namespace AudioSRC

theorem dotRow_congr (bank : ℕ → ℚ) (numTaps base : ℕ) (in1 in2 : List ℚ) (i n : ℤ)
    (hi : 0 ≤ i) (hin : i < n)
    (h : ∀ k : ℕ, (k : ℤ) < n + numTaps - 1 → in1.getD k 0 = in2.getD k 0) :
    dotRow bank numTaps base in1 i = dotRow bank numTaps base in2 i := by
  unfold dotRow
  refine Finset.sum_congr rfl ?_
  intro j hj
  have hj' : j < numTaps := Finset.mem_range.mp hj
  have hge : 0 ≤ i + j := by omega
  rw [readL_eq in1 _ hge, readL_eq in2 _ hge]
  rw [h (i + j).toNat (by omega)]

theorem dotRow_shift (bank : ℕ → ℚ) (numTaps base : ℕ) (in1 in2 : List ℚ)
    (n1 : ℕ) (i : ℤ) (hi : (n1 : ℤ) ≤ i)
    (hsh : ∀ k : ℕ, in2.getD k 0 = in1.getD (k + n1) 0) :
    dotRow bank numTaps base in2 (i - n1) = dotRow bank numTaps base in1 i := by
  unfold dotRow
  refine Finset.sum_congr rfl ?_
  intro j hj
  have hge : 0 ≤ i - n1 + j := by omega
  have hge2 : 0 ≤ i + j := by omega
  rw [readL_eq in2 _ hge, readL_eq in1 _ hge2, hsh (i - n1 + j).toNat]
  have he : (i - (n1 : ℤ) + j).toNat + n1 = (i + j).toNat := by omega
  rw [he]

theorem ratLoop_fuel_mono (bank : ℕ → ℚ) (numTaps : ℕ) (table : List ℤ) (U : ℕ)
    (input : List ℚ) (n : ℤ) (fuel m : ℕ) :
    ∀ i : ℤ, ∀ φ : ℕ,
    (ratLoop bank numTaps table U input n fuel i φ).finished = true →
    ratLoop bank numTaps table U input n (fuel + m) i φ =
      ratLoop bank numTaps table U input n fuel i φ := by
  induction fuel with
  | zero =>
    intro i φ h
    simp [ratLoop] at h
  | succ fuel ih =>
    intro i φ h
    have hm : fuel + 1 + m = (fuel + m) + 1 := by omega
    rw [hm]
    by_cases hg : i < n
    · simp only [ratLoop, hg, if_true] at h ⊢
      rw [ih _ _ h]
    · simp only [ratLoop, hg, if_false]

theorem ratLoop_finished (bank : ℕ → ℚ) (numTaps : ℕ) (U D : ℕ)
    (input : List ℚ) (n : ℤ) (hD : 1 ≤ D) (fuel : ℕ) :
    ∀ i : ℤ, ∀ φ : ℕ, φ < U →
    U * (n - i).toNat + (U - φ) + 1 ≤ fuel →
    (ratLoop bank numTaps (stepTableOf U D) U input n fuel i φ).finished = true := by
  induction fuel with
  | zero =>
    intro i φ hφ hfuel
    omega
  | succ fuel ih =>
    intro i φ hφ hfuel
    by_cases hg : i < n
    · simp only [ratLoop, hg, if_true]
      have hstep : 0 ≤ (stepTableOf U D).getD φ 0 := stepTableOf_getD_nonneg U D φ
      by_cases hw : φ + 1 = U
      · have hlast : 1 ≤ (stepTableOf U D).getD φ 0 := by
          rw [stepTableOf_getD U D φ hφ]
          have h1 : (φ + 1) * D / U = D := by
            rw [hw, Nat.mul_div_cancel_left D (by omega : 0 < U)]
          have h2 : φ * D / U < D := by
            rw [Nat.div_lt_iff_lt_mul (by omega : 0 < U)]
            have h3 : φ * D ≤ (U - 1) * D := Nat.mul_le_mul_right D (by omega)
            have h4 : (U - 1) * D = U * D - 1 * D := Nat.sub_mul U 1 D
            have h5 : D * U = U * D := by ring
            have h6 : 1 * D = D := by ring
            have h7 : 0 < U * D := Nat.mul_pos (by omega) (by omega)
            omega
          rw [h1]
          have h2c : ((φ * D / U : ℕ) : ℤ) < (D : ℤ) := by exact_mod_cast h2
          omega
        have harg : (if φ + 1 = U then 0 else φ + 1) = 0 := by simp [hw]
        rw [harg]
        refine ih _ 0 (by omega) ?_
        have ht : (n - (i + (stepTableOf U D).getD φ 0)).toNat + 1 ≤ (n - i).toNat := by
          omega
        have hmul := Nat.mul_le_mul_left U ht
        have hmul2 : U * ((n - (i + (stepTableOf U D).getD φ 0)).toNat + 1)
            = U * (n - (i + (stepTableOf U D).getD φ 0)).toNat + U := by ring
        omega
      · have harg : (if φ + 1 = U then 0 else φ + 1) = φ + 1 := by simp [hw]
        rw [harg]
        refine ih _ (φ + 1) (by omega) ?_
        have ht : (n - (i + (stepTableOf U D).getD φ 0)).toNat ≤ (n - i).toNat := by
          omega
        have hmul := Nat.mul_le_mul_left U ht
        omega
    · simp only [ratLoop, hg, if_false]

theorem ratLoop_exit_ge (bank : ℕ → ℚ) (numTaps : ℕ) (table : List ℤ) (U : ℕ)
    (input : List ℚ) (n : ℤ) (fuel : ℕ) :
    ∀ i : ℤ, ∀ φ : ℕ,
    (ratLoop bank numTaps table U input n fuel i φ).finished = true →
    n ≤ (ratLoop bank numTaps table U input n fuel i φ).i := by
  induction fuel with
  | zero =>
    intro i φ h
    simp [ratLoop] at h
  | succ fuel ih =>
    intro i φ h
    by_cases hg : i < n
    · simp only [ratLoop, hg, if_true] at h ⊢
      exact ih _ _ h
    · simp only [ratLoop, hg, if_false] at h ⊢
      omega

theorem ratLoop_exit_le (bank : ℕ → ℚ) (numTaps : ℕ) (table : List ℤ) (U : ℕ)
    (input : List ℚ) (n : ℤ) (htb : ∀ j : ℕ, 0 ≤ table.getD j 0) (fuel : ℕ) :
    ∀ i : ℤ, ∀ φ : ℕ, i ≤ (ratLoop bank numTaps table U input n fuel i φ).i := by
  induction fuel with
  | zero => intro i φ; simp [ratLoop]
  | succ fuel ih =>
    intro i φ
    by_cases hg : i < n
    · simp only [ratLoop, hg, if_true]
      have h1 := ih (i + table.getD φ 0) (if φ + 1 = U then 0 else φ + 1)
      have h2 := htb φ
      omega
    · simp only [ratLoop, hg, if_false]
      omega

theorem ratLoop_phase_lt (bank : ℕ → ℚ) (numTaps : ℕ) (table : List ℤ) (U : ℕ)
    (input : List ℚ) (n : ℤ) (fuel : ℕ) :
    ∀ i : ℤ, ∀ φ : ℕ, φ < U →
    (ratLoop bank numTaps table U input n fuel i φ).phase < U := by
  induction fuel with
  | zero => intro i φ hφ; simpa [ratLoop]
  | succ fuel ih =>
    intro i φ hφ
    by_cases hg : i < n
    · simp only [ratLoop, hg, if_true]
      apply ih
      by_cases hw : φ + 1 = U
      · simp [hw]; omega
      · simp [hw]; omega
    · simpa [ratLoop, hg]

theorem ratLoop_congr (bank : ℕ → ℚ) (numTaps : ℕ) (table : List ℤ) (U : ℕ)
    (in1 in2 : List ℚ) (n : ℤ) (htb : ∀ j : ℕ, 0 ≤ table.getD j 0)
    (h : ∀ k : ℕ, (k : ℤ) < n + numTaps - 1 → in1.getD k 0 = in2.getD k 0) (fuel : ℕ) :
    ∀ i : ℤ, ∀ φ : ℕ, 0 ≤ i →
    ratLoop bank numTaps table U in1 n fuel i φ =
      ratLoop bank numTaps table U in2 n fuel i φ := by
  induction fuel with
  | zero => intro i φ hi; simp [ratLoop]
  | succ fuel ih =>
    intro i φ hi
    by_cases hg : i < n
    · simp only [ratLoop, hg, if_true]
      rw [dotRow_congr bank numTaps (numTaps * φ) in1 in2 i n hi hg h]
      rw [ih (i + table.getD φ 0) _ (by have := htb φ; omega)]
    · simp only [ratLoop, hg, if_false]

theorem ratLoop_shift (bank : ℕ → ℚ) (numTaps : ℕ) (table : List ℤ) (U : ℕ)
    (in1 in2 : List ℚ) (n1 : ℕ) (n2 : ℤ) (htb : ∀ j : ℕ, 0 ≤ table.getD j 0)
    (hsh : ∀ k : ℕ, in2.getD k 0 = in1.getD (k + n1) 0) (fuel : ℕ) :
    ∀ i : ℤ, ∀ φ : ℕ, (n1 : ℤ) ≤ i →
    ratLoop bank numTaps table U in1 ((n1 : ℤ) + n2) fuel i φ =
      (ratLoop bank numTaps table U in2 n2 fuel (i - n1) φ).shift n1 := by
  induction fuel with
  | zero =>
    intro i φ hi
    simp only [ratLoop, RatExit.shift]
    have he : i - (n1 : ℤ) + n1 = i := by omega
    rw [he]
  | succ fuel ih =>
    intro i φ hi
    by_cases hg : i - n1 < n2
    · have hg1 : i < (n1 : ℤ) + n2 := by omega
      simp only [ratLoop, hg, hg1, if_true]
      rw [dotRow_shift bank numTaps (numTaps * φ) in1 in2 n1 i hi hsh]
      have harg : i - (n1 : ℤ) + table.getD φ 0 = i + table.getD φ 0 - n1 := by ring
      rw [harg, ih (i + table.getD φ 0) _ (by have := htb φ; omega)]
      simp [RatExit.shift]
    · have hg1 : ¬ i < (n1 : ℤ) + n2 := by omega
      simp only [ratLoop, hg, hg1, if_false, RatExit.shift]
      have he : i - (n1 : ℤ) + n1 = i := by omega
      rw [he]

theorem ratLoop_append (bank : ℕ → ℚ) (numTaps : ℕ) (table : List ℤ) (U : ℕ)
    (in1 in2 : List ℚ) (n1 : ℕ) (n2 : ℤ) (hn2 : 0 ≤ n2)
    (htb : ∀ j : ℕ, 0 ≤ table.getD j 0)
    (hsh : ∀ k : ℕ, in2.getD k 0 = in1.getD (k + n1) 0) (fuel : ℕ) :
    ∀ i : ℤ, ∀ φ : ℕ,
    (ratLoop bank numTaps table U in1 (n1 : ℤ) fuel i φ).finished = true →
    ratLoop bank numTaps table U in1 ((n1 : ℤ) + n2) fuel i φ =
      (ratLoop bank numTaps table U in1 (n1 : ℤ) fuel i φ).glue
        (ratLoop bank numTaps table U in2 n2
          (fuel - (ratLoop bank numTaps table U in1 (n1 : ℤ) fuel i φ).outs.length)
          ((ratLoop bank numTaps table U in1 (n1 : ℤ) fuel i φ).i - n1)
          ((ratLoop bank numTaps table U in1 (n1 : ℤ) fuel i φ).phase)) n1 := by
  induction fuel with
  | zero =>
    intro i φ h
    simp [ratLoop] at h
  | succ fuel ih =>
    intro i φ h
    by_cases hg : i < (n1 : ℤ)
    · have hg1 : i < (n1 : ℤ) + n2 := by omega
      simp only [ratLoop, hg, hg1, if_true] at h ⊢
      rw [ih _ _ h]
      simp only [RatExit.glue, List.length_cons, List.cons_append]
      have hlen : ∀ L : ℕ, fuel + 1 - (L + 1) = fuel - L := by omega
      rw [hlen]
    · have hge : (n1 : ℤ) ≤ i := by omega
      have hsh2 := ratLoop_shift bank numTaps table U in1 in2 n1 n2 htb hsh (fuel + 1) i φ hge
      rw [hsh2]
      simp only [ratLoop, hg, if_false, List.length_nil, Nat.sub_zero,
        RatExit.glue, RatExit.shift, List.nil_append]

end AudioSRC

namespace AudioSRC

theorem dotIrr_congr (bank : ℕ → ℚ) (numTaps phase : ℕ) (frac : ℚ) (in1 in2 : List ℚ)
    (i n : ℤ) (hi : 0 ≤ i) (hin : i < n)
    (h : ∀ k : ℕ, (k : ℤ) < n + numTaps - 1 → in1.getD k 0 = in2.getD k 0) :
    dotIrr bank numTaps phase frac in1 i = dotIrr bank numTaps phase frac in2 i := by
  unfold dotIrr
  refine Finset.sum_congr rfl ?_
  intro j hj
  have hj' : j < numTaps := Finset.mem_range.mp hj
  have hge : 0 ≤ i + j := by omega
  rw [readL_eq in1 _ hge, readL_eq in2 _ hge]
  rw [h (i + j).toNat (by omega)]

theorem dotIrr_shift (bank : ℕ → ℚ) (numTaps phase : ℕ) (frac : ℚ) (in1 in2 : List ℚ)
    (n1 : ℕ) (i : ℤ) (hi : (n1 : ℤ) ≤ i)
    (hsh : ∀ k : ℕ, in2.getD k 0 = in1.getD (k + n1) 0) :
    dotIrr bank numTaps phase frac in2 (i - n1) = dotIrr bank numTaps phase frac in1 i := by
  unfold dotIrr
  refine Finset.sum_congr rfl ?_
  intro j hj
  have hge : 0 ≤ i - n1 + j := by omega
  have hge2 : 0 ≤ i + j := by omega
  rw [readL_eq in2 _ hge, readL_eq in1 _ hge2, hsh (i - n1 + j).toNat]
  have he : (i - (n1 : ℤ) + j).toNat + n1 = (i + j).toNat := by omega
  rw [he]

theorem irrLoop_fuel_mono (bank : ℕ → ℚ) (numTaps : ℕ) (step : ℤ)
    (input : List ℚ) (n : ℤ) (fuel m : ℕ) :
    ∀ offset : ℤ,
    (irrLoop bank numTaps step input n fuel offset).finished = true →
    irrLoop bank numTaps step input n (fuel + m) offset =
      irrLoop bank numTaps step input n fuel offset := by
  induction fuel with
  | zero =>
    intro offset h
    simp [irrLoop] at h
  | succ fuel ih =>
    intro offset h
    have hm : fuel + 1 + m = (fuel + m) + 1 := by omega
    rw [hm]
    by_cases hg : hi32 offset < n
    · simp only [irrLoop, hg, if_true] at h ⊢
      rw [ih _ h]
    · simp only [irrLoop, hg, if_false]

theorem irrLoop_finished (bank : ℕ → ℚ) (numTaps : ℕ) (step : ℤ)
    (input : List ℚ) (n : ℤ) (hstep : 1 ≤ step) (fuel : ℕ) :
    ∀ offset : ℤ,
    (n * 2 ^ 32 - offset).toNat + 1 ≤ fuel →
    (irrLoop bank numTaps step input n fuel offset).finished = true := by
  induction fuel with
  | zero =>
    intro offset hfuel
    omega
  | succ fuel ih =>
    intro offset hfuel
    by_cases hg : hi32 offset < n
    · simp only [irrLoop, hg, if_true]
      have hlt : offset < n * 2 ^ 32 := (hi32_lt_iff offset n).mp hg
      refine ih _ ?_
      omega
    · simp only [irrLoop, hg, if_false]

theorem irrLoop_exit_ge (bank : ℕ → ℚ) (numTaps : ℕ) (step : ℤ)
    (input : List ℚ) (n : ℤ) (fuel : ℕ) :
    ∀ offset : ℤ,
    (irrLoop bank numTaps step input n fuel offset).finished = true →
    n * 2 ^ 32 ≤ (irrLoop bank numTaps step input n fuel offset).offset := by
  induction fuel with
  | zero =>
    intro offset h
    simp [irrLoop] at h
  | succ fuel ih =>
    intro offset h
    by_cases hg : hi32 offset < n
    · simp only [irrLoop, hg, if_true] at h ⊢
      exact ih _ h
    · simp only [irrLoop, hg, if_false] at h ⊢
      have := (le_hi32_iff offset n).mp (by omega)
      omega

theorem irrLoop_offset_le (bank : ℕ → ℚ) (numTaps : ℕ) (step : ℤ)
    (input : List ℚ) (n : ℤ) (hstep : 0 ≤ step) (fuel : ℕ) :
    ∀ offset : ℤ, offset ≤ (irrLoop bank numTaps step input n fuel offset).offset := by
  induction fuel with
  | zero => intro offset; simp [irrLoop]
  | succ fuel ih =>
    intro offset
    by_cases hg : hi32 offset < n
    · simp only [irrLoop, hg, if_true]
      have h1 := ih (offset + step)
      omega
    · simp only [irrLoop, hg, if_false]
      omega

theorem irrLoop_congr (bank : ℕ → ℚ) (numTaps : ℕ) (step : ℤ) (in1 in2 : List ℚ)
    (n : ℤ) (hstep : 0 ≤ step)
    (h : ∀ k : ℕ, (k : ℤ) < n + numTaps - 1 → in1.getD k 0 = in2.getD k 0) (fuel : ℕ) :
    ∀ offset : ℤ, 0 ≤ offset →
    irrLoop bank numTaps step in1 n fuel offset =
      irrLoop bank numTaps step in2 n fuel offset := by
  induction fuel with
  | zero => intro offset ho; simp [irrLoop]
  | succ fuel ih =>
    intro offset ho
    by_cases hg : hi32 offset < n
    · simp only [irrLoop, hg, if_true]
      have hi : 0 ≤ hi32 offset := (hi32_nonneg_iff offset).mpr ho
      rw [dotIrr_congr bank numTaps _ _ in1 in2 (hi32 offset) n hi hg h]
      rw [ih (offset + step) (by omega)]
    · simp only [irrLoop, hg, if_false]

theorem irrLoop_shift (bank : ℕ → ℚ) (numTaps : ℕ) (step : ℤ) (in1 in2 : List ℚ)
    (n1 : ℕ) (n2 : ℤ) (hstep : 0 ≤ step)
    (hsh : ∀ k : ℕ, in2.getD k 0 = in1.getD (k + n1) 0) (fuel : ℕ) :
    ∀ offset : ℤ, (n1 : ℤ) * 2 ^ 32 ≤ offset →
    irrLoop bank numTaps step in1 ((n1 : ℤ) + n2) fuel offset =
      (irrLoop bank numTaps step in2 n2 fuel (offset - (n1 : ℤ) * 2 ^ 32)).shift n1 := by
  induction fuel with
  | zero =>
    intro offset ho
    simp only [irrLoop, IrrExit.shift]
    have he : offset - (n1 : ℤ) * 2 ^ 32 + (n1 : ℤ) * 2 ^ 32 = offset := by ring
    rw [he]
  | succ fuel ih =>
    intro offset ho
    have hh : hi32 (offset - (n1 : ℤ) * 2 ^ 32) = hi32 offset - n1 :=
      hi32_sub_smul offset n1
    have hl : lo32 (offset - (n1 : ℤ) * 2 ^ 32) = lo32 offset :=
      lo32_sub_smul offset n1
    by_cases hg : hi32 (offset - (n1 : ℤ) * 2 ^ 32) < n2
    · have hg1 : hi32 offset < (n1 : ℤ) + n2 := by omega
      have hi : (n1 : ℤ) ≤ hi32 offset := (le_hi32_iff offset n1).mpr ho
      have hdot := dotIrr_shift bank numTaps ((lo32 offset / 2 ^ 24).toNat)
        (((lo32 offset % 2 ^ 24 : ℤ) : ℚ) / (2 ^ 24 : ℚ)) in1 in2 n1 (hi32 offset) hi hsh
      have harg : offset - (n1 : ℤ) * 2 ^ 32 + step = offset + step - (n1 : ℤ) * 2 ^ 32 := by
        ring
      have hih := ih (offset + step) (by omega)
      have hg2 : hi32 offset - (n1 : ℤ) < n2 := by omega
      simp only [irrLoop, hg, hg1, hg2, if_true, hh, hl, harg, hdot, hih, IrrExit.shift]
    · have hg1 : ¬ hi32 offset < (n1 : ℤ) + n2 := by omega
      simp only [irrLoop, hg, hg1, if_false, IrrExit.shift]
      have he : offset - (n1 : ℤ) * 2 ^ 32 + (n1 : ℤ) * 2 ^ 32 = offset := by ring
      rw [he]

theorem irrLoop_append (bank : ℕ → ℚ) (numTaps : ℕ) (step : ℤ) (in1 in2 : List ℚ)
    (n1 : ℕ) (n2 : ℤ) (hn2 : 0 ≤ n2) (hstep : 0 ≤ step)
    (hsh : ∀ k : ℕ, in2.getD k 0 = in1.getD (k + n1) 0) (fuel : ℕ) :
    ∀ offset : ℤ,
    (irrLoop bank numTaps step in1 (n1 : ℤ) fuel offset).finished = true →
    irrLoop bank numTaps step in1 ((n1 : ℤ) + n2) fuel offset =
      (irrLoop bank numTaps step in1 (n1 : ℤ) fuel offset).glue
        (irrLoop bank numTaps step in2 n2
          (fuel - (irrLoop bank numTaps step in1 (n1 : ℤ) fuel offset).outs.length)
          ((irrLoop bank numTaps step in1 (n1 : ℤ) fuel offset).offset -
            (n1 : ℤ) * 2 ^ 32)) n1 := by
  induction fuel with
  | zero =>
    intro offset h
    simp [irrLoop] at h
  | succ fuel ih =>
    intro offset h
    by_cases hg : hi32 offset < (n1 : ℤ)
    · have hg1 : hi32 offset < (n1 : ℤ) + n2 := by omega
      simp only [irrLoop, hg, hg1, if_true] at h ⊢
      rw [ih _ h]
      simp only [IrrExit.glue, List.length_cons, List.cons_append]
      have hlen : ∀ L : ℕ, fuel + 1 - (L + 1) = fuel - L := by omega
      rw [hlen]
    · have hge : (n1 : ℤ) ≤ hi32 offset := by omega
      have ho : (n1 : ℤ) * 2 ^ 32 ≤ offset := (le_hi32_iff offset n1).mp hge
      have hsh2 := irrLoop_shift bank numTaps step in1 in2 n1 n2 hstep hsh (fuel + 1) offset ho
      rw [hsh2]
      simp only [irrLoop, hg, if_false, List.length_nil, Nat.sub_zero,
        IrrExit.glue, IrrExit.shift, List.nil_append]

end AudioSRC

namespace AudioSRC

theorem ratLoop2_eq (bank : ℕ → ℚ) (numTaps : ℕ) (table : List ℤ) (U : ℕ)
    (in0 in1 : List ℚ) (n : ℤ) (fuel : ℕ) :
    ∀ i : ℤ, ∀ φ : ℕ,
    ratLoop2 bank numTaps table U in0 in1 n fuel i φ =
      { outs0 := (ratLoop bank numTaps table U in0 n fuel i φ).outs,
        outs1 := (ratLoop bank numTaps table U in1 n fuel i φ).outs,
        i := (ratLoop bank numTaps table U in0 n fuel i φ).i,
        phase := (ratLoop bank numTaps table U in0 n fuel i φ).phase,
        finished := (ratLoop bank numTaps table U in0 n fuel i φ).finished } := by
  induction fuel with
  | zero => intro i φ; simp [ratLoop, ratLoop2]
  | succ fuel ih =>
    intro i φ
    by_cases hg : i < n
    · simp only [ratLoop, ratLoop2, hg, if_true, ih]
    · simp only [ratLoop, ratLoop2, hg, if_false]

theorem irrLoop2_eq (bank : ℕ → ℚ) (numTaps : ℕ) (step : ℤ)
    (in0 in1 : List ℚ) (n : ℤ) (fuel : ℕ) :
    ∀ offset : ℤ,
    irrLoop2 bank numTaps step in0 in1 n fuel offset =
      { outs0 := (irrLoop bank numTaps step in0 n fuel offset).outs,
        outs1 := (irrLoop bank numTaps step in1 n fuel offset).outs,
        offset := (irrLoop bank numTaps step in0 n fuel offset).offset,
        finished := (irrLoop bank numTaps step in0 n fuel offset).finished } := by
  induction fuel with
  | zero => intro offset; simp [irrLoop, irrLoop2]
  | succ fuel ih =>
    intro offset
    by_cases hg : hi32 offset < n
    · simp only [irrLoop, irrLoop2, hg, if_true, ih]
    · simp only [irrLoop, irrLoop2, hg, if_false]

theorem ratLoop_len_le (bank : ℕ → ℚ) (numTaps : ℕ) (table : List ℤ) (U : ℕ)
    (input : List ℚ) (n : ℤ) (fuel : ℕ) :
    ∀ i : ℤ, ∀ φ : ℕ,
    (ratLoop bank numTaps table U input n fuel i φ).outs.length ≤ fuel := by
  induction fuel with
  | zero => intro i φ; simp [ratLoop]
  | succ fuel ih =>
    intro i φ
    by_cases hg : i < n
    · simp only [ratLoop, hg, if_true, List.length_cons]
      have := ih (i + table.getD φ 0) (if φ + 1 = U then 0 else φ + 1)
      omega
    · simp only [ratLoop, hg, if_false, List.length_nil]
      omega

theorem irrLoop_len_le (bank : ℕ → ℚ) (numTaps : ℕ) (step : ℤ)
    (input : List ℚ) (n : ℤ) (fuel : ℕ) :
    ∀ offset : ℤ,
    (irrLoop bank numTaps step input n fuel offset).outs.length ≤ fuel := by
  induction fuel with
  | zero => intro offset; simp [irrLoop]
  | succ fuel ih =>
    intro offset
    by_cases hg : hi32 offset < n
    · simp only [irrLoop, hg, if_true, List.length_cons]
      have := ih (offset + step)
      omega
    · simp only [irrLoop, hg, if_false, List.length_nil]
      omega

theorem ratLoop_mono_le (bank : ℕ → ℚ) (numTaps : ℕ) (table : List ℤ) (U : ℕ)
    (input : List ℚ) (n : ℤ) (f f' : ℕ) (hle : f ≤ f') (i : ℤ) (φ : ℕ)
    (h : (ratLoop bank numTaps table U input n f i φ).finished = true) :
    ratLoop bank numTaps table U input n f' i φ =
      ratLoop bank numTaps table U input n f i φ := by
  have he : f' = f + (f' - f) := by omega
  rw [he]
  exact ratLoop_fuel_mono bank numTaps table U input n f (f' - f) i φ h

theorem irrLoop_mono_le (bank : ℕ → ℚ) (numTaps : ℕ) (step : ℤ)
    (input : List ℚ) (n : ℤ) (f f' : ℕ) (hle : f ≤ f') (offset : ℤ)
    (h : (irrLoop bank numTaps step input n f offset).finished = true) :
    irrLoop bank numTaps step input n f' offset =
      irrLoop bank numTaps step input n f offset := by
  have he : f' = f + (f' - f) := by omega
  rw [he]
  exact irrLoop_fuel_mono bank numTaps step input n f (f' - f) offset h

theorem multirateFilter2_eq (s : AState) (in0 in1 : List ℚ) (n : ℕ) :
    multirateFilter2 s in0 in1 n =
      (((multirateFilter1 s in0 n).1, (multirateFilter1 s in1 n).1),
        (multirateFilter1 s in0 n).2) := by
  unfold multirateFilter1 multirateFilter2
  by_cases hs : s.step = 0
  · simp only [hs, if_true]
    rw [ratLoop2_eq]
  · simp only [hs, if_false]
    rw [irrLoop2_eq]

end AudioSRC

namespace AudioSRC

theorem ratLoop_finished_big (bank : ℕ → ℚ) (numTaps : ℕ) (U D : ℕ)
    (input : List ℚ) (n : ℕ) (hD : 1 ≤ D) (i : ℤ) (hi : 0 ≤ i) (φ : ℕ)
    (hφ : φ < U) (f : ℕ) (hf : ratFuel U n ≤ f) :
    (ratLoop bank numTaps (stepTableOf U D) U input n f i φ).finished = true := by
  apply ratLoop_finished bank numTaps U D input n hD f i φ hφ
  have h1 : ((n : ℤ) - i).toNat ≤ n := by omega
  have h2 := Nat.mul_le_mul_left U h1
  unfold ratFuel at hf
  have h3 : U * (n + 2) = U * n + 2 * U := by ring
  omega

theorem irrLoop_finished_big (bank : ℕ → ℚ) (numTaps : ℕ) (step : ℤ)
    (input : List ℚ) (n : ℕ) (hstep : 1 ≤ step) (offset : ℤ) (ho : 0 ≤ offset)
    (f : ℕ) (hf : irrFuel n ≤ f) :
    (irrLoop bank numTaps step input n f offset).finished = true := by
  apply irrLoop_finished bank numTaps step input n hstep f offset
  unfold irrFuel at hf
  have h3 : ((n : ℤ) * 2 ^ 32) = (((n * 2 ^ 32 : ℕ) : ℤ)) := by push_cast; ring
  omega

theorem ratLoop_chain (bank : ℕ → ℚ) (numTaps : ℕ) (U D : ℕ)
    (in1 in2 : List ℚ) (n1 n2 : ℕ) (i0 : ℤ) (φ0 : ℕ)
    (hD : 1 ≤ D) (hi : 0 ≤ i0) (hφ : φ0 < U)
    (hsh : ∀ k : ℕ, in2.getD k 0 = in1.getD (k + n1) 0) :
    ratLoop bank numTaps (stepTableOf U D) U in1 ((n1 + n2 : ℕ) : ℤ)
        (ratFuel U (n1 + n2)) i0 φ0 =
      (ratLoop bank numTaps (stepTableOf U D) U in1 (n1 : ℤ)
        (ratFuel U n1) i0 φ0).glue
        (ratLoop bank numTaps (stepTableOf U D) U in2 (n2 : ℤ) (ratFuel U n2)
          ((ratLoop bank numTaps (stepTableOf U D) U in1 (n1 : ℤ)
            (ratFuel U n1) i0 φ0).i - n1)
          ((ratLoop bank numTaps (stepTableOf U D) U in1 (n1 : ℤ)
            (ratFuel U n1) i0 φ0).phase)) n1 := by
  have htbn : ∀ j : ℕ, 0 ≤ (stepTableOf U D).getD j 0 := stepTableOf_getD_nonneg U D
  have hfin1 : (ratLoop bank numTaps (stepTableOf U D) U in1 (n1 : ℤ)
      (ratFuel U n1) i0 φ0).finished = true :=
    ratLoop_finished_big bank numTaps U D in1 n1 hD i0 hi φ0 hφ _ le_rfl
  have hge1 := ratLoop_exit_ge bank numTaps (stepTableOf U D) U in1 (n1 : ℤ)
    (ratFuel U n1) i0 φ0 hfin1
  have hph1 := ratLoop_phase_lt bank numTaps (stepTableOf U D) U in1 (n1 : ℤ)
    (ratFuel U n1) i0 φ0 hφ
  have hfin2 : (ratLoop bank numTaps (stepTableOf U D) U in2 (n2 : ℤ)
      (ratFuel U n2)
      ((ratLoop bank numTaps (stepTableOf U D) U in1 (n1 : ℤ)
        (ratFuel U n1) i0 φ0).i - n1)
      ((ratLoop bank numTaps (stepTableOf U D) U in1 (n1 : ℤ)
        (ratFuel U n1) i0 φ0).phase)).finished = true :=
    ratLoop_finished_big bank numTaps U D in2 n2 hD _ (by omega) _ hph1 _ le_rfl
  have hlen := ratLoop_len_le bank numTaps (stepTableOf U D) U in1 (n1 : ℤ)
    (ratFuel U n1) i0 φ0
  set F := ratFuel U (n1 + n2) + ratFuel U n1 + ratFuel U n2 with hF
  have hf1F : ratFuel U n1 ≤ F := by omega
  have hAF : ratLoop bank numTaps (stepTableOf U D) U in1 (n1 : ℤ) F i0 φ0 =
      ratLoop bank numTaps (stepTableOf U D) U in1 (n1 : ℤ) (ratFuel U n1) i0 φ0 :=
    ratLoop_mono_le bank numTaps (stepTableOf U D) U in1 (n1 : ℤ)
      (ratFuel U n1) F hf1F i0 φ0 hfin1
  have hfinW : (ratLoop bank numTaps (stepTableOf U D) U in1 ((n1 + n2 : ℕ) : ℤ)
      (ratFuel U (n1 + n2)) i0 φ0).finished = true :=
    ratLoop_finished_big bank numTaps U D in1 (n1 + n2) hD i0 hi φ0 hφ _ le_rfl
  have happ := ratLoop_append bank numTaps (stepTableOf U D) U in1 in2 n1 (n2 : ℤ)
    (by positivity) htbn hsh F i0 φ0 (by rw [hAF]; exact hfin1)
  rw [hAF] at happ
  have hB : ratLoop bank numTaps (stepTableOf U D) U in2 (n2 : ℤ)
      (F - (ratLoop bank numTaps (stepTableOf U D) U in1 (n1 : ℤ)
        (ratFuel U n1) i0 φ0).outs.length)
      ((ratLoop bank numTaps (stepTableOf U D) U in1 (n1 : ℤ)
        (ratFuel U n1) i0 φ0).i - n1)
      ((ratLoop bank numTaps (stepTableOf U D) U in1 (n1 : ℤ)
        (ratFuel U n1) i0 φ0).phase) =
      ratLoop bank numTaps (stepTableOf U D) U in2 (n2 : ℤ) (ratFuel U n2)
      ((ratLoop bank numTaps (stepTableOf U D) U in1 (n1 : ℤ)
        (ratFuel U n1) i0 φ0).i - n1)
      ((ratLoop bank numTaps (stepTableOf U D) U in1 (n1 : ℤ)
        (ratFuel U n1) i0 φ0).phase) :=
    ratLoop_mono_le bank numTaps (stepTableOf U D) U in2 (n2 : ℤ)
      (ratFuel U n2) _ (by omega) _ _ hfin2
  rw [hB] at happ
  have hc : ((n1 + n2 : ℕ) : ℤ) = (n1 : ℤ) + (n2 : ℤ) := by push_cast; ring
  have hWF : ratLoop bank numTaps (stepTableOf U D) U in1 ((n1 + n2 : ℕ) : ℤ) F i0 φ0 =
      ratLoop bank numTaps (stepTableOf U D) U in1 ((n1 + n2 : ℕ) : ℤ)
        (ratFuel U (n1 + n2)) i0 φ0 :=
    ratLoop_mono_le bank numTaps (stepTableOf U D) U in1 ((n1 + n2 : ℕ) : ℤ)
      (ratFuel U (n1 + n2)) F (by omega) i0 φ0 hfinW
  rw [← hWF, hc]
  exact happ

theorem irrLoop_chain (bank : ℕ → ℚ) (numTaps : ℕ) (step : ℤ)
    (in1 in2 : List ℚ) (n1 n2 : ℕ) (offset : ℤ)
    (hstep : 1 ≤ step) (ho : 0 ≤ offset)
    (hsh : ∀ k : ℕ, in2.getD k 0 = in1.getD (k + n1) 0) :
    irrLoop bank numTaps step in1 ((n1 + n2 : ℕ) : ℤ) (irrFuel (n1 + n2)) offset =
      (irrLoop bank numTaps step in1 (n1 : ℤ) (irrFuel n1) offset).glue
        (irrLoop bank numTaps step in2 (n2 : ℤ) (irrFuel n2)
          ((irrLoop bank numTaps step in1 (n1 : ℤ) (irrFuel n1) offset).offset -
            (n1 : ℤ) * 2 ^ 32)) n1 := by
  have hfin1 : (irrLoop bank numTaps step in1 (n1 : ℤ) (irrFuel n1) offset).finished
      = true :=
    irrLoop_finished_big bank numTaps step in1 n1 hstep offset ho _ le_rfl
  have hge1 := irrLoop_exit_ge bank numTaps step in1 (n1 : ℤ) (irrFuel n1) offset hfin1
  have hfin2 : (irrLoop bank numTaps step in2 (n2 : ℤ) (irrFuel n2)
      ((irrLoop bank numTaps step in1 (n1 : ℤ) (irrFuel n1) offset).offset -
        (n1 : ℤ) * 2 ^ 32)).finished = true := by
    refine irrLoop_finished_big bank numTaps step in2 n2 hstep _ ?_ _ le_rfl
    have hn1 : 0 ≤ (n1 : ℤ) * 2 ^ 32 := by positivity
    omega
  have hlen := irrLoop_len_le bank numTaps step in1 (n1 : ℤ) (irrFuel n1) offset
  set F := irrFuel (n1 + n2) + irrFuel n1 + irrFuel n2 with hF
  have hAF : irrLoop bank numTaps step in1 (n1 : ℤ) F offset =
      irrLoop bank numTaps step in1 (n1 : ℤ) (irrFuel n1) offset :=
    irrLoop_mono_le bank numTaps step in1 (n1 : ℤ) (irrFuel n1) F (by omega) offset hfin1
  have hfinW : (irrLoop bank numTaps step in1 ((n1 + n2 : ℕ) : ℤ)
      (irrFuel (n1 + n2)) offset).finished = true :=
    irrLoop_finished_big bank numTaps step in1 (n1 + n2) hstep offset ho _ le_rfl
  have happ := irrLoop_append bank numTaps step in1 in2 n1 (n2 : ℤ)
    (by positivity) (by omega) hsh F offset (by rw [hAF]; exact hfin1)
  rw [hAF] at happ
  have hB : irrLoop bank numTaps step in2 (n2 : ℤ)
      (F - (irrLoop bank numTaps step in1 (n1 : ℤ) (irrFuel n1) offset).outs.length)
      ((irrLoop bank numTaps step in1 (n1 : ℤ) (irrFuel n1) offset).offset -
        (n1 : ℤ) * 2 ^ 32) =
      irrLoop bank numTaps step in2 (n2 : ℤ) (irrFuel n2)
      ((irrLoop bank numTaps step in1 (n1 : ℤ) (irrFuel n1) offset).offset -
        (n1 : ℤ) * 2 ^ 32) :=
    irrLoop_mono_le bank numTaps step in2 (n2 : ℤ) (irrFuel n2) _ (by omega) _ hfin2
  rw [hB] at happ
  have hc : ((n1 + n2 : ℕ) : ℤ) = (n1 : ℤ) + (n2 : ℤ) := by push_cast; ring
  have hWF : irrLoop bank numTaps step in1 ((n1 + n2 : ℕ) : ℤ) F offset =
      irrLoop bank numTaps step in1 ((n1 + n2 : ℕ) : ℤ) (irrFuel (n1 + n2)) offset :=
    irrLoop_mono_le bank numTaps step in1 ((n1 + n2 : ℕ) : ℤ) (irrFuel (n1 + n2)) F
      (by omega) offset hfinW
  rw [← hWF, hc]
  exact happ

end AudioSRC

namespace AudioSRC

theorem multirateFilter1_append (s : AState) (in1 in2 : List ℚ) (n1 n2 : ℕ)
    (hok : StateOK s)
    (hsh : ∀ k : ℕ, in2.getD k 0 = in1.getD (k + n1) 0) :
    multirateFilter1 s in1 (n1 + n2) =
      ((multirateFilter1 s in1 n1).1 ++
          (multirateFilter1 (multirateFilter1 s in1 n1).2 in2 n2).1,
        (multirateFilter1 (multirateFilter1 s in1 n1).2 in2 n2).2) := by
  obtain ⟨hT, hTH, hl0, hl1, hoff, hrat, hirr⟩ := hok
  by_cases hs : s.step = 0
  · obtain ⟨htbl, hU, hD, hφ, hlo⟩ := hrat hs
    unfold multirateFilter1
    simp only [hs, if_true, hi32_smul]
    rw [htbl]
    rw [ratLoop_chain s.bank s.numTaps s.upFactor s.downFactor in1 in2 n1 n2
      (hi32 s.offset) s.phase hD hoff hφ hsh]
    simp only [RatExit.glue, Prod.mk.injEq, AState.mk.injEq, true_and, and_true]
    push_cast
    ring
  · unfold multirateFilter1
    simp only [if_neg hs]
    have hstep : 1 ≤ s.step := hirr hs
    have ho : 0 ≤ s.offset := (hi32_nonneg_iff s.offset).mp hoff
    rw [irrLoop_chain s.bank s.numTaps s.step in1 in2 n1 n2 s.offset hstep ho hsh]
    simp only [IrrExit.glue, Prod.mk.injEq, AState.mk.injEq, true_and, and_true]
    push_cast
    ring

end AudioSRC

namespace AudioSRC

theorem multirateFilter1_congr (s : AState) (in1 in2 : List ℚ) (n : ℕ)
    (hok : StateOK s)
    (h : ∀ k : ℕ, (k : ℤ) < (n : ℤ) + s.numTaps - 1 → in1.getD k 0 = in2.getD k 0) :
    multirateFilter1 s in1 n = multirateFilter1 s in2 n := by
  obtain ⟨hT, hTH, hl0, hl1, hoff, hrat, hirr⟩ := hok
  by_cases hs : s.step = 0
  · obtain ⟨htbl, hU, hD, hφ, hlo⟩ := hrat hs
    have htbn : ∀ j : ℕ, 0 ≤ s.stepTable.getD j 0 := by
      intro j
      rw [htbl]
      exact stepTableOf_getD_nonneg _ _ j
    unfold multirateFilter1
    simp only [hs, if_true]
    rw [ratLoop_congr s.bank s.numTaps s.stepTable s.upFactor in1 in2 (n : ℤ)
      htbn h (ratFuel s.upFactor n) (hi32 s.offset) s.phase hoff]
  · have hstep : 1 ≤ s.step := hirr hs
    have ho : 0 ≤ s.offset := (hi32_nonneg_iff s.offset).mp hoff
    unfold multirateFilter1
    simp only [if_neg hs]
    rw [irrLoop_congr s.bank s.numTaps s.step in1 in2 (n : ℤ) (by omega) h
      (irrFuel n) s.offset ho]

theorem multirateFilter1_ok (s : AState) (input : List ℚ) (n : ℕ)
    (hok : StateOK s) : StateOK (multirateFilter1 s input n).2 := by
  obtain ⟨hT, hTH, hl0, hl1, hoff, hrat, hirr⟩ := hok
  by_cases hs : s.step = 0
  · obtain ⟨htbl, hU, hD, hφ, hlo⟩ := hrat hs
    have hfin : (ratLoop s.bank s.numTaps s.stepTable s.upFactor input (n : ℤ)
        (ratFuel s.upFactor n) (hi32 s.offset) s.phase).finished = true := by
      rw [htbl]
      exact ratLoop_finished_big s.bank s.numTaps s.upFactor s.downFactor input n hD
        (hi32 s.offset) hoff s.phase hφ _ le_rfl
    have hge := ratLoop_exit_ge s.bank s.numTaps s.stepTable s.upFactor input (n : ℤ)
      (ratFuel s.upFactor n) (hi32 s.offset) s.phase hfin
    have hph := ratLoop_phase_lt s.bank s.numTaps s.stepTable s.upFactor input (n : ℤ)
      (ratFuel s.upFactor n) (hi32 s.offset) s.phase hφ
    unfold multirateFilter1 StateOK
    simp only [hs, if_true]
    refine ⟨hT, hTH, hl0, hl1, ?_, ?_, ?_⟩
    · rw [hi32_smul]
      omega
    · intro hs2
      exact ⟨htbl, hU, hD, hph, lo32_smul _⟩
    · intro hs2
      exact absurd rfl hs2
  · have hstep : 1 ≤ s.step := hirr hs
    have ho : 0 ≤ s.offset := (hi32_nonneg_iff s.offset).mp hoff
    have hfin : (irrLoop s.bank s.numTaps s.step input (n : ℤ) (irrFuel n)
        s.offset).finished = true :=
      irrLoop_finished_big s.bank s.numTaps s.step input n hstep s.offset ho _ le_rfl
    have hge := irrLoop_exit_ge s.bank s.numTaps s.step input (n : ℤ) (irrFuel n)
      s.offset hfin
    unfold multirateFilter1 StateOK
    simp only [if_neg hs]
    refine ⟨hT, hTH, hl0, hl1, ?_, ?_, ?_⟩
    · rw [hi32_sub_smul]
      have h2 := (le_hi32_iff (irrLoop s.bank s.numTaps s.step input (n : ℤ) (irrFuel n)
        s.offset).offset n).mpr hge
      omega
    · intro hs2
      exact absurd hs2 hs
    · intro hs2
      exact hstep

end AudioSRC

namespace AudioSRC

theorem drop_append_ge (l1 l2 : List ℚ) (n : ℕ) (h : l1.length ≤ n) :
    (l1 ++ l2).drop n = l2.drop (n - l1.length) := by
  rw [List.drop_append_eq_append_drop]
  simp [List.drop_eq_nil_of_le h]

theorem histShift_eq (hist ins : List ℚ) (H n : ℕ) (hlen : hist.length = H)
    (hle : H ≤ n) :
    (hist ++ ins.take n).drop n = (ins.drop (n - H)).take H := by
  rw [drop_append_ge _ _ n (by omega), hlen, List.drop_take]
  have he : n - (n - H) = H := by omega
  rw [he]

theorem ratLoop_state_indep (bank : ℕ → ℚ) (numTaps : ℕ) (table : List ℤ) (U : ℕ)
    (inA inB : List ℚ) (n : ℤ) (fuel : ℕ) :
    ∀ i : ℤ, ∀ φ : ℕ,
    (ratLoop bank numTaps table U inA n fuel i φ).i =
        (ratLoop bank numTaps table U inB n fuel i φ).i ∧
      (ratLoop bank numTaps table U inA n fuel i φ).phase =
        (ratLoop bank numTaps table U inB n fuel i φ).phase ∧
      (ratLoop bank numTaps table U inA n fuel i φ).finished =
        (ratLoop bank numTaps table U inB n fuel i φ).finished ∧
      (ratLoop bank numTaps table U inA n fuel i φ).outs.length =
        (ratLoop bank numTaps table U inB n fuel i φ).outs.length := by
  induction fuel with
  | zero => intro i φ; simp [ratLoop]
  | succ fuel ih =>
    intro i φ
    by_cases hg : i < n
    · simp only [ratLoop, hg, if_true, List.length_cons]
      have h := ih (i + table.getD φ 0) (if φ + 1 = U then 0 else φ + 1)
      exact ⟨h.1, h.2.1, h.2.2.1, by rw [h.2.2.2]⟩
    · simp [ratLoop, hg]

theorem irrLoop_state_indep (bank : ℕ → ℚ) (numTaps : ℕ) (step : ℤ)
    (inA inB : List ℚ) (n : ℤ) (fuel : ℕ) :
    ∀ offset : ℤ,
    (irrLoop bank numTaps step inA n fuel offset).offset =
        (irrLoop bank numTaps step inB n fuel offset).offset ∧
      (irrLoop bank numTaps step inA n fuel offset).finished =
        (irrLoop bank numTaps step inB n fuel offset).finished ∧
      (irrLoop bank numTaps step inA n fuel offset).outs.length =
        (irrLoop bank numTaps step inB n fuel offset).outs.length := by
  induction fuel with
  | zero => intro offset; simp [irrLoop]
  | succ fuel ih =>
    intro offset
    by_cases hg : hi32 offset < n
    · simp only [irrLoop, hg, if_true, List.length_cons]
      have h := ih (offset + step)
      exact ⟨h.1, h.2.1, by rw [h.2.2]⟩
    · simp [irrLoop, hg]

theorem multirateFilter1_state_indep (s : AState) (inA inB : List ℚ) (n : ℕ) :
    (multirateFilter1 s inA n).2 = (multirateFilter1 s inB n).2 := by
  unfold multirateFilter1
  by_cases hs : s.step = 0
  · simp only [hs, if_true]
    have h := ratLoop_state_indep s.bank s.numTaps s.stepTable s.upFactor inA inB (n : ℤ)
      (ratFuel s.upFactor n) (hi32 s.offset) s.phase
    rw [h.1, h.2.1]
  · simp only [if_neg hs]
    have h := irrLoop_state_indep s.bank s.numTaps s.step inA inB (n : ℤ)
      (irrFuel n) s.offset
    rw [h.1]

theorem multirateFilter1_len_indep (s : AState) (inA inB : List ℚ) (n : ℕ) :
    (multirateFilter1 s inA n).1.length = (multirateFilter1 s inB n).1.length := by
  unfold multirateFilter1
  by_cases hs : s.step = 0
  · simp only [hs, if_true]
    exact (ratLoop_state_indep s.bank s.numTaps s.stepTable s.upFactor inA inB (n : ℤ)
      (ratFuel s.upFactor n) (hi32 s.offset) s.phase).2.2.2
  · simp only [if_neg hs]
    exact (irrLoop_state_indep s.bank s.numTaps s.step inA inB (n : ℤ)
      (irrFuel n) s.offset).2.2

end AudioSRC

namespace AudioSRC

theorem processFloat_spec1 (s : AState) (in0 in1 : List ℚ) (n : ℕ)
    (hok : StateOK s) (hc : s.numChannels = 1) (hn : n ≤ in0.length) :
    processFloat s in0 in1 n =
      (((multirateFilter1 s (s.hist0 ++ in0) n).1, []),
        { (multirateFilter1 s (s.hist0 ++ in0) n).2 with
            hist0 := (s.hist0 ++ in0.take n).drop n }) := by
  have hps := hok
  obtain ⟨hT, hTH, hl0, hl1, hoff, hrat, hirr⟩ := hps
  unfold processFloat processFloatM
  simp only [hc, if_true]
  by_cases hcase : n ≤ s.numHistory
  · have hnh : min s.numHistory n = n := by omega
    have hni : n - min s.numHistory n = 0 := by omega
    simp only [hnh, hni]
    have hcg : multirateFilter1 s (s.hist0 ++ in0.take n) n =
        multirateFilter1 s (s.hist0 ++ in0) n := by
      apply multirateFilter1_congr s _ _ n hok
      intro k hk
      by_cases hkh : k < s.hist0.length
      · rw [getD_append_lt _ _ _ hkh, getD_append_lt _ _ _ hkh]
      · rw [getD_append_ge _ _ _ (by omega), getD_append_ge _ _ _ (by omega)]
        rw [getD_take_lt]
        omega
    rw [hcg]
    simp
  · have hnh : min s.numHistory n = s.numHistory := by omega
    have hnine : n - s.numHistory ≠ 0 := by omega
    simp only [hnh, ne_eq, hnine, not_false_eq_true, if_true]
    have hsplit : s.numHistory + (n - s.numHistory) = n := by omega
    have hsh : ∀ k : ℕ, in0.getD k 0 = (s.hist0 ++ in0).getD (k + s.numHistory) 0 := by
      intro k
      rw [getD_append_ge _ _ _ (by omega)]
      have he : k + s.numHistory - s.hist0.length = k := by omega
      rw [he]
    have happ := multirateFilter1_append s (s.hist0 ++ in0) in0 s.numHistory
      (n - s.numHistory) hok hsh
    rw [hsplit] at happ
    have hcg : multirateFilter1 s (s.hist0 ++ in0.take s.numHistory) s.numHistory =
        multirateFilter1 s (s.hist0 ++ in0) s.numHistory := by
      apply multirateFilter1_congr s _ _ s.numHistory hok
      intro k hk
      by_cases hkh : k < s.hist0.length
      · rw [getD_append_lt _ _ _ hkh, getD_append_lt _ _ _ hkh]
      · rw [getD_append_ge _ _ _ (by omega), getD_append_ge _ _ _ (by omega)]
        rw [getD_take_lt]
        omega
    rw [hcg, happ]
    have hhist : (s.hist0 ++ in0.take n).drop n =
        (in0.drop (n - s.numHistory)).take s.numHistory :=
      histShift_eq s.hist0 in0 s.numHistory n hl0 (by omega)
    rw [hhist]

theorem processFloat_spec2 (s : AState) (in0 in1 : List ℚ) (n : ℕ)
    (hok : StateOK s) (hc : s.numChannels = 2) (hn0 : n ≤ in0.length)
    (hn1 : n ≤ in1.length) :
    processFloat s in0 in1 n =
      (((multirateFilter1 s (s.hist0 ++ in0) n).1,
          (multirateFilter1 s (s.hist1 ++ in1) n).1),
        { (multirateFilter1 s (s.hist0 ++ in0) n).2 with
            hist0 := (s.hist0 ++ in0.take n).drop n,
            hist1 := (s.hist1 ++ in1.take n).drop n }) := by
  have hps := hok
  obtain ⟨hT, hTH, hl0, hl1, hoff, hrat, hirr⟩ := hps
  have hcne : ¬ s.numChannels = 1 := by omega
  unfold processFloat processFloatM
  simp only [hc, reduceIte, multirateFilter2_eq]
  have hcg0 : ∀ m : ℕ, m ≤ n →
      multirateFilter1 s (s.hist0 ++ in0.take m) m =
      multirateFilter1 s (s.hist0 ++ in0) m := by
    intro m hm
    apply multirateFilter1_congr s _ _ m hok
    intro k hk
    by_cases hkh : k < s.hist0.length
    · rw [getD_append_lt _ _ _ hkh, getD_append_lt _ _ _ hkh]
    · rw [getD_append_ge _ _ _ (by omega), getD_append_ge _ _ _ (by omega)]
      rw [getD_take_lt]
      omega
  have hcg1 : ∀ m : ℕ, m ≤ n →
      multirateFilter1 s (s.hist1 ++ in1.take m) m =
      multirateFilter1 s (s.hist1 ++ in1) m := by
    intro m hm
    apply multirateFilter1_congr s _ _ m hok
    intro k hk
    by_cases hkh : k < s.hist1.length
    · rw [getD_append_lt _ _ _ hkh, getD_append_lt _ _ _ hkh]
    · rw [getD_append_ge _ _ _ (by omega), getD_append_ge _ _ _ (by omega)]
      rw [getD_take_lt]
      omega
  by_cases hcase : n ≤ s.numHistory
  · have hnh : min s.numHistory n = n := by omega
    have hni : n - min s.numHistory n = 0 := by omega
    simp only [hnh, hni]
    rw [hcg0 n le_rfl, hcg1 n le_rfl]
    simp
  · have hnh : min s.numHistory n = s.numHistory := by omega
    have hnine : n - s.numHistory ≠ 0 := by omega
    simp only [hnh, ne_eq, hnine, not_false_eq_true, if_true]
    have hsplit : s.numHistory + (n - s.numHistory) = n := by omega
    have hsh0 : ∀ k : ℕ, in0.getD k 0 = (s.hist0 ++ in0).getD (k + s.numHistory) 0 := by
      intro k
      rw [getD_append_ge _ _ _ (by omega)]
      have he : k + s.numHistory - s.hist0.length = k := by omega
      rw [he]
    have hsh1 : ∀ k : ℕ, in1.getD k 0 = (s.hist1 ++ in1).getD (k + s.numHistory) 0 := by
      intro k
      rw [getD_append_ge _ _ _ (by omega)]
      have he : k + s.numHistory - s.hist1.length = k := by omega
      rw [he]
    have happ0 := multirateFilter1_append s (s.hist0 ++ in0) in0 s.numHistory
      (n - s.numHistory) hok hsh0
    have happ1 := multirateFilter1_append s (s.hist1 ++ in1) in1 s.numHistory
      (n - s.numHistory) hok hsh1
    rw [hsplit] at happ0 happ1
    rw [hcg0 s.numHistory (by omega), hcg1 s.numHistory (by omega)]
    have hsi : (multirateFilter1 s (s.hist0 ++ in0) s.numHistory).2 =
        (multirateFilter1 s (s.hist1 ++ in1) s.numHistory).2 :=
      multirateFilter1_state_indep s _ _ s.numHistory
    rw [happ0, happ1]
    rw [hsi]
    have hhist0 : (s.hist0 ++ in0.take n).drop n =
        (in0.drop (n - s.numHistory)).take s.numHistory :=
      histShift_eq s.hist0 in0 s.numHistory n hl0 (by omega)
    have hhist1 : (s.hist1 ++ in1.take n).drop n =
        (in1.drop (n - s.numHistory)).take s.numHistory :=
      histShift_eq s.hist1 in1 s.numHistory n hl1 (by omega)
    rw [hhist0, hhist1]
    rw [← hsi]
    norm_num

end AudioSRC

namespace AudioSRC

theorem multirateFilter1_set_hist (s : AState) (h0 h1 : List ℚ) (input : List ℚ)
    (n : ℕ) :
    multirateFilter1 { s with hist0 := h0, hist1 := h1 } input n =
      ((multirateFilter1 s input n).1,
        { (multirateFilter1 s input n).2 with hist0 := h0, hist1 := h1 }) := by
  unfold multirateFilter1
  by_cases hs : s.step = 0
  · simp [hs]
  · simp [hs]

theorem multirateFilter1_numHistory (s : AState) (input : List ℚ) (n : ℕ) :
    (multirateFilter1 s input n).2.numHistory = s.numHistory := by
  unfold multirateFilter1
  by_cases hs : s.step = 0 <;> simp [hs]

theorem multirateFilter1_numChannels (s : AState) (input : List ℚ) (n : ℕ) :
    (multirateFilter1 s input n).2.numChannels = s.numChannels := by
  unfold multirateFilter1
  by_cases hs : s.step = 0 <;> simp [hs]

theorem multirateFilter1_hist0 (s : AState) (input : List ℚ) (n : ℕ) :
    (multirateFilter1 s input n).2.hist0 = s.hist0 := by
  unfold multirateFilter1
  by_cases hs : s.step = 0 <;> simp [hs]

theorem multirateFilter1_hist1 (s : AState) (input : List ℚ) (n : ℕ) :
    (multirateFilter1 s input n).2.hist1 = s.hist1 := by
  unfold multirateFilter1
  by_cases hs : s.step = 0 <;> simp [hs]

theorem multirateFilter1_numTaps (s : AState) (input : List ℚ) (n : ℕ) :
    (multirateFilter1 s input n).2.numTaps = s.numTaps := by
  unfold multirateFilter1
  by_cases hs : s.step = 0 <;> simp [hs]

theorem multirateFilter1_step (s : AState) (input : List ℚ) (n : ℕ) :
    (multirateFilter1 s input n).2.step = s.step := by
  unfold multirateFilter1
  by_cases hs : s.step = 0 <;> simp [hs]

theorem processFloat_ok (s : AState) (in0 in1 : List ℚ) (n : ℕ)
    (hok : StateOK s) (hn0 : n ≤ in0.length) (hn1 : n ≤ in1.length) :
    StateOK (processFloat s in0 in1 n).2 := by
  have hps := hok
  obtain ⟨hT, hTH, hl0, hl1, hoff, hrat, hirr⟩ := hps
  by_cases hc1 : s.numChannels = 1
  · rw [processFloat_spec1 s in0 in1 n hok hc1 hn0]
    have hmok := multirateFilter1_ok s (s.hist0 ++ in0) n hok
    obtain ⟨mT, mTH, ml0, ml1, moff, mrat, mirr⟩ := hmok
    refine ⟨mT, mTH, ?_, ml1, moff, mrat, mirr⟩
    show ((s.hist0 ++ in0.take n).drop n).length =
      (multirateFilter1 s (s.hist0 ++ in0) n).2.numHistory
    rw [multirateFilter1_numHistory]
    simp only [List.length_drop, List.length_append, List.length_take]
    omega
  · by_cases hc2 : s.numChannels = 2
    · rw [processFloat_spec2 s in0 in1 n hok hc2 hn0 hn1]
      have hmok := multirateFilter1_ok s (s.hist0 ++ in0) n hok
      obtain ⟨mT, mTH, ml0, ml1, moff, mrat, mirr⟩ := hmok
      refine ⟨mT, mTH, ?_, ?_, moff, mrat, mirr⟩
      · show ((s.hist0 ++ in0.take n).drop n).length =
          (multirateFilter1 s (s.hist0 ++ in0) n).2.numHistory
        rw [multirateFilter1_numHistory]
        simp only [List.length_drop, List.length_append, List.length_take]
        omega
      · show ((s.hist1 ++ in1.take n).drop n).length =
          (multirateFilter1 s (s.hist0 ++ in0) n).2.numHistory
        rw [multirateFilter1_numHistory]
        simp only [List.length_drop, List.length_append, List.length_take]
        omega
    · unfold processFloat processFloatM
      simp only [if_neg hc1, if_neg hc2]
      exact ⟨hT, hTH, hl0, hl1, hoff, hrat, hirr⟩

end AudioSRC

namespace AudioSRC

theorem chain_hist_eq (hist xs ys : List ℚ) (n2 : ℕ) :
    (hist ++ (xs ++ ys).take (xs.length + n2)).drop (xs.length + n2) =
      ((hist ++ xs).drop xs.length ++ ys.take n2).drop n2 := by
  calc (hist ++ (xs ++ ys).take (xs.length + n2)).drop (xs.length + n2)
      = ((hist ++ xs) ++ ys.take n2).drop (xs.length + n2) := by
        rw [List.take_append n2, ← List.append_assoc]
    _ = (((hist ++ xs) ++ ys.take n2).drop xs.length).drop n2 :=
        (List.drop_drop n2 xs.length _).symm
    _ = ((hist ++ xs).drop xs.length ++ ys.take n2).drop n2 := by
        rw [List.drop_append_of_le_length (by simp)]

theorem chain_shift (hist xs ys : List ℚ) (H : ℕ) (hlen : hist.length = H) :
    ∀ k : ℕ, ((hist ++ xs).drop xs.length ++ ys).getD k 0 =
      ((hist ++ xs) ++ ys).getD (k + xs.length) 0 := by
  intro k
  by_cases hk : k < H
  · rw [getD_append_lt _ _ _ (by simp [hlen]; omega)]
    rw [getD_append_lt _ _ _ (by simp [hlen]; omega)]
    rw [getD_drop]
    have he : xs.length + k = k + xs.length := by omega
    rw [he]
  · rw [getD_append_ge _ _ _ (by simp [hlen]; omega)]
    rw [getD_append_ge _ _ _ (by simp [hlen]; omega)]
    have he : k + xs.length - (hist ++ xs).length = k - ((hist ++ xs).drop xs.length).length := by
      simp [hlen]
      omega
    rw [he]

theorem processFloat_chain1 (s : AState) (xs0 xs1 ys0 ys1 : List ℚ)
    (hok : StateOK s) (hc1 : s.numChannels = 1)
    (hx1 : xs1.length = xs0.length) (hy1 : ys1.length = ys0.length) :
    processFloat s (xs0 ++ ys0) (xs1 ++ ys1) (xs0.length + ys0.length) =
      (((processFloat s xs0 xs1 xs0.length).1.1 ++
          (processFloat (processFloat s xs0 xs1 xs0.length).2 ys0 ys1
            ys0.length).1.1,
        []),
       (processFloat (processFloat s xs0 xs1 xs0.length).2 ys0 ys1 ys0.length).2) := by
  have hps := hok
  obtain ⟨hT, hTH, hl0, hl1, hoff, hrat, hirr⟩ := hps
  -- the left side, by the single-run characterisation and filter chaining
  have hL : processFloat s (xs0 ++ ys0) (xs1 ++ ys1) (xs0.length + ys0.length) =
      (((multirateFilter1 s (s.hist0 ++ xs0) xs0.length).1 ++
          (multirateFilter1 (multirateFilter1 s (s.hist0 ++ xs0) xs0.length).2
            ((s.hist0 ++ xs0).drop xs0.length ++ ys0) ys0.length).1, []),
        { (multirateFilter1 (multirateFilter1 s (s.hist0 ++ xs0) xs0.length).2
            ((s.hist0 ++ xs0).drop xs0.length ++ ys0) ys0.length).2 with
          hist0 := ((s.hist0 ++ xs0).drop xs0.length ++ ys0.take ys0.length).drop
            ys0.length }) := by
    rw [processFloat_spec1 s (xs0 ++ ys0) (xs1 ++ ys1) (xs0.length + ys0.length)
      hok hc1 (by simp)]
    have hG : s.hist0 ++ (xs0 ++ ys0) = (s.hist0 ++ xs0) ++ ys0 := by
      rw [List.append_assoc]
    rw [hG]
    have hshift := chain_shift s.hist0 xs0 ys0 s.numHistory hl0
    have happ := multirateFilter1_append s ((s.hist0 ++ xs0) ++ ys0)
      ((s.hist0 ++ xs0).drop xs0.length ++ ys0) xs0.length ys0.length hok hshift
    have hcg : multirateFilter1 s ((s.hist0 ++ xs0) ++ ys0) xs0.length =
        multirateFilter1 s (s.hist0 ++ xs0) xs0.length := by
      apply multirateFilter1_congr s _ _ xs0.length hok
      intro k hk
      by_cases hkh : k < (s.hist0 ++ xs0).length
      · rw [getD_append_lt _ _ _ hkh]
      · exfalso
        have hlen2 : (s.hist0 ++ xs0).length = s.numHistory + xs0.length := by
          simp [hl0]
        omega
    rw [happ, hcg]
    rw [chain_hist_eq s.hist0 xs0 ys0 ys0.length]
  -- the two chained halves
  have hp1 : processFloat s xs0 xs1 xs0.length =
      (((multirateFilter1 s (s.hist0 ++ xs0) xs0.length).1, []),
        { (multirateFilter1 s (s.hist0 ++ xs0) xs0.length).2 with
          hist0 := (s.hist0 ++ xs0).drop xs0.length }) := by
    rw [processFloat_spec1 s xs0 xs1 xs0.length hok hc1 le_rfl, List.take_length]
  have hokR : StateOK ({ (multirateFilter1 s (s.hist0 ++ xs0) xs0.length).2 with
      hist0 := (s.hist0 ++ xs0).drop xs0.length } : AState) := by
    have h1 := processFloat_ok s xs0 xs1 xs0.length hok le_rfl (by omega)
    rw [hp1] at h1
    exact h1
  have hcR : ({ (multirateFilter1 s (s.hist0 ++ xs0) xs0.length).2 with
      hist0 := (s.hist0 ++ xs0).drop xs0.length } : AState).numChannels = 1 := by
    show (multirateFilter1 s (s.hist0 ++ xs0) xs0.length).2.numChannels = 1
    rw [multirateFilter1_numChannels]
    exact hc1
  have hp2 : processFloat
      ({ (multirateFilter1 s (s.hist0 ++ xs0) xs0.length).2 with
        hist0 := (s.hist0 ++ xs0).drop xs0.length } : AState) ys0 ys1 ys0.length =
      (((multirateFilter1 (multirateFilter1 s (s.hist0 ++ xs0) xs0.length).2
          ((s.hist0 ++ xs0).drop xs0.length ++ ys0) ys0.length).1, []),
        { (multirateFilter1 (multirateFilter1 s (s.hist0 ++ xs0) xs0.length).2
            ((s.hist0 ++ xs0).drop xs0.length ++ ys0) ys0.length).2 with
          hist0 := ((s.hist0 ++ xs0).drop xs0.length ++ ys0.take ys0.length).drop
            ys0.length }) := by
    rw [processFloat_spec1 _ ys0 ys1 ys0.length hokR hcR le_rfl]
    have h2 := multirateFilter1_set_hist
      (multirateFilter1 s (s.hist0 ++ xs0) xs0.length).2
      ((s.hist0 ++ xs0).drop xs0.length)
      ((multirateFilter1 s (s.hist0 ++ xs0) xs0.length).2.hist1)
      ((s.hist0 ++ xs0).drop xs0.length ++ ys0) ys0.length
    have hrec : ({ (multirateFilter1 s (s.hist0 ++ xs0) xs0.length).2 with
        hist0 := (s.hist0 ++ xs0).drop xs0.length } : AState) =
        { (multirateFilter1 s (s.hist0 ++ xs0) xs0.length).2 with
          hist0 := (s.hist0 ++ xs0).drop xs0.length,
          hist1 := (multirateFilter1 s (s.hist0 ++ xs0) xs0.length).2.hist1 } := rfl
    show (((multirateFilter1 ({ (multirateFilter1 s (s.hist0 ++ xs0) xs0.length).2 with
        hist0 := (s.hist0 ++ xs0).drop xs0.length } : AState)
        ((s.hist0 ++ xs0).drop xs0.length ++ ys0) ys0.length).1, ([] : List ℚ)),
      { (multirateFilter1 ({ (multirateFilter1 s (s.hist0 ++ xs0) xs0.length).2 with
          hist0 := (s.hist0 ++ xs0).drop xs0.length } : AState)
          ((s.hist0 ++ xs0).drop xs0.length ++ ys0) ys0.length).2 with
        hist0 := ((s.hist0 ++ xs0).drop xs0.length ++ ys0.take ys0.length).drop
          ys0.length }) = _
    rw [hrec, h2]
    simp only [multirateFilter1_hist1]
  rw [hL, hp1]
  have hp2b := hp2
  rw [show ((((multirateFilter1 s (s.hist0 ++ xs0) xs0.length).1, ([] : List ℚ)),
      ({ (multirateFilter1 s (s.hist0 ++ xs0) xs0.length).2 with
        hist0 := (s.hist0 ++ xs0).drop xs0.length } : AState)) :
      (List ℚ × List ℚ) × AState).2 =
      ({ (multirateFilter1 s (s.hist0 ++ xs0) xs0.length).2 with
        hist0 := (s.hist0 ++ xs0).drop xs0.length } : AState) from rfl]
  rw [hp2b]

end AudioSRC

namespace AudioSRC

theorem processFloat_chain2 (s : AState) (xs0 xs1 ys0 ys1 : List ℚ)
    (hok : StateOK s) (hc2 : s.numChannels = 2)
    (hx1 : xs1.length = xs0.length) (hy1 : ys1.length = ys0.length) :
    processFloat s (xs0 ++ ys0) (xs1 ++ ys1) (xs0.length + ys0.length) =
      (((processFloat s xs0 xs1 xs0.length).1.1 ++
          (processFloat (processFloat s xs0 xs1 xs0.length).2 ys0 ys1
            ys0.length).1.1,
        (processFloat s xs0 xs1 xs0.length).1.2 ++
          (processFloat (processFloat s xs0 xs1 xs0.length).2 ys0 ys1
            ys0.length).1.2),
       (processFloat (processFloat s xs0 xs1 xs0.length).2 ys0 ys1 ys0.length).2) := by
  have hps := hok
  obtain ⟨hT, hTH, hl0, hl1, hoff, hrat, hirr⟩ := hps
  have htk1 : xs1.take xs0.length = xs1 := by
    rw [← hx1, List.take_length]
  have hdr1 : ∀ l : List ℚ, l.drop xs1.length = l.drop xs0.length := by
    intro l
    rw [hx1]
  -- the left side
  have hL : processFloat s (xs0 ++ ys0) (xs1 ++ ys1) (xs0.length + ys0.length) =
      (((multirateFilter1 s (s.hist0 ++ xs0) xs0.length).1 ++
          (multirateFilter1 (multirateFilter1 s (s.hist0 ++ xs0) xs0.length).2
            ((s.hist0 ++ xs0).drop xs0.length ++ ys0) ys0.length).1,
        (multirateFilter1 s (s.hist1 ++ xs1) xs0.length).1 ++
          (multirateFilter1 (multirateFilter1 s (s.hist0 ++ xs0) xs0.length).2
            ((s.hist1 ++ xs1).drop xs0.length ++ ys1) ys0.length).1),
        { (multirateFilter1 (multirateFilter1 s (s.hist0 ++ xs0) xs0.length).2
            ((s.hist0 ++ xs0).drop xs0.length ++ ys0) ys0.length).2 with
          hist0 := ((s.hist0 ++ xs0).drop xs0.length ++ ys0.take ys0.length).drop
            ys0.length,
          hist1 := ((s.hist1 ++ xs1).drop xs0.length ++ ys1.take ys0.length).drop
            ys0.length }) := by
    rw [processFloat_spec2 s (xs0 ++ ys0) (xs1 ++ ys1) (xs0.length + ys0.length)
      hok hc2 (by simp) (by simp; omega)]
    have hG0 : s.hist0 ++ (xs0 ++ ys0) = (s.hist0 ++ xs0) ++ ys0 := by
      rw [List.append_assoc]
    have hG1 : s.hist1 ++ (xs1 ++ ys1) = (s.hist1 ++ xs1) ++ ys1 := by
      rw [List.append_assoc]
    rw [hG0, hG1]
    -- channel 0 split
    have hshift0 := chain_shift s.hist0 xs0 ys0 s.numHistory hl0
    have happ0 := multirateFilter1_append s ((s.hist0 ++ xs0) ++ ys0)
      ((s.hist0 ++ xs0).drop xs0.length ++ ys0) xs0.length ys0.length hok hshift0
    have hcg0 : multirateFilter1 s ((s.hist0 ++ xs0) ++ ys0) xs0.length =
        multirateFilter1 s (s.hist0 ++ xs0) xs0.length := by
      apply multirateFilter1_congr s _ _ xs0.length hok
      intro k hk
      by_cases hkh : k < (s.hist0 ++ xs0).length
      · rw [getD_append_lt _ _ _ hkh]
      · exfalso
        have hlen2 : (s.hist0 ++ xs0).length = s.numHistory + xs0.length := by
          simp [hl0]
        omega
    -- channel 1 split: frame counts are those of channel 0
    have hshift1 : ∀ k : ℕ,
        ((s.hist1 ++ xs1).drop xs0.length ++ ys1).getD k 0 =
        ((s.hist1 ++ xs1) ++ ys1).getD (k + xs0.length) 0 := by
      intro k
      have h := chain_shift s.hist1 xs1 ys1 s.numHistory hl1 k
      rw [hdr1, hx1] at h
      exact h
    have happ1 := multirateFilter1_append s ((s.hist1 ++ xs1) ++ ys1)
      ((s.hist1 ++ xs1).drop xs0.length ++ ys1) xs0.length ys0.length hok hshift1
    have hcg1 : multirateFilter1 s ((s.hist1 ++ xs1) ++ ys1) xs0.length =
        multirateFilter1 s (s.hist1 ++ xs1) xs0.length := by
      apply multirateFilter1_congr s _ _ xs0.length hok
      intro k hk
      by_cases hkh : k < (s.hist1 ++ xs1).length
      · rw [getD_append_lt _ _ _ hkh]
      · exfalso
        have hlen2 : (s.hist1 ++ xs1).length = s.numHistory + xs1.length := by
          simp [hl1]
        omega
    rw [happ0, happ1, hcg0, hcg1]
    have hsi : (multirateFilter1 s (s.hist1 ++ xs1) xs0.length).2 =
        (multirateFilter1 s (s.hist0 ++ xs0) xs0.length).2 :=
      multirateFilter1_state_indep s _ _ xs0.length
    rw [hsi]
    have hh0 := chain_hist_eq s.hist0 xs0 ys0 ys0.length
    have hh1 : (s.hist1 ++ (xs1 ++ ys1).take (xs0.length + ys0.length)).drop
        (xs0.length + ys0.length) =
        ((s.hist1 ++ xs1).drop xs0.length ++ ys1.take ys0.length).drop ys0.length := by
      have h := chain_hist_eq s.hist1 xs1 ys1 ys0.length
      rw [hdr1, hx1, ← hy1] at h
      rw [← hy1]
      exact h
    rw [hh0, hh1]
  -- the first half
  have hp1 : processFloat s xs0 xs1 xs0.length =
      (((multirateFilter1 s (s.hist0 ++ xs0) xs0.length).1,
        (multirateFilter1 s (s.hist1 ++ xs1) xs0.length).1),
        { (multirateFilter1 s (s.hist0 ++ xs0) xs0.length).2 with
          hist0 := (s.hist0 ++ xs0).drop xs0.length,
          hist1 := (s.hist1 ++ xs1).drop xs0.length }) := by
    rw [processFloat_spec2 s xs0 xs1 xs0.length hok hc2 le_rfl (by omega),
      List.take_length, htk1]
  have hokR : StateOK ({ (multirateFilter1 s (s.hist0 ++ xs0) xs0.length).2 with
      hist0 := (s.hist0 ++ xs0).drop xs0.length,
      hist1 := (s.hist1 ++ xs1).drop xs0.length } : AState) := by
    have h1 := processFloat_ok s xs0 xs1 xs0.length hok le_rfl (by omega)
    rw [hp1] at h1
    exact h1
  have hcR : ({ (multirateFilter1 s (s.hist0 ++ xs0) xs0.length).2 with
      hist0 := (s.hist0 ++ xs0).drop xs0.length,
      hist1 := (s.hist1 ++ xs1).drop xs0.length } : AState).numChannels = 2 := by
    show (multirateFilter1 s (s.hist0 ++ xs0) xs0.length).2.numChannels = 2
    rw [multirateFilter1_numChannels]
    exact hc2
  have hp2 : processFloat
      ({ (multirateFilter1 s (s.hist0 ++ xs0) xs0.length).2 with
        hist0 := (s.hist0 ++ xs0).drop xs0.length,
        hist1 := (s.hist1 ++ xs1).drop xs0.length } : AState) ys0 ys1 ys0.length =
      (((multirateFilter1 (multirateFilter1 s (s.hist0 ++ xs0) xs0.length).2
          ((s.hist0 ++ xs0).drop xs0.length ++ ys0) ys0.length).1,
        (multirateFilter1 (multirateFilter1 s (s.hist0 ++ xs0) xs0.length).2
          ((s.hist1 ++ xs1).drop xs0.length ++ ys1) ys0.length).1),
        { (multirateFilter1 (multirateFilter1 s (s.hist0 ++ xs0) xs0.length).2
            ((s.hist0 ++ xs0).drop xs0.length ++ ys0) ys0.length).2 with
          hist0 := ((s.hist0 ++ xs0).drop xs0.length ++ ys0.take ys0.length).drop
            ys0.length,
          hist1 := ((s.hist1 ++ xs1).drop xs0.length ++ ys1.take ys0.length).drop
            ys0.length }) := by
    rw [processFloat_spec2 _ ys0 ys1 ys0.length hokR hcR le_rfl (by omega)]
    have h2 := multirateFilter1_set_hist
      (multirateFilter1 s (s.hist0 ++ xs0) xs0.length).2
      ((s.hist0 ++ xs0).drop xs0.length)
      ((s.hist1 ++ xs1).drop xs0.length)
      ((s.hist0 ++ xs0).drop xs0.length ++ ys0) ys0.length
    have h3 := multirateFilter1_set_hist
      (multirateFilter1 s (s.hist0 ++ xs0) xs0.length).2
      ((s.hist0 ++ xs0).drop xs0.length)
      ((s.hist1 ++ xs1).drop xs0.length)
      ((s.hist1 ++ xs1).drop xs0.length ++ ys1) ys0.length
    rw [h2, h3]
  rw [hL, hp1]
  have hp2b := hp2
  rw [show (((((multirateFilter1 s (s.hist0 ++ xs0) xs0.length).1,
        (multirateFilter1 s (s.hist1 ++ xs1) xs0.length).1)),
      ({ (multirateFilter1 s (s.hist0 ++ xs0) xs0.length).2 with
        hist0 := (s.hist0 ++ xs0).drop xs0.length,
        hist1 := (s.hist1 ++ xs1).drop xs0.length } : AState)) :
      (List ℚ × List ℚ) × AState).2 =
      ({ (multirateFilter1 s (s.hist0 ++ xs0) xs0.length).2 with
        hist0 := (s.hist0 ++ xs0).drop xs0.length,
        hist1 := (s.hist1 ++ xs1).drop xs0.length } : AState) from rfl]
  rw [hp2b]

end AudioSRC

namespace AudioSRC

theorem ceil_div_mul_ge (a b : ℕ) (hb : 1 ≤ b) : a ≤ (a + b - 1) / b * b := by
  have h := Nat.div_add_mod (a + b - 1) b
  have h2 : (a + b - 1) % b < b := Nat.mod_lt _ (by omega)
  have hc : (a + b - 1) / b * b = b * ((a + b - 1) / b) := Nat.mul_comm _ _
  omega

theorem int_ceil_div_mul_ge (a b : ℤ) (hb : 1 ≤ b) :
    a ≤ (a + b - 1) / b * b := by
  have h := Int.ediv_add_emod (a + b - 1) b
  have h2 := Int.emod_lt_of_pos (a + b - 1) (by omega : (0:ℤ) < b)
  have h3 := Int.emod_nonneg (a + b - 1) (by omega : b ≠ 0)
  have hc : (a + b - 1) / b * b = b * ((a + b - 1) / b) := by ring
  omega

theorem ratLoop_len_bound (bank : ℕ → ℚ) (numTaps : ℕ) (U D : ℕ)
    (input : List ℚ) (n : ℤ) (hU : 1 ≤ U) :
    ∀ K : ℕ, ∀ fuel : ℕ, ∀ i : ℤ, ∀ φ : ℕ, φ < U →
    n ≤ i + ((((φ + K) * D) / U : ℕ) : ℤ) - (((φ * D) / U : ℕ) : ℤ) →
    (ratLoop bank numTaps (stepTableOf U D) U input n fuel i φ).outs.length ≤ K := by
  intro K
  induction K with
  | zero =>
    intro fuel i φ hφ hb
    simp only [Nat.add_zero] at hb
    have hni : ¬ i < n := by omega
    cases fuel with
    | zero => simp [ratLoop]
    | succ fuel => simp [ratLoop, hni]
  | succ K ih =>
    intro fuel i φ hφ hb
    cases fuel with
    | zero => simp [ratLoop]
    | succ fuel =>
      by_cases hg : i < n
      · simp only [ratLoop, hg, if_true, List.length_cons]
        have hstep := stepTableOf_getD U D φ hφ
        by_cases hw : φ + 1 = U
        · have harg : (if φ + 1 = U then 0 else φ + 1) = 0 := by simp [hw]
          rw [harg]
          have hD2 : ((φ + 1) * D) / U = D := by
            rw [hw]
            exact Nat.mul_div_cancel_left D (by omega)
          have he1 : (φ + (K + 1)) * D = K * D + U * D := by
            have h0 : φ + (K + 1) = (φ + 1) + K := by ring
            rw [h0, hw]
            ring
          have hknown : ((φ + (K + 1)) * D) / U = (K * D) / U + D := by
            rw [he1]
            exact Nat.add_mul_div_left (K * D) D (by omega)
          have h2 := ih fuel (i + (stepTableOf U D).getD φ 0) 0 (by omega) (by
            rw [hstep, hD2]
            rw [hknown] at hb
            simp only [Nat.zero_add, Nat.zero_mul, Nat.zero_div]
            push_cast at hb ⊢
            omega)
          omega
        · have harg : (if φ + 1 = U then 0 else φ + 1) = φ + 1 := by simp [hw]
          rw [harg]
          have he : φ + (K + 1) = φ + 1 + K := by ring
          rw [he] at hb
          have h2 := ih fuel (i + (stepTableOf U D).getD φ 0) (φ + 1) (by omega) (by
            rw [hstep]
            omega)
          omega
      · simp [ratLoop, hg]

theorem irrLoop_len_bound (bank : ℕ → ℚ) (numTaps : ℕ) (step : ℤ)
    (input : List ℚ) (n : ℤ) :
    ∀ K : ℕ, ∀ fuel : ℕ, ∀ offset : ℤ,
    n * 2 ^ 32 ≤ offset + (K : ℤ) * step →
    (irrLoop bank numTaps step input n fuel offset).outs.length ≤ K := by
  intro K
  induction K with
  | zero =>
    intro fuel offset hb
    simp only [Nat.cast_zero, zero_mul, add_zero] at hb
    have hni : ¬ hi32 offset < n := by
      rw [not_lt, le_hi32_iff]
      omega
    cases fuel with
    | zero => simp [irrLoop]
    | succ fuel => simp [irrLoop, hni]
  | succ K ih =>
    intro fuel offset hb
    cases fuel with
    | zero => simp [irrLoop]
    | succ fuel =>
      by_cases hg : hi32 offset < n
      · simp only [irrLoop, hg, if_true, List.length_cons]
        have he : (((K + 1 : ℕ)) : ℤ) * step = (K : ℤ) * step + step := by
          push_cast
          ring
        rw [he] at hb
        have h2 := ih fuel (offset + step) (by omega)
        omega
      · simp [irrLoop, hg]

theorem multirateFilter1_len_le (s : AState) (input : List ℚ) (n : ℕ)
    (hok : StateOK s) :
    (((multirateFilter1 s input n).1.length : ℤ)) ≤ getMaxOutput s n := by
  obtain ⟨hT, hTH, hl0, hl1, hoff, hrat, hirr⟩ := hok
  by_cases hs : s.step = 0
  · obtain ⟨htbl, hU, hD, hφ, hlo⟩ := hrat hs
    unfold multirateFilter1 getMaxOutput
    simp only [hs, if_true]
    rw [htbl]
    have hKD : n * s.upFactor ≤
        (n * s.upFactor + s.downFactor - 1) / s.downFactor * s.downFactor :=
      ceil_div_mul_ge (n * s.upFactor) s.downFactor hD
    have hnK : n ≤ (n * s.upFactor + s.downFactor - 1) / s.downFactor *
        s.downFactor / s.upFactor := by
      rw [Nat.le_div_iff_mul_le (by omega : 0 < s.upFactor)]
      exact hKD
    have hsup : s.phase * s.downFactor / s.upFactor +
        (n * s.upFactor + s.downFactor - 1) / s.downFactor * s.downFactor /
          s.upFactor ≤
        (s.phase + (n * s.upFactor + s.downFactor - 1) / s.downFactor) *
          s.downFactor / s.upFactor := by
      rw [Nat.le_div_iff_mul_le (by omega : 0 < s.upFactor)]
      have h1 := Nat.div_mul_le_self (s.phase * s.downFactor) s.upFactor
      have h2 := Nat.div_mul_le_self
        ((n * s.upFactor + s.downFactor - 1) / s.downFactor * s.downFactor)
        s.upFactor
      have h3 : (s.phase + (n * s.upFactor + s.downFactor - 1) / s.downFactor) *
          s.downFactor = s.phase * s.downFactor +
          (n * s.upFactor + s.downFactor - 1) / s.downFactor * s.downFactor := by
        ring
      rw [Nat.add_mul]
      omega
    have hbound : (n : ℤ) ≤ hi32 s.offset +
        ((((s.phase + (n * s.upFactor + s.downFactor - 1) / s.downFactor) *
          s.downFactor) / s.upFactor : ℕ) : ℤ) -
        (((s.phase * s.downFactor) / s.upFactor : ℕ) : ℤ) := by
      omega
    have hlen := ratLoop_len_bound s.bank s.numTaps s.upFactor s.downFactor input
      (n : ℤ) hU ((n * s.upFactor + s.downFactor - 1) / s.downFactor)
      (ratFuel s.upFactor n) (hi32 s.offset) s.phase hφ hbound
    have hge : 1 ≤ n * s.upFactor + s.downFactor := by omega
    have hcast : ((n * s.upFactor + s.downFactor - 1 : ℕ) : ℤ) =
        (n : ℤ) * s.upFactor + s.downFactor - 1 := by
      rw [Nat.cast_sub hge]
      push_cast
      ring
    have hKc : (((n * s.upFactor + s.downFactor - 1) / s.downFactor : ℕ) : ℤ) =
        ((n : ℤ) * s.upFactor + s.downFactor - 1) / (s.downFactor : ℤ) := by
      rw [Int.natCast_div, hcast]
    calc (((ratLoop s.bank s.numTaps (stepTableOf s.upFactor s.downFactor)
          s.upFactor input (n : ℤ) (ratFuel s.upFactor n) (hi32 s.offset)
          s.phase).outs.length : ℤ))
        ≤ (((n * s.upFactor + s.downFactor - 1) / s.downFactor : ℕ) : ℤ) := by
          exact_mod_cast hlen
      _ = ((n : ℤ) * s.upFactor + s.downFactor - 1) / (s.downFactor : ℤ) := hKc
  · have hstep : 1 ≤ s.step := hirr hs
    have ho : 0 ≤ s.offset := (hi32_nonneg_iff s.offset).mp hoff
    unfold multirateFilter1 getMaxOutput
    simp only [if_neg hs]
    have hnn : (0 : ℤ) ≤ (n : ℤ) * 2 ^ 32 :=
      mul_nonneg (Int.natCast_nonneg n) (by norm_num)
    have hq : 0 ≤ ((n : ℤ) * 2 ^ 32 + s.step - 1) / s.step :=
      Int.ediv_nonneg (by omega) (by omega)
    have hmul : (n : ℤ) * 2 ^ 32 ≤
        ((n : ℤ) * 2 ^ 32 + s.step - 1) / s.step * s.step :=
      int_ceil_div_mul_ge ((n : ℤ) * 2 ^ 32) s.step hstep
    have hb : (n : ℤ) * 2 ^ 32 ≤ s.offset +
        (((((n : ℤ) * 2 ^ 32 + s.step - 1) / s.step).toNat : ℕ) : ℤ) * s.step := by
      rw [Int.toNat_of_nonneg hq]
      omega
    have hlen := irrLoop_len_bound s.bank s.numTaps s.step input (n : ℤ)
      ((((n : ℤ) * 2 ^ 32 + s.step - 1) / s.step).toNat) (irrFuel n) s.offset hb
    calc (((irrLoop s.bank s.numTaps s.step input (n : ℤ) (irrFuel n)
          s.offset).outs.length : ℤ))
        ≤ (((((n : ℤ) * 2 ^ 32 + s.step - 1) / s.step).toNat : ℕ) : ℤ) := by
          exact_mod_cast hlen
      _ = ((n : ℤ) * 2 ^ 32 + s.step - 1) / s.step := Int.toNat_of_nonneg hq

end AudioSRC

namespace AudioSRC

theorem int_div_mul_le (a b : ℤ) (hb : 0 < b) : a / b * b ≤ a := by
  have h := Int.ediv_add_emod a b
  have h2 := Int.emod_nonneg a (by omega : b ≠ 0)
  have hc : a / b * b = b * (a / b) := by ring
  omega

theorem getMaxOutput_nonneg (s : AState) (n : ℕ) (hok : StateOK s) :
    0 ≤ getMaxOutput s n := by
  obtain ⟨hT, hTH, hl0, hl1, hoff, hrat, hirr⟩ := hok
  unfold getMaxOutput
  by_cases hs : s.step = 0
  · obtain ⟨htbl, hU, hD, hφ, hlo⟩ := hrat hs
    simp only [hs, if_true]
    apply Int.ediv_nonneg
    · have h1 : (1 : ℤ) ≤ s.downFactor := by exact_mod_cast hD
      have h2 : (0 : ℤ) ≤ (n : ℤ) * s.upFactor :=
        mul_nonneg (Int.natCast_nonneg n) (Int.natCast_nonneg _)
      omega
    · exact Int.natCast_nonneg s.downFactor
  · have hstep := hirr hs
    simp only [if_neg hs]
    apply Int.ediv_nonneg
    · have h2 : (0 : ℤ) ≤ (n : ℤ) * 2 ^ 32 :=
        mul_nonneg (Int.natCast_nonneg n) (by norm_num)
      omega
    · omega

theorem getMaxOutput_block (s : AState) (n : ℕ) (hok : StateOK s)
    (hn : (n : ℤ) ≤ inputBlock s) : getMaxOutput s n ≤ 1024 := by
  obtain ⟨hT, hTH, hl0, hl1, hoff, hrat, hirr⟩ := hok
  unfold inputBlock getMaxInput at hn
  unfold getMaxOutput
  by_cases hs : s.step = 0
  · obtain ⟨htbl, hU, hD, hφ, hlo⟩ := hrat hs
    simp only [hs, if_true] at hn ⊢
    have hUi : (1 : ℤ) ≤ s.upFactor := by exact_mod_cast hU
    have hDi : (1 : ℤ) ≤ s.downFactor := by exact_mod_cast hD
    have hn2 : (n : ℤ) ≤ 1024 * (s.downFactor : ℤ) / (s.upFactor : ℤ) :=
      le_trans hn (min_le_right _ _)
    have h4 := int_div_mul_le (1024 * (s.downFactor : ℤ)) (s.upFactor : ℤ)
      (by omega)
    have h6 : (n : ℤ) * s.upFactor ≤
        1024 * (s.downFactor : ℤ) / s.upFactor * s.upFactor :=
      mul_le_mul_of_nonneg_right hn2 (by omega)
    have h7 : ((n : ℤ) * s.upFactor + s.downFactor - 1) / s.downFactor ≤
        (1024 * (s.downFactor : ℤ) + s.downFactor - 1) / s.downFactor :=
      Int.ediv_le_ediv (by omega) (by omega)
    have h8 : (1024 * (s.downFactor : ℤ) + s.downFactor - 1) / s.downFactor
        = 1024 := by
      have he : 1024 * (s.downFactor : ℤ) + s.downFactor - 1 =
          ((s.downFactor : ℤ) - 1) + 1024 * s.downFactor := by ring
      rw [he, Int.add_mul_ediv_right _ _ (by omega : (s.downFactor : ℤ) ≠ 0)]
      rw [Int.ediv_eq_zero_of_lt (by omega) (by omega)]
      norm_num
    omega
  · have hstep := hirr hs
    simp only [if_neg hs] at hn ⊢
    have hn2 : (n : ℤ) ≤ 1024 * s.step / 2 ^ 32 :=
      le_trans hn (min_le_right _ _)
    have h4 := int_div_mul_le (1024 * s.step) (2 ^ 32 : ℤ) (by norm_num)
    have h6 : (n : ℤ) * 2 ^ 32 ≤ 1024 * s.step / 2 ^ 32 * 2 ^ 32 :=
      mul_le_mul_of_nonneg_right hn2 (by norm_num)
    have h7 : ((n : ℤ) * 2 ^ 32 + s.step - 1) / s.step ≤
        (1024 * s.step + s.step - 1) / s.step :=
      Int.ediv_le_ediv (by omega) (by omega)
    have h8 : (1024 * s.step + s.step - 1) / s.step = 1024 := by
      have he : 1024 * s.step + s.step - 1 = (s.step - 1) + 1024 * s.step := by
        ring
      rw [he, Int.add_mul_ediv_right _ _ (by omega : s.step ≠ 0)]
      rw [Int.ediv_eq_zero_of_lt (by omega) (by omega)]
      norm_num
    omega

theorem processFloat_len_le (s : AState) (in0 in1 : List ℚ) (n : ℕ)
    (hok : StateOK s) (hc : s.numChannels = 1 ∨ s.numChannels = 2)
    (hn0 : n ≤ in0.length) (hn1 : n ≤ in1.length) :
    ((processFloat s in0 in1 n).1.1.length : ℤ) ≤ getMaxOutput s n ∧
    ((processFloat s in0 in1 n).1.2.length : ℤ) ≤ getMaxOutput s n := by
  cases hc with
  | inl hc1 =>
    rw [processFloat_spec1 s in0 in1 n hok hc1 hn0]
    constructor
    · exact multirateFilter1_len_le s (s.hist0 ++ in0) n hok
    · show ((List.length ([] : List ℚ) : ℤ)) ≤ getMaxOutput s n
      simp only [List.length_nil, Nat.cast_zero]
      exact getMaxOutput_nonneg s n hok
  | inr hc2 =>
    rw [processFloat_spec2 s in0 in1 n hok hc2 hn0 hn1]
    exact ⟨multirateFilter1_len_le s (s.hist0 ++ in0) n hok,
      multirateFilter1_len_le s (s.hist1 ++ in1) n hok⟩

end AudioSRC

namespace AudioSRC

theorem hi32_zero : hi32 0 = 0 := by
  unfold hi32
  norm_num

theorem lo32_zero : lo32 0 = 0 := by
  unfold lo32
  norm_num

theorem widenParams_narrow (U D : ℕ) (g : ℚ) (hw : D ≤ U) :
    widenParams U D g = ⟨96, 96 * U, g⟩ := by
  unfold widenParams
  have hgt : ¬ D > U := by omega
  simp [hgt]

theorem widenParams_wide (U D : ℕ) (g : ℚ) (hU : 1 ≤ U) (hw : U < D) :
    (widenParams U D g).numTaps = (96 * D + U - 1) / U ∧
    (widenParams U D g).numCoefs = 96 * D ∧
    (widenParams U D g).gain = g * (((96 * U : ℕ) : ℚ) / ((96 * D : ℕ) : ℚ)) := by
  unfold widenParams
  have hgt : D > U := hw
  have hcoefs : 96 * U * D / U = 96 * D := by
    rw [show 96 * U * D = 96 * D * U from by ring]
    exact Nat.mul_div_cancel _ (by omega)
  simp [hgt, hcoefs]

theorem widenParams_numTaps_pos (U D : ℕ) (g : ℚ) (hU : 1 ≤ U) :
    1 ≤ (widenParams U D g).numTaps := by
  by_cases hw : D ≤ U
  · rw [widenParams_narrow U D g hw]
    norm_num
  · obtain ⟨h1, h2, h3⟩ := widenParams_wide U D g hU (by omega)
    rw [h1]
    rw [Nat.le_div_iff_mul_le (by omega : 0 < U)]
    omega

theorem widenParams_numCoefs_ge (U D : ℕ) (g : ℚ) (hU : 1 ≤ U) :
    96 * U ≤ (widenParams U D g).numCoefs := by
  by_cases hw : D ≤ U
  · rw [widenParams_narrow U D g hw]
  · obtain ⟨h1, h2, h3⟩ := widenParams_wide U D g hU (by omega)
    rw [h2]
    exact Nat.mul_le_mul_left 96 (by omega)

theorem construct_char (F G C : ℕ) (hin : 1 ≤ F) (hout : 1 ≤ G) :
    (G / Nat.gcd F G ≤ 640 →
      (construct F G C).step = 0 ∧
      (construct F G C).upFactor = G / Nat.gcd F G ∧
      (construct F G C).downFactor = F / Nat.gcd F G ∧
      (construct F G C).stepTable =
        stepTableOf (G / Nat.gcd F G) (F / Nat.gcd F G) ∧
      (construct F G C).numTaps =
        (createRationalFilter (G / Nat.gcd F G) (F / Nat.gcd F G) 1).1) ∧
    (640 < G / Nat.gcd F G →
      (construct F G C).upFactor = 256 ∧
      (construct F G C).downFactor = 256 * F / G ∧
      (construct F G C).step = ((F : ℤ) * 2 ^ 32) / (G : ℤ) ∧
      (construct F G C).bank = (createIrrationalFilter 256 (256 * F / G) 1).2 ∧
      (construct F G C).numTaps = (createIrrationalFilter 256 (256 * F / G) 1).1) := by
  unfold construct
  simp only [gcdSub_eq F G hin hout]
  constructor
  · intro hle
    have hngt : ¬ G / Nat.gcd F G > 640 := by omega
    rw [if_neg hngt]
    exact ⟨rfl, rfl, rfl, rfl, rfl⟩
  · intro hgt
    rw [if_pos hgt]
    exact ⟨rfl, rfl, rfl, rfl, rfl⟩

theorem construct_numChannels (F G C : ℕ) : (construct F G C).numChannels = C := by
  unfold construct
  by_cases h : G / gcdSub F G > 640
  · rw [if_pos h]
  · rw [if_neg h]

theorem construct_ok (F G C : ℕ) (hin : 1 ≤ F) (hout : 1 ≤ G)
    (hout2 : G < 2 ^ 31) : StateOK (construct F G C) := by
  unfold construct
  simp only [gcdSub_eq F G hin hout]
  have hgpos : 0 < Nat.gcd F G := Nat.gcd_pos_of_pos_left G hin
  have hu : 1 ≤ G / Nat.gcd F G :=
    Nat.div_pos (Nat.le_of_dvd hout (Nat.gcd_dvd_right F G)) hgpos
  have hd : 1 ≤ F / Nat.gcd F G :=
    Nat.div_pos (Nat.le_of_dvd hin (Nat.gcd_dvd_left F G)) hgpos
  by_cases hcase : G / Nat.gcd F G > 640
  · rw [if_pos hcase]
    have hT : 1 ≤ (createIrrationalFilter 256 (256 * F / G) 1).1 :=
      widenParams_numTaps_pos 256 (256 * F / G) 1 (by omega)
    have hFi : (1 : ℤ) ≤ (F : ℤ) := by exact_mod_cast hin
    have hGi : (1 : ℤ) ≤ (G : ℤ) := by exact_mod_cast hout
    have hGi2 : (G : ℤ) < 2 ^ 31 := by exact_mod_cast hout2
    have hstep : 1 ≤ ((F : ℤ) * 2 ^ 32) / (G : ℤ) := by
      rw [Int.le_ediv_iff_mul_le (by omega : (0 : ℤ) < (G : ℤ))]
      omega
    refine ⟨hT, ?_, ?_, ?_, ?_, ?_, ?_⟩
    · show (createIrrationalFilter 256 (256 * F / G) 1).1 - 1 + 1 =
        (createIrrationalFilter 256 (256 * F / G) 1).1
      omega
    · exact List.length_replicate _ _
    · exact List.length_replicate _ _
    · rw [hi32_zero]
    · intro hs
      have hs2 : ((F : ℤ) * 2 ^ 32) / (G : ℤ) = 0 := hs
      omega
    · intro hs
      exact hstep
  · rw [if_neg hcase]
    have hT : 1 ≤ (createRationalFilter (G / Nat.gcd F G) (F / Nat.gcd F G) 1).1 :=
      widenParams_numTaps_pos _ _ 1 hu
    refine ⟨hT, ?_, ?_, ?_, ?_, ?_, ?_⟩
    · show (createRationalFilter (G / Nat.gcd F G) (F / Nat.gcd F G) 1).1 - 1 + 1 =
        (createRationalFilter (G / Nat.gcd F G) (F / Nat.gcd F G) 1).1
      omega
    · exact List.length_replicate _ _
    · exact List.length_replicate _ _
    · rw [hi32_zero]
    · intro hs
      exact ⟨rfl, hu, hd, hu, lo32_zero⟩
    · intro hs
      exact absurd rfl hs

end AudioSRC

namespace AudioSRC

theorem ratLoop_stop (bank : ℕ → ℚ) (numTaps : ℕ) (table : List ℤ) (U : ℕ)
    (input : List ℚ) (n : ℤ) (fuel : ℕ) (i : ℤ) (φ : ℕ) (h : ¬ i < n) :
    (ratLoop bank numTaps table U input n fuel i φ).outs = [] ∧
    (ratLoop bank numTaps table U input n fuel i φ).i = i ∧
    (ratLoop bank numTaps table U input n fuel i φ).phase = φ := by
  cases fuel with
  | zero => simp [ratLoop]
  | succ fuel => simp [ratLoop, h]

theorem irrLoop_stop (bank : ℕ → ℚ) (numTaps : ℕ) (step : ℤ)
    (input : List ℚ) (n : ℤ) (fuel : ℕ) (offset : ℤ) (h : ¬ hi32 offset < n) :
    (irrLoop bank numTaps step input n fuel offset).outs = [] ∧
    (irrLoop bank numTaps step input n fuel offset).offset = offset := by
  cases fuel with
  | zero => simp [irrLoop]
  | succ fuel => simp [irrLoop, h]

theorem multirateFilter1_zero (s : AState) (input : List ℚ) (hok : StateOK s) :
    multirateFilter1 s input 0 = ([], s) := by
  obtain ⟨hT, hTH, hl0, hl1, hoff, hrat, hirr⟩ := hok
  unfold multirateFilter1
  by_cases hs : s.step = 0
  · obtain ⟨htbl, hU, hD, hφ, hlo⟩ := hrat hs
    simp only [hs, if_true]
    have hng : ¬ hi32 s.offset < ((0 : ℕ) : ℤ) := by push_cast; omega
    obtain ⟨ho, hi, hp⟩ := ratLoop_stop s.bank s.numTaps s.stepTable s.upFactor
      input ((0 : ℕ) : ℤ) (ratFuel s.upFactor 0) (hi32 s.offset) s.phase hng
    rw [ho, hi, hp]
    have hoff2 : (hi32 s.offset - ((0 : ℕ) : ℤ)) * 2 ^ 32 = s.offset := by
      have h1 := hi32_add_lo32 s.offset
      push_cast
      omega
    rw [hoff2, ← hs]
  · have hstep : 1 ≤ s.step := hirr hs
    simp only [if_neg hs]
    have hng : ¬ hi32 s.offset < ((0 : ℕ) : ℤ) := by push_cast; omega
    obtain ⟨ho, hof⟩ := irrLoop_stop s.bank s.numTaps s.step input ((0 : ℕ) : ℤ)
      (irrFuel 0) s.offset hng
    rw [ho, hof]
    have hoff2 : s.offset - ((0 : ℕ) : ℤ) * 2 ^ 32 = s.offset := by
      push_cast
      ring
    rw [hoff2]

theorem processFloat_zero (s : AState) (in0 in1 : List ℚ) (hok : StateOK s) :
    processFloat s in0 in1 0 = (([], []), s) := by
  unfold processFloat processFloatM
  by_cases hc1 : s.numChannels = 1
  · simp only [hc1, if_true, Nat.min_zero, Nat.sub_zero, List.take_zero,
      List.append_nil, List.drop_zero, ne_eq, reduceIte,
      multirateFilter1_zero s s.hist0 hok]
    simp
  · by_cases hc2 : s.numChannels = 2
    · simp only [hc1, hc2, reduceIte, Nat.min_zero, Nat.sub_zero, List.take_zero,
        List.append_nil, List.drop_zero, ne_eq, multirateFilter2_eq,
        multirateFilter1_zero s s.hist0 hok, multirateFilter1_zero s s.hist1 hok]
      simp
    · simp only [hc1, hc2, if_false, reduceIte]

theorem stepTableOf_sum (U D : ℕ) (hU : 1 ≤ U) :
    (stepTableOf U D).sum = (D : ℤ) := by
  have hgen : ∀ k : ℕ,
      (((List.range k).map fun i : ℕ =>
        ((i : ℤ) + 1) * D / U - (i : ℤ) * D / U).sum) =
      ((k : ℤ)) * D / U := by
    intro k
    induction k with
    | zero => simp
    | succ k ih =>
      rw [List.range_succ, List.map_append, List.sum_append, ih]
      simp only [List.map_cons, List.map_nil, List.sum_cons, List.sum_nil,
        add_zero]
      have hc : ((k + 1 : ℕ) : ℤ) = (k : ℤ) + 1 := by push_cast; ring
      rw [hc]
      have hg : ∀ a b : ℤ, a + (b - a) = b := fun a b => by ring
      exact hg _ _
  unfold stepTableOf
  rw [hgen U]
  rw [Int.mul_ediv_cancel_left _ (by exact_mod_cast (by omega : ¬ U = 0))]

theorem tempFilter_zero (numCoefs : ℕ) (g : ℚ) (hC : 3072 ≤ numCoefs)
    (hp0 : prototypeFilter.getD 0 0 = 0) : tempFilter numCoefs g 0 = 0 := by
  unfold tempFilter
  rw [if_pos (by omega : 0 < numCoefs)]
  unfold cubicInterp
  have hns : ¬ ((numCoefs : ℕ) < 3072) := by omega
  have hx : ¬ ((0 : ℤ) < 0) := by norm_num
  simp only [hns, if_false, Nat.cast_zero, zero_mul, add_zero, zero_add,
    hi32_zero, lo32_zero]
  simp only [Int.cast_zero, zero_div, mul_zero, zero_add, add_zero, zero_mul,
    hx, if_false, Int.toNat_zero]
  rw [hp0, zero_mul]

theorem irrationalBank_last_tap (U numTaps numCoefs : ℕ) (g : ℚ)
    (hT : 1 ≤ numTaps) (hU : 1 ≤ U) (hC : 3072 ≤ numCoefs)
    (hp0 : prototypeFilter.getD 0 0 = 0) :
    irrationalBank U numTaps numCoefs g (numTaps - 1) = 0 := by
  unfold irrationalBank
  have hlt : numTaps - 1 < numTaps := by omega
  have hdiv : (numTaps - 1) / numTaps = 0 := Nat.div_eq_of_lt hlt
  have hmod : (numTaps - 1) % numTaps = numTaps - 1 := Nat.mod_eq_of_lt hlt
  simp only [hdiv, hmod]
  rw [if_neg (by omega : ¬ (0 = U))]
  have he : (numTaps - 1 - (numTaps - 1)) * U + 0 = 0 := by
    rw [Nat.sub_self, Nat.zero_mul]
  rw [he]
  exact tempFilter_zero numCoefs g hC hp0

theorem irrationalBank_sentinel0 (U numTaps numCoefs : ℕ) (g : ℚ)
    (hT : 1 ≤ numTaps) :
    irrationalBank U numTaps numCoefs g (U * numTaps) = 0 := by
  unfold irrationalBank
  have hdiv : (U * numTaps) / numTaps = U := by
    rw [Nat.mul_comm]
    exact Nat.mul_div_cancel_left U (by omega)
  have hmod : (U * numTaps) % numTaps = 0 := Nat.mul_mod_left U numTaps
  simp [hdiv, hmod]

theorem irrationalBank_sentinel_shift (U numTaps numCoefs : ℕ) (g : ℚ) (j : ℕ)
    (hU : 1 ≤ U) (h1 : 1 ≤ j) (h2 : j < numTaps) :
    irrationalBank U numTaps numCoefs g (U * numTaps + j) =
      irrationalBank U numTaps numCoefs g (j - 1) := by
  unfold irrationalBank
  have hT : 1 ≤ numTaps := by omega
  have hdiv : (U * numTaps + j) / numTaps = U := by
    rw [Nat.mul_comm U numTaps, Nat.mul_add_div (by omega : 0 < numTaps)]
    rw [Nat.div_eq_of_lt h2]
    omega
  have hmod : (U * numTaps + j) % numTaps = j := by
    rw [Nat.mul_comm U numTaps, Nat.mul_add_mod]
    exact Nat.mod_eq_of_lt h2
  have hdiv2 : (j - 1) / numTaps = 0 := Nat.div_eq_of_lt (by omega)
  have hmod2 : (j - 1) % numTaps = j - 1 := Nat.mod_eq_of_lt (by omega)
  simp only [hdiv, hmod, hdiv2, hmod2, eq_self_iff_true, if_true]
  rw [if_neg (by omega : ¬ (j = 0)), if_neg (by omega : ¬ (0 = U))]

end AudioSRC

namespace AudioSRC

theorem prototypeFilter_head : prototypeFilter.getD 0 0 = 0 := by
  have h1 : 0 < protoBlock0.length := by decide
  have h0 : protoBlock0.get? 0 = some (0 : ℤ) := rfl
  unfold prototypeFilter
  rw [List.getD, List.get?_map, List.get?_append h1, h0]
  norm_num

theorem createIrrationalFilter_eq (U D : ℕ) (g : ℚ) :
    createIrrationalFilter U D g =
      ((widenParams U D g).numTaps,
       irrationalBank U (widenParams U D g).numTaps (widenParams U D g).numCoefs
         (widenParams U D g).gain) := rfl

theorem processFloat_snd_nil (s : AState) (in0 in1 : List ℚ) (n : ℕ)
    (hok : StateOK s) (hc1 : s.numChannels = 1) (hn : n ≤ in0.length) :
    (processFloat s in0 in1 n).1.2 = [] := by
  rw [processFloat_spec1 s in0 in1 n hok hc1 hn]

theorem processFloat_numChannels (s : AState) (in0 in1 : List ℚ) (n : ℕ)
    (hok : StateOK s) (hn0 : n ≤ in0.length) (hn1 : n ≤ in1.length) :
    (processFloat s in0 in1 n).2.numChannels = s.numChannels := by
  by_cases hc1 : s.numChannels = 1
  · rw [processFloat_spec1 s in0 in1 n hok hc1 hn0]
    show (multirateFilter1 s (s.hist0 ++ in0) n).2.numChannels = s.numChannels
    exact multirateFilter1_numChannels s _ n
  · by_cases hc2 : s.numChannels = 2
    · rw [processFloat_spec2 s in0 in1 n hok hc2 hn0 hn1]
      show (multirateFilter1 s (s.hist0 ++ in0) n).2.numChannels = s.numChannels
      exact multirateFilter1_numChannels s _ n
    · unfold processFloat processFloatM
      simp only [if_neg hc1, if_neg hc2]

end AudioSRC

namespace AudioSRC

/-- Claim C1 (refuted): the claim says processFloat reads the samples it
convolves, including the nh samples copied into the history buffer, from the
caller-supplied input arrays.  In the code the convolution and the history
refill read the member float buffers instead: below, the caller-supplied
arrays hold twos in both calls, yet the resulting history holds the member
buffer contents (ones in the first call), and only when the member buffers
also hold twos does the history hold twos. -/
theorem C1_processFloat_reads_member_buffers :
    (processFloatM (construct 1 1 1) (List.replicate 96 1) (List.replicate 96 1)
        (List.replicate 96 2) (List.replicate 96 2) 96).2.hist0 =
      List.replicate 95 (1 : ℚ) ∧
    (processFloatM (construct 1 1 1) (List.replicate 96 2) (List.replicate 96 2)
        (List.replicate 96 2) (List.replicate 96 2) 96).2.hist0 =
      List.replicate 95 (2 : ℚ) := by
  constructor
  · decide
  · decide

/-- Claim C2: streaming continuity.  Splitting an input stream at any frame
boundary and feeding the two halves sequentially to one resampler produces
the same outputs, bit-exactly concatenated, and the same final state as
feeding the whole stream in one processFloat call. -/
theorem C2_streaming_split (s : AState) (xs0 xs1 ys0 ys1 : List ℚ)
    (hok : StateOK s) (hc : s.numChannels = 1 ∨ s.numChannels = 2)
    (hx1 : xs1.length = xs0.length) (hy1 : ys1.length = ys0.length) :
    processFloat s (xs0 ++ ys0) (xs1 ++ ys1) (xs0.length + ys0.length) =
      (((processFloat s xs0 xs1 xs0.length).1.1 ++
          (processFloat (processFloat s xs0 xs1 xs0.length).2 ys0 ys1
            ys0.length).1.1,
        (processFloat s xs0 xs1 xs0.length).1.2 ++
          (processFloat (processFloat s xs0 xs1 xs0.length).2 ys0 ys1
            ys0.length).1.2),
       (processFloat (processFloat s xs0 xs1 xs0.length).2 ys0 ys1
         ys0.length).2) := by
  cases hc with
  | inr hc2 => exact processFloat_chain2 s xs0 xs1 ys0 ys1 hok hc2 hx1 hy1
  | inl hc1 =>
    have h1 : (processFloat s xs0 xs1 xs0.length).1.2 = [] :=
      processFloat_snd_nil s xs0 xs1 xs0.length hok hc1 le_rfl
    have hokR : StateOK (processFloat s xs0 xs1 xs0.length).2 :=
      processFloat_ok s xs0 xs1 xs0.length hok le_rfl (by omega)
    have hcR : (processFloat s xs0 xs1 xs0.length).2.numChannels = 1 := by
      rw [processFloat_numChannels s xs0 xs1 xs0.length hok le_rfl (by omega)]
      exact hc1
    have h2 : (processFloat (processFloat s xs0 xs1 xs0.length).2 ys0 ys1
        ys0.length).1.2 = [] :=
      processFloat_snd_nil _ ys0 ys1 ys0.length hokR hcR le_rfl
    rw [processFloat_chain1 s xs0 xs1 ys0 ys1 hok hc1 hx1 hy1, h1, h2,
      List.append_nil]

/-- Witness for C2 at a concrete rational configuration and a concrete split
stream. -/
theorem C2_streaming_split_witness :
    StateOK (construct 2 3 1) ∧
    ((construct 2 3 1).numChannels = 1 ∨ (construct 2 3 1).numChannels = 2) ∧
    ([(1 : ℚ)].length = [(1 : ℚ)].length) ∧
    ([(2 : ℚ)].length = [(2 : ℚ)].length) ∧
    processFloat (construct 2 3 1) ([(1 : ℚ)] ++ [(2 : ℚ)])
        ([(1 : ℚ)] ++ [(2 : ℚ)]) ([(1 : ℚ)].length + [(2 : ℚ)].length) =
      (((processFloat (construct 2 3 1) [(1 : ℚ)] [(1 : ℚ)]
            [(1 : ℚ)].length).1.1 ++
          (processFloat (processFloat (construct 2 3 1) [(1 : ℚ)] [(1 : ℚ)]
            [(1 : ℚ)].length).2 [(2 : ℚ)] [(2 : ℚ)] [(2 : ℚ)].length).1.1,
        (processFloat (construct 2 3 1) [(1 : ℚ)] [(1 : ℚ)]
            [(1 : ℚ)].length).1.2 ++
          (processFloat (processFloat (construct 2 3 1) [(1 : ℚ)] [(1 : ℚ)]
            [(1 : ℚ)].length).2 [(2 : ℚ)] [(2 : ℚ)] [(2 : ℚ)].length).1.2),
       (processFloat (processFloat (construct 2 3 1) [(1 : ℚ)] [(1 : ℚ)]
         [(1 : ℚ)].length).2 [(2 : ℚ)] [(2 : ℚ)] [(2 : ℚ)].length).2) :=
  ⟨construct_ok 2 3 1 (by norm_num) (by norm_num) (by norm_num),
   Or.inl (construct_numChannels 2 3 1), rfl, rfl,
   C2_streaming_split (construct 2 3 1) [(1 : ℚ)] [(1 : ℚ)] [(2 : ℚ)] [(2 : ℚ)]
     (construct_ok 2 3 1 (by norm_num) (by norm_num) (by norm_num))
     (Or.inl (construct_numChannels 2 3 1)) rfl rfl⟩

/-- Claim C3: with a valid state (in particular hi32 of the accumulator
nonnegative), processFloat emits at most getMaxOutput inputFrames output
frames per channel, and when the input block is at most
inputBlock = min 1024 (getMaxInput 1024) the output never exceeds
SRC_BLOCK = 1024 frames, so the assertion in render never fails. -/
theorem C3_output_bound (s : AState) (in0 in1 : List ℚ) (n : ℕ)
    (hok : StateOK s) (hc : s.numChannels = 1 ∨ s.numChannels = 2)
    (hn0 : n ≤ in0.length) (hn1 : n ≤ in1.length) :
    ((processFloat s in0 in1 n).1.1.length : ℤ) ≤ getMaxOutput s n ∧
    ((processFloat s in0 in1 n).1.2.length : ℤ) ≤ getMaxOutput s n ∧
    ((n : ℤ) ≤ inputBlock s →
      ((processFloat s in0 in1 n).1.1.length : ℤ) ≤ 1024 ∧
      ((processFloat s in0 in1 n).1.2.length : ℤ) ≤ 1024) := by
  obtain ⟨h1, h2⟩ := processFloat_len_le s in0 in1 n hok hc hn0 hn1
  refine ⟨h1, h2, ?_⟩
  intro hblk
  have h3 := getMaxOutput_block s n hok hblk
  exact ⟨by omega, by omega⟩

/-- Witness for C3 at a concrete rational configuration. -/
theorem C3_output_bound_witness :
    StateOK (construct 2 3 1) ∧
    ((construct 2 3 1).numChannels = 1 ∨ (construct 2 3 1).numChannels = 2) ∧
    1 ≤ [(1 : ℚ)].length ∧
    (((processFloat (construct 2 3 1) [(1 : ℚ)] [(1 : ℚ)] 1).1.1.length : ℤ) ≤
        getMaxOutput (construct 2 3 1) 1 ∧
      ((processFloat (construct 2 3 1) [(1 : ℚ)] [(1 : ℚ)] 1).1.2.length : ℤ) ≤
        getMaxOutput (construct 2 3 1) 1 ∧
      (((1 : ℕ) : ℤ) ≤ inputBlock (construct 2 3 1) →
        ((processFloat (construct 2 3 1) [(1 : ℚ)] [(1 : ℚ)] 1).1.1.length : ℤ) ≤
          1024 ∧
        ((processFloat (construct 2 3 1) [(1 : ℚ)] [(1 : ℚ)] 1).1.2.length : ℤ) ≤
          1024)) :=
  ⟨construct_ok 2 3 1 (by norm_num) (by norm_num) (by norm_num),
   Or.inl (construct_numChannels 2 3 1), by norm_num,
   C3_output_bound (construct 2 3 1) [(1 : ℚ)] [(1 : ℚ)] 1
     (construct_ok 2 3 1 (by norm_num) (by norm_num) (by norm_num))
     (Or.inl (construct_numChannels 2 3 1)) (by norm_num) (by norm_num)⟩

/-- Claim C4: construction reduces the rate pair by its gcd and selects
rational mode exactly when the reduced upsampling factor is at most 640;
otherwise it selects irrational mode with upFactor 256,
downFactor = 256*Fin/Fout and the Q32.32 step = (Fin*2^32)/Fout. -/
theorem C4_mode_selection (F G C : ℕ) (hin : 1 ≤ F) (hout : 1 ≤ G)
    (hout2 : G < 2 ^ 31) :
    ((construct F G C).step = 0 ↔ G / Nat.gcd F G ≤ 640) ∧
    (G / Nat.gcd F G ≤ 640 →
      (construct F G C).upFactor = G / Nat.gcd F G ∧
      (construct F G C).downFactor = F / Nat.gcd F G ∧
      (construct F G C).step = 0) ∧
    (640 < G / Nat.gcd F G →
      (construct F G C).upFactor = 256 ∧
      (construct F G C).downFactor = 256 * F / G ∧
      (construct F G C).step = ((F : ℤ) * 2 ^ 32) / (G : ℤ)) := by
  obtain ⟨hr, hirr2⟩ := construct_char F G C hin hout
  have hFi : (1 : ℤ) ≤ (F : ℤ) := by exact_mod_cast hin
  have hGi : (1 : ℤ) ≤ (G : ℤ) := by exact_mod_cast hout
  have hGi2 : (G : ℤ) < 2 ^ 31 := by exact_mod_cast hout2
  have hstep1 : 1 ≤ ((F : ℤ) * 2 ^ 32) / (G : ℤ) := by
    rw [Int.le_ediv_iff_mul_le (by omega : (0 : ℤ) < (G : ℤ))]
    omega
  refine ⟨⟨?_, fun h => (hr h).1⟩,
    fun h => ⟨(hr h).2.1, (hr h).2.2.1, (hr h).1⟩,
    fun h => ⟨(hirr2 h).1, (hirr2 h).2.1, (hirr2 h).2.2.1⟩⟩
  intro hstep
  by_contra hgt
  have hgt2 : 640 < G / Nat.gcd F G := by omega
  have hs2 := (hirr2 hgt2).2.2.1
  rw [hstep] at hs2
  omega

/-- Witness for C4 at the irrational pair 610 to 987 (coprime, reduced
upsampling factor 987 above 640). -/
theorem C4_mode_selection_witness :
    1 ≤ 610 ∧ 1 ≤ 987 ∧ 987 < 2 ^ 31 ∧
    (((construct 610 987 1).step = 0 ↔ 987 / Nat.gcd 610 987 ≤ 640) ∧
      (987 / Nat.gcd 610 987 ≤ 640 →
        (construct 610 987 1).upFactor = 987 / Nat.gcd 610 987 ∧
        (construct 610 987 1).downFactor = 610 / Nat.gcd 610 987 ∧
        (construct 610 987 1).step = 0) ∧
      (640 < 987 / Nat.gcd 610 987 →
        (construct 610 987 1).upFactor = 256 ∧
        (construct 610 987 1).downFactor = 256 * 610 / 987 ∧
        (construct 610 987 1).step = (((610 : ℕ) : ℤ) * 2 ^ 32) / ((987 : ℕ) : ℤ))) :=
  ⟨by norm_num, by norm_num, by norm_num,
   C4_mode_selection 610 987 1 (by norm_num) (by norm_num) (by norm_num)⟩

/-- Claim C5: in rational mode the stored step table is the one built by
createRationalFilter, entry i equals the floored difference
((i+1)*D)/U - (i*D)/U, and the entries sum to D. -/
theorem C5_stepTable_sum (F G C : ℕ) (i : ℕ) (hin : 1 ≤ F) (hout : 1 ≤ G)
    (hrat : G / Nat.gcd F G ≤ 640) (hiU : i < (construct F G C).upFactor) :
    (construct F G C).stepTable =
      (createRationalFilter (construct F G C).upFactor
        (construct F G C).downFactor 1).2.2 ∧
    (construct F G C).stepTable.getD i 0 =
      ((((i + 1) * (construct F G C).downFactor) /
          (construct F G C).upFactor : ℕ) : ℤ) -
      (((i * (construct F G C).downFactor) /
          (construct F G C).upFactor : ℕ) : ℤ) ∧
    (construct F G C).stepTable.sum = ((construct F G C).downFactor : ℤ) := by
  obtain ⟨hr, -⟩ := construct_char F G C hin hout
  obtain ⟨hstep, hup, hdown, htbl, -⟩ := hr hrat
  have hgpos : 0 < Nat.gcd F G := Nat.gcd_pos_of_pos_left G hin
  have hu : 1 ≤ G / Nat.gcd F G :=
    Nat.div_pos (Nat.le_of_dvd hout (Nat.gcd_dvd_right F G)) hgpos
  rw [hup] at hiU
  refine ⟨?_, ?_, ?_⟩
  · rw [htbl, hup, hdown]
    exact rfl
  · rw [htbl, hup, hdown]
    exact stepTableOf_getD _ _ i hiU
  · rw [htbl, hdown]
    exact stepTableOf_sum _ _ hu

/-- Witness for C5 at the rational pair 44100 to 48000 (reduced to 147 to
160) and table entry 0. -/
theorem C5_stepTable_sum_witness :
    1 ≤ 44100 ∧ 1 ≤ 48000 ∧ 48000 / Nat.gcd 44100 48000 ≤ 640 ∧
    0 < (construct 44100 48000 1).upFactor ∧
    ((construct 44100 48000 1).stepTable =
        (createRationalFilter (construct 44100 48000 1).upFactor
          (construct 44100 48000 1).downFactor 1).2.2 ∧
      (construct 44100 48000 1).stepTable.getD 0 0 =
        ((((0 + 1) * (construct 44100 48000 1).downFactor) /
            (construct 44100 48000 1).upFactor : ℕ) : ℤ) -
        (((0 * (construct 44100 48000 1).downFactor) /
            (construct 44100 48000 1).upFactor : ℕ) : ℤ) ∧
      (construct 44100 48000 1).stepTable.sum =
        ((construct 44100 48000 1).downFactor : ℤ)) :=
  ⟨by norm_num, by norm_num, by norm_num, by decide,
   C5_stepTable_sum 44100 48000 1 0 (by norm_num) (by norm_num) (by norm_num)
     (by decide)⟩

end AudioSRC

namespace AudioSRC

/-- Claim C6: in both filter builders, with the prototype tap count 96, the
tap count is 96 when D is at most U, and the ceiling of 96*D/U when D exceeds
U, in which case the coefficient count becomes 96*D and the interpolation
gain is compensated by oldCoefs/newCoefs = (96*U)/newCoefs. -/
theorem C6_filter_widening (U D : ℕ) (g : ℚ) (hU : 1 ≤ U) :
    (createRationalFilter U D g).1 = (widenParams U D g).numTaps ∧
    (createIrrationalFilter U D g).1 = (widenParams U D g).numTaps ∧
    (D ≤ U → (widenParams U D g).numTaps = 96 ∧ (widenParams U D g).gain = g) ∧
    (U < D →
      ((widenParams U D g).numTaps : ℤ) =
        ⌈(((96 * D : ℕ) : ℤ) : ℚ) / ((U : ℤ) : ℚ)⌉ ∧
      (widenParams U D g).numCoefs = 96 * D ∧
      (widenParams U D g).gain =
        g * (((96 * U : ℕ) : ℚ) / ((widenParams U D g).numCoefs : ℚ))) := by
  refine ⟨rfl, rfl, ?_, ?_⟩
  · intro hw
    rw [widenParams_narrow U D g hw]
    exact ⟨rfl, rfl⟩
  · intro hw
    obtain ⟨h1, h2, h3⟩ := widenParams_wide U D g hU hw
    refine ⟨?_, h2, ?_⟩
    · rw [h1, ceilDivInt ((96 * D : ℕ) : ℤ) ((U : ℤ))
        (by exact_mod_cast (by omega : 0 < U))]
      rw [Int.natCast_div]
      congr 1
      omega
    · rw [h2]
      exact h3

/-- Witness for C6 at the widening pair U = 2, D = 5. -/
theorem C6_filter_widening_witness :
    1 ≤ 2 ∧
    ((createRationalFilter 2 5 1).1 = (widenParams 2 5 1).numTaps ∧
      (createIrrationalFilter 2 5 1).1 = (widenParams 2 5 1).numTaps ∧
      (5 ≤ 2 → (widenParams 2 5 1).numTaps = 96 ∧ (widenParams 2 5 1).gain = 1) ∧
      (2 < 5 →
        ((widenParams 2 5 (1 : ℚ)).numTaps : ℤ) =
          ⌈(((96 * 5 : ℕ) : ℤ) : ℚ) / (((2 : ℕ) : ℤ) : ℚ)⌉ ∧
        (widenParams 2 5 (1 : ℚ)).numCoefs = 96 * 5 ∧
        (widenParams 2 5 (1 : ℚ)).gain =
          (1 : ℚ) * (((96 * 2 : ℕ) : ℚ) / ((widenParams 2 5 (1 : ℚ)).numCoefs : ℚ)))) :=
  ⟨by norm_num, C6_filter_widening 2 5 1 (by norm_num)⟩

/-- Claim C7: for an irrational-mode construction the last tap of phase 0 of
the coefficient bank is exactly 0 (the assertion in createIrrationalFilter
never fails), the sentinel row starts with 0, and its remaining taps are
phase 0 shifted by one tap. -/
theorem C7_irrational_sentinel (F G C j : ℕ) (hin : 1 ≤ F) (hout : 1 ≤ G)
    (hirr : 640 < G / Nat.gcd F G) (h1 : 1 ≤ j)
    (h2 : j < (construct F G C).numTaps) :
    (construct F G C).bank ((construct F G C).numTaps - 1) = 0 ∧
    (construct F G C).bank (256 * (construct F G C).numTaps) = 0 ∧
    (construct F G C).bank (256 * (construct F G C).numTaps + j) =
      (construct F G C).bank (j - 1) := by
  obtain ⟨-, hichar⟩ := construct_char F G C hin hout
  obtain ⟨hup, hdown, hstep, hbank, hnt⟩ := hichar hirr
  have hb2 : (construct F G C).bank =
      irrationalBank 256 (widenParams 256 (256 * F / G) 1).numTaps
        (widenParams 256 (256 * F / G) 1).numCoefs
        (widenParams 256 (256 * F / G) 1).gain := hbank
  have hn2 : (construct F G C).numTaps =
      (widenParams 256 (256 * F / G) 1).numTaps := hnt
  have hT : 1 ≤ (widenParams 256 (256 * F / G) 1).numTaps :=
    widenParams_numTaps_pos 256 (256 * F / G) 1 (by norm_num)
  have hC3 : 3072 ≤ (widenParams 256 (256 * F / G) 1).numCoefs := by
    have h4 := widenParams_numCoefs_ge 256 (256 * F / G) 1 (by norm_num)
    omega
  rw [hn2] at h2
  rw [hb2, hn2]
  exact ⟨irrationalBank_last_tap 256 _ _ _ hT (by norm_num) hC3
      prototypeFilter_head,
    irrationalBank_sentinel0 256 _ _ _ hT,
    irrationalBank_sentinel_shift 256 _ _ _ j (by norm_num) h1 h2⟩

/-- Witness for C7 at the irrational pair 610 to 987 and sentinel tap j = 1. -/
theorem C7_irrational_sentinel_witness :
    1 ≤ 610 ∧ 1 ≤ 987 ∧ 640 < 987 / Nat.gcd 610 987 ∧ 1 ≤ 1 ∧
    1 < (construct 610 987 1).numTaps ∧
    ((construct 610 987 1).bank ((construct 610 987 1).numTaps - 1) = 0 ∧
      (construct 610 987 1).bank (256 * (construct 610 987 1).numTaps) = 0 ∧
      (construct 610 987 1).bank (256 * (construct 610 987 1).numTaps + 1) =
        (construct 610 987 1).bank (1 - 1)) :=
  ⟨by norm_num, by norm_num, by norm_num, by norm_num, by decide,
   C7_irrational_sentinel 610 987 1 1 (by norm_num) (by norm_num) (by norm_num)
     (by norm_num) (by decide)⟩

/-- Claim C8: the four frame oracles compute the exact floor and ceiling
formulas of the spec, in rational mode over U and D and in irrational mode
over the Q32.32 step. -/
theorem C8_minmax_oracles (s : AState) (n m : ℕ) (hok : StateOK s) :
    (s.step = 0 →
      getMinOutput s n =
        ⌊(((n : ℤ) * (s.upFactor : ℤ)) : ℚ) / ((s.downFactor : ℤ) : ℚ)⌋ ∧
      getMaxOutput s n =
        ⌈(((n : ℤ) * (s.upFactor : ℤ)) : ℚ) / ((s.downFactor : ℤ) : ℚ)⌉ ∧
      getMinInput s m =
        ⌈(((m : ℤ) * (s.downFactor : ℤ)) : ℚ) / ((s.upFactor : ℤ) : ℚ)⌉ ∧
      getMaxInput s m =
        ⌊(((m : ℤ) * (s.downFactor : ℤ)) : ℚ) / ((s.upFactor : ℤ) : ℚ)⌋) ∧
    (s.step ≠ 0 →
      getMinOutput s n = ⌊(((n : ℤ) * 2 ^ 32) : ℚ) / ((s.step : ℤ) : ℚ)⌋ ∧
      getMaxOutput s n = ⌈(((n : ℤ) * 2 ^ 32) : ℚ) / ((s.step : ℤ) : ℚ)⌉ ∧
      getMinInput s m = ⌈(((m : ℤ) * s.step) : ℚ) / (((2 : ℤ) ^ 32) : ℚ)⌉ ∧
      getMaxInput s m = ⌊(((m : ℤ) * s.step) : ℚ) / (((2 : ℤ) ^ 32) : ℚ)⌋) := by
  obtain ⟨hT, hTH, hl0, hl1, hoff, hrat, hirr⟩ := hok
  constructor
  · intro hs
    obtain ⟨htbl, hU, hD, hφ, hlo⟩ := hrat hs
    have hUp : (0 : ℤ) < (s.upFactor : ℤ) := by exact_mod_cast hU
    have hDp : (0 : ℤ) < (s.downFactor : ℤ) := by exact_mod_cast hD
    refine ⟨?_, ?_, ?_, ?_⟩
    · unfold getMinOutput
      rw [if_pos hs]
      rw [← floorDivInt ((n : ℤ) * (s.upFactor : ℤ)) (s.downFactor : ℤ) hDp]
      congr 1
      push_cast
      ring
    · unfold getMaxOutput
      rw [if_pos hs]
      rw [← ceilDivInt ((n : ℤ) * (s.upFactor : ℤ)) (s.downFactor : ℤ) hDp]
      congr 1
      push_cast
      ring
    · unfold getMinInput
      rw [if_pos hs]
      rw [← ceilDivInt ((m : ℤ) * (s.downFactor : ℤ)) (s.upFactor : ℤ) hUp]
      congr 1
      push_cast
      ring
    · unfold getMaxInput
      rw [if_pos hs]
      rw [← floorDivInt ((m : ℤ) * (s.downFactor : ℤ)) (s.upFactor : ℤ) hUp]
      congr 1
      push_cast
      ring
  · intro hs
    have hstep : 1 ≤ s.step := hirr hs
    refine ⟨?_, ?_, ?_, ?_⟩
    · unfold getMinOutput
      rw [if_neg hs]
      rw [← floorDivInt ((n : ℤ) * 2 ^ 32) s.step (by omega)]
      congr 1
      push_cast
      ring
    · unfold getMaxOutput
      rw [if_neg hs]
      rw [← ceilDivInt ((n : ℤ) * 2 ^ 32) s.step (by omega)]
      congr 1
      push_cast
      ring
    · unfold getMinInput
      rw [if_neg hs]
      have h := ceilDivInt ((m : ℤ) * s.step) ((2 : ℤ) ^ 32) (by norm_num)
      have h2 : ((m : ℤ) * s.step + 2 ^ 32 - 1) =
          ((m : ℤ) * s.step + 4294967295) := by omega
      rw [h2] at h
      rw [← h]
      congr 1
      push_cast
      ring
    · unfold getMaxInput
      rw [if_neg hs]
      rw [← floorDivInt ((m : ℤ) * s.step) ((2 : ℤ) ^ 32) (by norm_num)]
      congr 1
      push_cast
      ring

/-- Witness for C8 at a concrete rational configuration, n = 5 and m = 7. -/
theorem C8_minmax_oracles_witness :
    StateOK (construct 2 3 1) ∧
    (((construct 2 3 1).step = 0 →
      getMinOutput (construct 2 3 1) 5 =
        ⌊((((5 : ℕ) : ℤ) * ((construct 2 3 1).upFactor : ℤ)) : ℚ) /
          (((construct 2 3 1).downFactor : ℤ) : ℚ)⌋ ∧
      getMaxOutput (construct 2 3 1) 5 =
        ⌈((((5 : ℕ) : ℤ) * ((construct 2 3 1).upFactor : ℤ)) : ℚ) /
          (((construct 2 3 1).downFactor : ℤ) : ℚ)⌉ ∧
      getMinInput (construct 2 3 1) 7 =
        ⌈((((7 : ℕ) : ℤ) * ((construct 2 3 1).downFactor : ℤ)) : ℚ) /
          (((construct 2 3 1).upFactor : ℤ) : ℚ)⌉ ∧
      getMaxInput (construct 2 3 1) 7 =
        ⌊((((7 : ℕ) : ℤ) * ((construct 2 3 1).downFactor : ℤ)) : ℚ) /
          (((construct 2 3 1).upFactor : ℤ) : ℚ)⌋) ∧
    ((construct 2 3 1).step ≠ 0 →
      getMinOutput (construct 2 3 1) 5 =
        ⌊((((5 : ℕ) : ℤ) * 2 ^ 32) : ℚ) / (((construct 2 3 1).step : ℤ) : ℚ)⌋ ∧
      getMaxOutput (construct 2 3 1) 5 =
        ⌈((((5 : ℕ) : ℤ) * 2 ^ 32) : ℚ) / (((construct 2 3 1).step : ℤ) : ℚ)⌉ ∧
      getMinInput (construct 2 3 1) 7 =
        ⌈((((7 : ℕ) : ℤ) * (construct 2 3 1).step) : ℚ) / (((2 : ℤ) ^ 32) : ℚ)⌉ ∧
      getMaxInput (construct 2 3 1) 7 =
        ⌊((((7 : ℕ) : ℤ) * (construct 2 3 1).step) : ℚ) / (((2 : ℤ) ^ 32) : ℚ)⌋)) :=
  ⟨construct_ok 2 3 1 (by norm_num) (by norm_num) (by norm_num),
   C8_minmax_oracles (construct 2 3 1) 5 7
     (construct_ok 2 3 1 (by norm_num) (by norm_num) (by norm_num))⟩

/-- Claim C9: a processFloat call with inputFrames = 0 emits no output frames
and returns the state, accumulator, phase index and history buffers included,
unchanged. -/
theorem C9_zero_frames (s : AState) (in0 in1 : List ℚ) (hok : StateOK s) :
    processFloat s in0 in1 0 = (([], []), s) :=
  processFloat_zero s in0 in1 hok

/-- Witness for C9 at a concrete rational configuration. -/
theorem C9_zero_frames_witness :
    StateOK (construct 2 3 1) ∧
    processFloat (construct 2 3 1) [(5 : ℚ)] [(6 : ℚ)] 0 =
      (([], []), construct 2 3 1) :=
  ⟨construct_ok 2 3 1 (by norm_num) (by norm_num) (by norm_num),
   C9_zero_frames (construct 2 3 1) [(5 : ℚ)] [(6 : ℚ)]
     (construct_ok 2 3 1 (by norm_num) (by norm_num) (by norm_num))⟩

/-- Claim C10: the rational-mode invariant. At construction the accumulator
is 0 (so its low word is 0 and its high word nonnegative) and the phase index
is below upFactor; multirateFilter1 and multirateFilter2 both preserve the
three conditions from any valid rational-mode state. -/
theorem C10_rational_invariant (F G C : ℕ) (s : AState)
    (input in0 in1 : List ℚ) (n : ℕ) (hin : 1 ≤ F) (hout : 1 ≤ G)
    (hok : StateOK s) (hrat : s.step = 0) :
    (lo32 (construct F G C).offset = 0 ∧ 0 ≤ hi32 (construct F G C).offset ∧
      (construct F G C).phase < (construct F G C).upFactor) ∧
    (lo32 (multirateFilter1 s input n).2.offset = 0 ∧
      0 ≤ hi32 (multirateFilter1 s input n).2.offset ∧
      (multirateFilter1 s input n).2.phase <
        (multirateFilter1 s input n).2.upFactor) ∧
    (lo32 (multirateFilter2 s in0 in1 n).2.offset = 0 ∧
      0 ≤ hi32 (multirateFilter2 s in0 in1 n).2.offset ∧
      (multirateFilter2 s in0 in1 n).2.phase <
        (multirateFilter2 s in0 in1 n).2.upFactor) := by
  have hgpos : 0 < Nat.gcd F G := Nat.gcd_pos_of_pos_left G hin
  have hu : 1 ≤ G / Nat.gcd F G :=
    Nat.div_pos (Nat.le_of_dvd hout (Nat.gcd_dvd_right F G)) hgpos
  refine ⟨?_, ?_, ?_⟩
  · unfold construct
    simp only [gcdSub_eq F G hin hout]
    by_cases hcase : G / Nat.gcd F G > 640
    · rw [if_pos hcase]
      refine ⟨lo32_zero, ?_, ?_⟩
      · rw [hi32_zero]
      · show 0 < 256
        norm_num
    · rw [if_neg hcase]
      refine ⟨lo32_zero, ?_, ?_⟩
      · rw [hi32_zero]
      · exact hu
  · have hm := multirateFilter1_ok s input n hok
    obtain ⟨-, -, -, -, moff, mrat, -⟩ := hm
    have hstep : (multirateFilter1 s input n).2.step = 0 := by
      rw [multirateFilter1_step]
      exact hrat
    obtain ⟨-, -, -, mph, mlo⟩ := mrat hstep
    exact ⟨mlo, moff, mph⟩
  · rw [multirateFilter2_eq]
    have hm := multirateFilter1_ok s in0 n hok
    obtain ⟨-, -, -, -, moff, mrat, -⟩ := hm
    have hstep : (multirateFilter1 s in0 n).2.step = 0 := by
      rw [multirateFilter1_step]
      exact hrat
    obtain ⟨-, -, -, mph, mlo⟩ := mrat hstep
    exact ⟨mlo, moff, mph⟩

/-- Witness for C10 at the rational pair 2 to 3. -/
theorem C10_rational_invariant_witness :
    1 ≤ 2 ∧ 1 ≤ 3 ∧ StateOK (construct 2 3 1) ∧ (construct 2 3 1).step = 0 ∧
    ((lo32 (construct 2 3 1).offset = 0 ∧ 0 ≤ hi32 (construct 2 3 1).offset ∧
      (construct 2 3 1).phase < (construct 2 3 1).upFactor) ∧
    (lo32 (multirateFilter1 (construct 2 3 1) [(1 : ℚ)] 1).2.offset = 0 ∧
      0 ≤ hi32 (multirateFilter1 (construct 2 3 1) [(1 : ℚ)] 1).2.offset ∧
      (multirateFilter1 (construct 2 3 1) [(1 : ℚ)] 1).2.phase <
        (multirateFilter1 (construct 2 3 1) [(1 : ℚ)] 1).2.upFactor) ∧
    (lo32 (multirateFilter2 (construct 2 3 1) [(1 : ℚ)] [(2 : ℚ)] 1).2.offset = 0 ∧
      0 ≤ hi32 (multirateFilter2 (construct 2 3 1) [(1 : ℚ)] [(2 : ℚ)] 1).2.offset ∧
      (multirateFilter2 (construct 2 3 1) [(1 : ℚ)] [(2 : ℚ)] 1).2.phase <
        (multirateFilter2 (construct 2 3 1) [(1 : ℚ)] [(2 : ℚ)] 1).2.upFactor)) :=
  ⟨by norm_num, by norm_num,
   construct_ok 2 3 1 (by norm_num) (by norm_num) (by norm_num), by decide,
   C10_rational_invariant 2 3 1 (construct 2 3 1) [(1 : ℚ)] [(1 : ℚ)] [(2 : ℚ)] 1
     (by norm_num) (by norm_num)
     (construct_ok 2 3 1 (by norm_num) (by norm_num) (by norm_num)) (by decide)⟩

end AudioSRC
